import Mathlib

/-!
# libewf interface functions (`libewf/libewf_interface.c`)

A shallow embedding of the getters, setters, parsers and copy functions of
`libewf_interface.c`.

Conventions of the embedding

* A C pointer that may be `NULL` is an `Option`; `none` is `NULL`.
* `libewf_handle_t *handle` is `Option libewf_internal_handle_t`; every
  interface function returns the handle as it is after the call.
* An output argument `T *out` is passed as `Option T`: `none` is a `NULL`
  pointer, `some v` a valid pointer whose pointee currently holds `v`.  The
  function returns the pointee after the call, so "not written" reads
  "returned unchanged".
* Machine integers are `Nat`/`Int`; the width is made explicit where the
  source casts or multiplies.
* The error object (`liberror_error_set`, `libewf_notify_error_backtrace`,
  `liberror_error_free`) only feeds the notification stream and is left out.
* Functions and constants that are declared in headers outside
  `libewf_interface.c` are fields of `Definitions` (constants) and
  `Collaborators` (functions).
-/

namespace Libewf

/-! ## Limits of `<stdint.h>` -/

def INT8_MAX : Nat := 127
def INT32_MAX : Nat := 2147483647
def INT64_MAX : Nat := 9223372036854775807
def UINT64_MOD : Nat := 18446744073709551616

/-! ## Data model -/

/-- The media values (`libewf_media_values_t`), with the fields that
`libewf_interface.c` reads or writes. -/
structure libewf_media_values_t where
  media_size : Nat
  chunk_size : Nat
  sectors_per_chunk : Nat
  bytes_per_sector : Nat
  amount_of_sectors : Nat
  error_granularity : Nat
  media_type : Nat
  media_flags : Nat
  guid : List Nat
deriving DecidableEq, Repr

/-- A sector table (`libewf_sector_table_t`): `amount` is read directly by
the interface, the entries are only reached through the table functions. -/
structure libewf_sector_table_t where
  amount : Nat
  sector : List (Int × Nat)
deriving DecidableEq, Repr

/-- A values table (`libewf_values_table_t`): `value` is the array of value
strings, itself possibly `NULL`, with possibly `NULL` entries. -/
structure libewf_values_table_t where
  amount_of_values : Nat
  identifier : Option (List (Option (List Nat)))
  value : Option (List (Option (List Nat)))
deriving DecidableEq, Repr

/-- The segment table, of which the interface only passes the pointer on:
here it is the basename it stores. -/
structure libewf_segment_table_t where
  basename : Option (List Nat)
deriving DecidableEq, Repr

/-- The read subhandle (`internal_handle->read`). -/
structure libewf_read_t where
  crc_errors : Option libewf_sector_table_t
  wipe_on_error : Nat
deriving DecidableEq, Repr

/-- The write subhandle (`internal_handle->write`). -/
structure libewf_write_t where
  values_initialized : Nat
  segment_file_size : Nat
  delta_segment_file_size : Nat
  maximum_segment_file_size : Nat
  amount_of_chunks : Nat
deriving DecidableEq, Repr

/-- The header sections (`internal_handle->header_sections`). -/
structure libewf_header_sections_t where
  header : Option (List Nat)
  header_size : Nat
  header2 : Option (List Nat)
  header2_size : Nat
  xheader : Option (List Nat)
  xheader_size : Nat
  header_codepage : Int
deriving DecidableEq, Repr

/-- The hash sections (`internal_handle->hash_sections`). -/
structure libewf_hash_sections_t where
  xhash : Option (List Nat)
  xhash_size : Nat
  md5_hash : List Nat
  md5_hash_set : Nat
  md5_digest : List Nat
  md5_digest_set : Nat
  sha1_digest : List Nat
  sha1_digest_set : Nat
deriving DecidableEq, Repr

/-- The internal handle (`libewf_internal_handle_t`), with the members that
`libewf_interface.c` reaches. -/
structure libewf_internal_handle_t where
  read : Option libewf_read_t
  write : Option libewf_write_t
  media_values : Option libewf_media_values_t
  segment_table : Option libewf_segment_table_t
  delta_segment_table : Option libewf_segment_table_t
  header_sections : Option libewf_header_sections_t
  hash_sections : Option libewf_hash_sections_t
  header_values : Option libewf_values_table_t
  hash_values : Option libewf_values_table_t
  acquiry_errors : Option libewf_sector_table_t
  sessions : Option libewf_sector_table_t
  compression_level : Int
  compress_empty_block : Nat
  format : Nat
deriving DecidableEq, Repr

/-- The result of an interface call: the C return value, the handle after the
call and the output arguments after the call. -/
structure Outcome (α : Type) where
  result : Int
  handle : Option libewf_internal_handle_t
  out : α
deriving DecidableEq, Repr

/-- Constants of `libewf_definitions.h` and `ewf_definitions.h`, which the
interface names but does not define. -/
structure Definitions where
  LIBEWF_FLAG_READ : Nat
  LIBEWF_FLAG_WRITE : Nat
  EWF_COMPRESSION_NONE : Int
  EWF_COMPRESSION_FAST : Int
  EWF_COMPRESSION_BEST : Int
  EWF_MEDIA_FLAGS_IS_PHYSICAL : Nat
  LIBEWF_VOLUME_TYPE_LOGICAL : Nat
  LIBEWF_VOLUME_TYPE_PHYSICAL : Nat
  LIBEWF_FORMAT_ENCASE2 : Nat
  LIBEWF_FORMAT_ENCASE3 : Nat
  LIBEWF_CODEPAGE_ASCII : Int
  LIBEWF_CODEPAGE_WINDOWS_1250 : Int
  LIBEWF_CODEPAGE_WINDOWS_1251 : Int
  LIBEWF_CODEPAGE_WINDOWS_1252 : Int
  LIBEWF_CODEPAGE_WINDOWS_1253 : Int
  LIBEWF_CODEPAGE_WINDOWS_1254 : Int
  LIBEWF_CODEPAGE_WINDOWS_1256 : Int
  LIBEWF_CODEPAGE_WINDOWS_1257 : Int
  LIBEWF_HEADER_VALUES_DEFAULT_AMOUNT : Nat
  LIBEWF_HASH_VALUES_DEFAULT_AMOUNT : Nat
  LIBEWF_HEADER_VALUES_INDEX_ACQUIRY_SOFTWARE_VERSION : Nat

/-- Functions of the other translation units of the library that the
interface calls (`libewf_handle.h`, `libewf_hash_values.h`,
`libewf_header_values.h`, `libewf_segment_file_handle.h` and the table
functions).  Each takes the objects its pointer arguments reach and returns
its C return value with these objects after the call.  The table getters
(`get_sector`, `get_value`, `get_identifier`, `get_basename`) read the table
and write their output arguments only. -/
structure Collaborators where
  libewf_internal_handle_set_media_values :
    libewf_internal_handle_t → Nat → Nat → Nat → Int × libewf_internal_handle_t
  libewf_internal_handle_set_format :
    libewf_internal_handle_t → Nat → Int × libewf_internal_handle_t
  libewf_segment_table_get_basename :
    Option libewf_segment_table_t → Option (List Nat) → Nat → Int × Option (List Nat)
  libewf_segment_table_get_basename_wide :
    Option libewf_segment_table_t → Option (List Nat) → Nat → Int × Option (List Nat)
  libewf_segment_table_set_basename :
    Option libewf_segment_table_t → List Nat → Nat → Int × Option libewf_segment_table_t
  libewf_segment_table_set_basename_wide :
    Option libewf_segment_table_t → List Nat → Nat → Int × Option libewf_segment_table_t
  libewf_sector_table_get_sector :
    Option libewf_sector_table_t → Nat → Option Int → Option Nat →
      Int × Option Int × Option Nat
  libewf_sector_table_add_sector :
    Option libewf_sector_table_t → Int → Nat → Nat → Int × Option libewf_sector_table_t
  libewf_values_table_initialize :
    Option libewf_values_table_t → Nat → Int × Option libewf_values_table_t
  libewf_header_values_initialize :
    Option libewf_values_table_t → Int × Option libewf_values_table_t
  libewf_hash_values_initialize :
    Option libewf_values_table_t → Int × Option libewf_values_table_t
  libewf_values_table_get_identifier :
    Option libewf_values_table_t → Nat → Option (List Nat) → Nat → Int × Option (List Nat)
  libewf_values_table_get_value :
    Option libewf_values_table_t → List Nat → Nat → Option (List Nat) → Nat →
      Int × Option (List Nat)
  libewf_values_table_set_value :
    Option libewf_values_table_t → List Nat → Nat → Option (List Nat) → Nat →
      Int × Option libewf_values_table_t
  libewf_header_values_copy :
    Option libewf_values_table_t → Option libewf_values_table_t →
      Int × Option libewf_values_table_t × Option libewf_values_table_t
  libewf_header_values_parse_xheader :
    Option libewf_values_table_t → List Nat → Nat → Nat → Int × Option libewf_values_table_t
  libewf_header_values_parse_header2 :
    Option libewf_values_table_t → List Nat → Nat → Nat → Int × Option libewf_values_table_t
  libewf_header_values_parse_header :
    Option libewf_values_table_t → List Nat → Nat → Int → Nat →
      Int × Option libewf_values_table_t
  libewf_hash_values_parse_xhash :
    Option libewf_values_table_t → List Nat → Nat → Int × Option libewf_values_table_t
  libewf_hash_values_parse_md5_hash :
    Option libewf_values_table_t → List Nat → Nat → Int × Option libewf_values_table_t
  libewf_hash_values_parse_sha1_hash :
    Option libewf_values_table_t → List Nat → Nat → Int × Option libewf_values_table_t
  libewf_hash_values_generate_md5_hash :
    Option libewf_values_table_t → List Nat → Nat → Nat →
      Int × Option libewf_values_table_t × List Nat × Nat
  libewf_hash_values_generate_sha1_hash :
    Option libewf_values_table_t → List Nat → Nat → Nat →
      Int × Option libewf_values_table_t × List Nat × Nat

/-- The `memory_copy` of `memory.h` is `memcpy`: it overwrites the first
`size` bytes of the destination with those of the source and returns the
destination pointer, which is not `NULL` where the interface calls it. -/
def memory_copy (destination source : List Nat) (size : Nat) : Option (List Nat) :=
  some (source.take size ++ destination.drop size)

/-- The `narrow_string_length` of `narrow_string.h` (`strlen`); strings are
stored without their end-of-string character. -/
def narrow_string_length (string : List Nat) : Nat :=
  string.length

/-- The `narrow_string_compare` of `narrow_string.h` (`strncmp`): 0 when the
first `size` characters of both strings agree, end of string included. -/
def narrow_string_compare (string1 string2 : List Nat) (size : Nat) : Int :=
  if (string1 ++ [0]).take size = (string2 ++ [0]).take size then 0 else 1

/-! ## Getters -/

/-- Returns the flags for reading. -/
def libewf_get_flags_read (d : Definitions) : Nat :=
  d.LIBEWF_FLAG_READ % 256

/-- Returns the flags for reading and writing. -/
def libewf_get_flags_read_write (d : Definitions) : Nat :=
  (d.LIBEWF_FLAG_READ ||| d.LIBEWF_FLAG_WRITE) % 256

/-- Returns the flags for writing. -/
def libewf_get_flags_write (d : Definitions) : Nat :=
  d.LIBEWF_FLAG_WRITE % 256

/-- Retrieves the amount of sectors per chunk from the media information.
Returns 1 if successful or -1 on error. -/
def libewf_get_sectors_per_chunk (handle : Option libewf_internal_handle_t)
    (sectors_per_chunk : Option Nat) : Outcome (Option Nat) :=
  match handle with
  | none => ⟨-1, handle, sectors_per_chunk⟩
  | some internal_handle =>
    match internal_handle.media_values with
    | none => ⟨-1, handle, sectors_per_chunk⟩
    | some media_values =>
      if sectors_per_chunk = none then ⟨-1, handle, sectors_per_chunk⟩
      else if media_values.sectors_per_chunk > INT32_MAX then
        ⟨-1, handle, sectors_per_chunk⟩
      else ⟨1, handle, some media_values.sectors_per_chunk⟩

/-- Retrieves the amount of bytes per sector from the media information.
Returns 1 if successful or -1 on error. -/
def libewf_get_bytes_per_sector (handle : Option libewf_internal_handle_t)
    (bytes_per_sector : Option Nat) : Outcome (Option Nat) :=
  match handle with
  | none => ⟨-1, handle, bytes_per_sector⟩
  | some internal_handle =>
    match internal_handle.media_values with
    | none => ⟨-1, handle, bytes_per_sector⟩
    | some media_values =>
      if bytes_per_sector = none then ⟨-1, handle, bytes_per_sector⟩
      else if media_values.bytes_per_sector > INT32_MAX then
        ⟨-1, handle, bytes_per_sector⟩
      else ⟨1, handle, some media_values.bytes_per_sector⟩

/-- Retrieves the amount of sectors from the media information.
Returns 1 if successful or -1 on error. -/
def libewf_get_amount_of_sectors (handle : Option libewf_internal_handle_t)
    (amount_of_sectors : Option Nat) : Outcome (Option Nat) :=
  match handle with
  | none => ⟨-1, handle, amount_of_sectors⟩
  | some internal_handle =>
    match internal_handle.media_values with
    | none => ⟨-1, handle, amount_of_sectors⟩
    | some media_values =>
      if amount_of_sectors = none then ⟨-1, handle, amount_of_sectors⟩
      else if media_values.amount_of_sectors > INT32_MAX then
        ⟨-1, handle, amount_of_sectors⟩
      else ⟨1, handle, some media_values.amount_of_sectors⟩

/-- Retrieves the chunk size from the media information.
Returns 1 if successful or -1 on error. -/
def libewf_get_chunk_size (handle : Option libewf_internal_handle_t)
    (chunk_size : Option Nat) : Outcome (Option Nat) :=
  match handle with
  | none => ⟨-1, handle, chunk_size⟩
  | some internal_handle =>
    match internal_handle.media_values with
    | none => ⟨-1, handle, chunk_size⟩
    | some media_values =>
      if chunk_size = none then ⟨-1, handle, chunk_size⟩
      else if media_values.chunk_size > INT32_MAX then ⟨-1, handle, chunk_size⟩
      else ⟨1, handle, some media_values.chunk_size⟩

/-- Retrieves the error granularity from the media information.
Returns 1 if successful or -1 on error. -/
def libewf_get_error_granularity (handle : Option libewf_internal_handle_t)
    (error_granularity : Option Nat) : Outcome (Option Nat) :=
  match handle with
  | none => ⟨-1, handle, error_granularity⟩
  | some internal_handle =>
    match internal_handle.media_values with
    | none => ⟨-1, handle, error_granularity⟩
    | some media_values =>
      if error_granularity = none then ⟨-1, handle, error_granularity⟩
      else if media_values.error_granularity > INT32_MAX then
        ⟨-1, handle, error_granularity⟩
      else ⟨1, handle, some media_values.error_granularity⟩

/-- Retrieves the compression values.
Returns 1 if successful or -1 on error. -/
def libewf_get_compression_values (handle : Option libewf_internal_handle_t)
    (compression_level : Option Int) (compress_empty_block : Option Nat) :
    Outcome (Option Int × Option Nat) :=
  match handle with
  | none => ⟨-1, handle, (compression_level, compress_empty_block)⟩
  | some internal_handle =>
    if compression_level = none then
      ⟨-1, handle, (compression_level, compress_empty_block)⟩
    else if compress_empty_block = none then
      ⟨-1, handle, (compression_level, compress_empty_block)⟩
    else
      ⟨1, handle, (some internal_handle.compression_level,
        some internal_handle.compress_empty_block)⟩

/-- Retrieves the size of the contained media data; a stored media size of 0
is first replaced by the 64-bit product of the amount of sectors and the bytes
per sector.  Returns 1 if successful or -1 on error. -/
def libewf_get_media_size (handle : Option libewf_internal_handle_t)
    (media_size : Option Nat) : Outcome (Option Nat) :=
  match handle with
  | none => ⟨-1, handle, media_size⟩
  | some internal_handle =>
    match internal_handle.media_values with
    | none => ⟨-1, handle, media_size⟩
    | some media_values =>
      if media_size = none then ⟨-1, handle, media_size⟩
      else
        let media_values :=
          if media_values.media_size = 0 then
            { media_values with
              media_size := ((media_values.amount_of_sectors % UINT64_MOD)
                * (media_values.bytes_per_sector % UINT64_MOD)) % UINT64_MOD }
          else media_values
        let internal_handle := { internal_handle with media_values := some media_values }
        if media_values.media_size > INT64_MAX then
          ⟨-1, some internal_handle, media_size⟩
        else ⟨1, some internal_handle, some media_values.media_size⟩

/-- Retrieves the media type value.
Returns 1 if successful or -1 on error. -/
def libewf_get_media_type (handle : Option libewf_internal_handle_t)
    (media_type : Option Nat) : Outcome (Option Nat) :=
  match handle with
  | none => ⟨-1, handle, media_type⟩
  | some internal_handle =>
    match internal_handle.media_values with
    | none => ⟨-1, handle, media_type⟩
    | some media_values =>
      if media_values.media_type > INT8_MAX then ⟨-1, handle, media_type⟩
      else if media_type = none then ⟨-1, handle, media_type⟩
      else ⟨1, handle, some media_values.media_type⟩

/-- Retrieves the media flags.
Returns 1 if successful or -1 on error. -/
def libewf_get_media_flags (handle : Option libewf_internal_handle_t)
    (media_flags : Option Nat) : Outcome (Option Nat) :=
  match handle with
  | none => ⟨-1, handle, media_flags⟩
  | some internal_handle =>
    match internal_handle.media_values with
    | none => ⟨-1, handle, media_flags⟩
    | some media_values =>
      if media_values.media_flags > INT8_MAX then ⟨-1, handle, media_flags⟩
      else if media_flags = none then ⟨-1, handle, media_flags⟩
      else ⟨1, handle, some media_values.media_flags⟩

/-- Retrieves the volume type value; the constant is cast to `int8_t` and
stored through a `uint8_t` pointer.  Returns 1 if successful or -1 on error. -/
def libewf_get_volume_type (d : Definitions) (handle : Option libewf_internal_handle_t)
    (volume_type : Option Nat) : Outcome (Option Nat) :=
  match handle with
  | none => ⟨-1, handle, volume_type⟩
  | some internal_handle =>
    match internal_handle.media_values with
    | none => ⟨-1, handle, volume_type⟩
    | some media_values =>
      if volume_type = none then ⟨-1, handle, volume_type⟩
      else if media_values.media_flags &&& 0x02 = 0 then
        ⟨1, handle, some (d.LIBEWF_VOLUME_TYPE_LOGICAL % 256)⟩
      else ⟨1, handle, some (d.LIBEWF_VOLUME_TYPE_PHYSICAL % 256)⟩

/-- Retrieves the format type value.
Returns 1 if successful or -1 on error. -/
def libewf_get_format (handle : Option libewf_internal_handle_t)
    (format : Option Nat) : Outcome (Option Nat) :=
  match handle with
  | none => ⟨-1, handle, format⟩
  | some internal_handle =>
    match internal_handle.media_values with
    | none => ⟨-1, handle, format⟩
    | some _ =>
      if internal_handle.format > INT8_MAX then ⟨-1, handle, format⟩
      else if format = none then ⟨-1, handle, format⟩
      else ⟨1, handle, some internal_handle.format⟩

/-- Retrieves the GUID.  Returns 1 if successful or -1 on error. -/
def libewf_get_guid (handle : Option libewf_internal_handle_t)
    (guid : Option (List Nat)) (size : Nat) : Outcome (Option (List Nat)) :=
  match handle with
  | none => ⟨-1, handle, guid⟩
  | some internal_handle =>
    match internal_handle.media_values with
    | none => ⟨-1, handle, guid⟩
    | some media_values =>
      match guid with
      | none => ⟨-1, handle, guid⟩
      | some buffer =>
        if size < 16 then ⟨-1, handle, guid⟩
        else
          match memory_copy buffer media_values.guid 16 with
          | none => ⟨-1, handle, guid⟩
          | some copied => ⟨1, handle, some copied⟩

/-- The part of `libewf_get_md5_hash` after the MD5 hash value was
generated from the hash values: the presence test and the copy. -/
def libewf_get_md5_hash_copy (internal_handle : libewf_internal_handle_t)
    (hash_sections : libewf_hash_sections_t) (md5_hash : Option (List Nat))
    (size : Nat) : Outcome (Option (List Nat)) :=
  if hash_sections.md5_hash_set = 0 ∧ hash_sections.md5_digest_set = 0 then
    ⟨0, some internal_handle, md5_hash⟩
  else
    match md5_hash with
    | none => ⟨-1, some internal_handle, md5_hash⟩
    | some buffer =>
      if size < 16 then ⟨-1, some internal_handle, md5_hash⟩
      else if hash_sections.md5_hash_set = 0 then
        match memory_copy buffer hash_sections.md5_digest 16 with
        | none => ⟨-1, some internal_handle, md5_hash⟩
        | some copied => ⟨1, some internal_handle, some copied⟩
      else
        match memory_copy buffer hash_sections.md5_hash 16 with
        | none => ⟨-1, some internal_handle, md5_hash⟩
        | some copied => ⟨1, some internal_handle, some copied⟩

/-- Retrieves the MD5 hash.
Returns 1 if successful, 0 if value not present or -1 on error. -/
def libewf_get_md5_hash (c : Collaborators) (handle : Option libewf_internal_handle_t)
    (md5_hash : Option (List Nat)) (size : Nat) : Outcome (Option (List Nat)) :=
  match handle with
  | none => ⟨-1, handle, md5_hash⟩
  | some internal_handle =>
    match internal_handle.hash_sections with
    | none => ⟨-1, handle, md5_hash⟩
    | some hash_sections =>
      if (hash_sections.md5_hash_set = 0 ∨ hash_sections.md5_digest_set = 0)
          ∧ internal_handle.hash_values ≠ none then
        let generated := c.libewf_hash_values_generate_md5_hash
          internal_handle.hash_values hash_sections.md5_hash 16 hash_sections.md5_hash_set
        let hash_sections := { hash_sections with
          md5_hash := generated.2.2.1, md5_hash_set := generated.2.2.2 }
        let internal_handle := { internal_handle with
          hash_values := generated.2.1, hash_sections := some hash_sections }
        if generated.1 ≠ 1 then ⟨-1, some internal_handle, md5_hash⟩
        else libewf_get_md5_hash_copy internal_handle hash_sections md5_hash size
      else libewf_get_md5_hash_copy internal_handle hash_sections md5_hash size

/-- The part of `libewf_get_sha1_hash` after the SHA1 hash value was
generated from the hash values: the presence test and the copy. -/
def libewf_get_sha1_hash_copy (internal_handle : libewf_internal_handle_t)
    (hash_sections : libewf_hash_sections_t) (sha1_hash : Option (List Nat))
    (size : Nat) : Outcome (Option (List Nat)) :=
  if hash_sections.sha1_digest_set = 0 then ⟨0, some internal_handle, sha1_hash⟩
  else
    match sha1_hash with
    | none => ⟨-1, some internal_handle, sha1_hash⟩
    | some buffer =>
      if size < 20 then ⟨-1, some internal_handle, sha1_hash⟩
      else
        match memory_copy buffer hash_sections.sha1_digest 20 with
        | none => ⟨-1, some internal_handle, sha1_hash⟩
        | some copied => ⟨1, some internal_handle, some copied⟩

/-- Retrieves the SHA1 hash.
Returns 1 if successful, 0 if value not present or -1 on error. -/
def libewf_get_sha1_hash (c : Collaborators) (handle : Option libewf_internal_handle_t)
    (sha1_hash : Option (List Nat)) (size : Nat) : Outcome (Option (List Nat)) :=
  match handle with
  | none => ⟨-1, handle, sha1_hash⟩
  | some internal_handle =>
    match internal_handle.hash_sections with
    | none => ⟨-1, handle, sha1_hash⟩
    | some hash_sections =>
      if hash_sections.sha1_digest_set = 0 ∧ internal_handle.hash_values ≠ none then
        let generated := c.libewf_hash_values_generate_sha1_hash
          internal_handle.hash_values hash_sections.sha1_digest 20
          hash_sections.sha1_digest_set
        let hash_sections := { hash_sections with
          sha1_digest := generated.2.2.1, sha1_digest_set := generated.2.2.2 }
        let internal_handle := { internal_handle with
          hash_values := generated.2.1, hash_sections := some hash_sections }
        if generated.1 ≠ 1 then ⟨-1, some internal_handle, sha1_hash⟩
        else libewf_get_sha1_hash_copy internal_handle hash_sections sha1_hash size
      else libewf_get_sha1_hash_copy internal_handle hash_sections sha1_hash size

/-- Retrieves the segment filename.
Returns 1 if successful, 0 if value not present or -1 on error. -/
def libewf_get_segment_filename (c : Collaborators)
    (handle : Option libewf_internal_handle_t) (filename : Option (List Nat))
    (size : Nat) : Outcome (Option (List Nat)) :=
  match handle with
  | none => ⟨-1, handle, filename⟩
  | some internal_handle =>
    if internal_handle.segment_table = none then ⟨-1, handle, filename⟩
    else
      let result := c.libewf_segment_table_get_basename
        internal_handle.segment_table filename size
      ⟨result.1, handle, result.2⟩

/-- Retrieves the segment filename (wide character variant).
Returns 1 if successful, 0 if value not present or -1 on error. -/
def libewf_get_segment_filename_wide (c : Collaborators)
    (handle : Option libewf_internal_handle_t) (filename : Option (List Nat))
    (size : Nat) : Outcome (Option (List Nat)) :=
  match handle with
  | none => ⟨-1, handle, filename⟩
  | some internal_handle =>
    if internal_handle.segment_table = none then ⟨-1, handle, filename⟩
    else
      let result := c.libewf_segment_table_get_basename_wide
        internal_handle.segment_table filename size
      ⟨result.1, handle, result.2⟩

/-- Retrieves the delta segment filename.
Returns 1 if successful, 0 if value not present or -1 on error. -/
def libewf_get_delta_segment_filename (c : Collaborators)
    (handle : Option libewf_internal_handle_t) (filename : Option (List Nat))
    (size : Nat) : Outcome (Option (List Nat)) :=
  match handle with
  | none => ⟨-1, handle, filename⟩
  | some internal_handle =>
    if internal_handle.delta_segment_table = none then ⟨-1, handle, filename⟩
    else
      let result := c.libewf_segment_table_get_basename
        internal_handle.delta_segment_table filename size
      ⟨result.1, handle, result.2⟩

/-- Retrieves the delta segment filename (wide character variant).
Returns 1 if successful, 0 if value not present or -1 on error. -/
def libewf_get_delta_segment_filename_wide (c : Collaborators)
    (handle : Option libewf_internal_handle_t) (filename : Option (List Nat))
    (size : Nat) : Outcome (Option (List Nat)) :=
  match handle with
  | none => ⟨-1, handle, filename⟩
  | some internal_handle =>
    if internal_handle.delta_segment_table = none then ⟨-1, handle, filename⟩
    else
      let result := c.libewf_segment_table_get_basename_wide
        internal_handle.delta_segment_table filename size
      ⟨result.1, handle, result.2⟩

/-- Retrieves the amount of acquiry errors.
Returns 1 if successful, 0 if no acquiry errors are present or -1 on error. -/
def libewf_get_amount_of_acquiry_errors (handle : Option libewf_internal_handle_t)
    (amount_of_errors : Option Nat) : Outcome (Option Nat) :=
  match handle with
  | none => ⟨-1, handle, amount_of_errors⟩
  | some internal_handle =>
    match internal_handle.acquiry_errors with
    | none => ⟨-1, handle, amount_of_errors⟩
    | some acquiry_errors =>
      if amount_of_errors = none then ⟨-1, handle, amount_of_errors⟩
      else ⟨1, handle, some acquiry_errors.amount⟩

/-- Retrieves the information of an acquiry error.
Returns 1 if successful, 0 if no acquiry error could be found or -1 on error. -/
def libewf_get_acquiry_error (c : Collaborators)
    (handle : Option libewf_internal_handle_t) (index : Nat)
    (first_sector : Option Int) (amount_of_sectors : Option Nat) :
    Outcome (Option Int × Option Nat) :=
  match handle with
  | none => ⟨-1, handle, (first_sector, amount_of_sectors)⟩
  | some internal_handle =>
    let result := c.libewf_sector_table_get_sector
      internal_handle.acquiry_errors index first_sector amount_of_sectors
    ⟨result.1, handle, result.2⟩

/-- Retrieves the amount of CRC errors.
Returns 1 if successful or -1 on error. -/
def libewf_get_amount_of_crc_errors (handle : Option libewf_internal_handle_t)
    (amount_of_errors : Option Nat) : Outcome (Option Nat) :=
  match handle with
  | none => ⟨-1, handle, amount_of_errors⟩
  | some internal_handle =>
    match internal_handle.read with
    | none => ⟨-1, handle, amount_of_errors⟩
    | some read =>
      match read.crc_errors with
      | none => ⟨-1, handle, amount_of_errors⟩
      | some crc_errors =>
        if amount_of_errors = none then ⟨-1, handle, amount_of_errors⟩
        else ⟨1, handle, some crc_errors.amount⟩

/-- Retrieves the information of a CRC error.
Returns 1 if successful, 0 if no CRC error could be found or -1 on error. -/
def libewf_get_crc_error (c : Collaborators)
    (handle : Option libewf_internal_handle_t) (index : Nat)
    (first_sector : Option Int) (amount_of_sectors : Option Nat) :
    Outcome (Option Int × Option Nat) :=
  match handle with
  | none => ⟨-1, handle, (first_sector, amount_of_sectors)⟩
  | some internal_handle =>
    match internal_handle.read with
    | none => ⟨-1, handle, (first_sector, amount_of_sectors)⟩
    | some read =>
      let result := c.libewf_sector_table_get_sector
        read.crc_errors index first_sector amount_of_sectors
      ⟨result.1, handle, result.2⟩

/-- Retrieves the amount of sessions.
Returns 1 if successful or -1 on error. -/
def libewf_get_amount_of_sessions (handle : Option libewf_internal_handle_t)
    (amount_of_sessions : Option Nat) : Outcome (Option Nat) :=
  match handle with
  | none => ⟨-1, handle, amount_of_sessions⟩
  | some internal_handle =>
    match internal_handle.sessions with
    | none => ⟨-1, handle, amount_of_sessions⟩
    | some sessions =>
      if amount_of_sessions = none then ⟨-1, handle, amount_of_sessions⟩
      else ⟨1, handle, some sessions.amount⟩

/-- Retrieves the information of a session.
Returns 1 if successful, 0 if no session could be found or -1 on error. -/
def libewf_get_session (c : Collaborators)
    (handle : Option libewf_internal_handle_t) (index : Nat)
    (first_sector : Option Int) (amount_of_sectors : Option Nat) :
    Outcome (Option Int × Option Nat) :=
  match handle with
  | none => ⟨-1, handle, (first_sector, amount_of_sectors)⟩
  | some internal_handle =>
    let result := c.libewf_sector_table_get_sector
      internal_handle.sessions index first_sector amount_of_sectors
    ⟨result.1, handle, result.2⟩

/-- Retrieves the amount of chunks written.
Returns 1 if successful or -1 on error. -/
def libewf_get_write_amount_of_chunks (handle : Option libewf_internal_handle_t)
    (amount_of_chunks : Option Nat) : Outcome (Option Nat) :=
  match handle with
  | none => ⟨-1, handle, amount_of_chunks⟩
  | some internal_handle =>
    match internal_handle.write with
    | none => ⟨-1, handle, amount_of_chunks⟩
    | some write =>
      if amount_of_chunks = none then ⟨-1, handle, amount_of_chunks⟩
      else ⟨1, handle, some write.amount_of_chunks⟩

/-- Retrieves the header codepage.
Returns 1 if successful or -1 on error. -/
def libewf_get_header_codepage (handle : Option libewf_internal_handle_t)
    (header_codepage : Option Int) : Outcome (Option Int) :=
  match handle with
  | none => ⟨-1, handle, header_codepage⟩
  | some internal_handle =>
    match internal_handle.header_sections with
    | none => ⟨-1, handle, header_codepage⟩
    | some header_sections =>
      if header_codepage = none then ⟨-1, handle, header_codepage⟩
      else ⟨1, handle, some header_sections.header_codepage⟩

/-- Retrieves the amount of header values.
Returns 1 if successful, 0 if no header values are present or -1 on error. -/
def libewf_get_amount_of_header_values (handle : Option libewf_internal_handle_t)
    (amount_of_values : Option Nat) : Outcome (Option Nat) :=
  match handle with
  | none => ⟨-1, handle, amount_of_values⟩
  | some internal_handle =>
    if amount_of_values = none then ⟨-1, handle, amount_of_values⟩
    else
      match internal_handle.header_values with
      | none => ⟨0, handle, amount_of_values⟩
      | some header_values => ⟨1, handle, some header_values.amount_of_values⟩

/-- Retrieves the header value identifier specified by its index.
Returns 1 if successful, 0 if value not present or -1 on error. -/
def libewf_get_header_value_identifier (c : Collaborators)
    (handle : Option libewf_internal_handle_t) (index : Nat)
    (identifier : Option (List Nat)) (identifier_length : Nat) :
    Outcome (Option (List Nat)) :=
  match handle with
  | none => ⟨-1, handle, identifier⟩
  | some internal_handle =>
    if internal_handle.header_values = none then ⟨0, handle, identifier⟩
    else
      let result := c.libewf_values_table_get_identifier
        internal_handle.header_values index identifier identifier_length
      ⟨result.1, handle, result.2⟩

/-- Retrieves the header value specified by the identifier.
Returns 1 if successful, 0 if value not present or -1 on error. -/
def libewf_get_header_value (c : Collaborators)
    (handle : Option libewf_internal_handle_t) (identifier : Option (List Nat))
    (value : Option (List Nat)) (value_length : Nat) : Outcome (Option (List Nat)) :=
  match handle with
  | none => ⟨-1, handle, value⟩
  | some internal_handle =>
    match identifier with
    | none => ⟨-1, handle, value⟩
    | some identifier =>
      if value = none then ⟨-1, handle, value⟩
      else if internal_handle.header_values = none then ⟨0, handle, value⟩
      else
        let identifier_length := narrow_string_length identifier
        let result := c.libewf_values_table_get_value
          internal_handle.header_values identifier identifier_length value value_length
        ⟨result.1, handle, result.2⟩

/-- Retrieves the amount of hash values.
Returns 1 if successful or -1 on error. -/
def libewf_get_amount_of_hash_values (handle : Option libewf_internal_handle_t)
    (amount_of_values : Option Nat) : Outcome (Option Nat) :=
  match handle with
  | none => ⟨-1, handle, amount_of_values⟩
  | some internal_handle =>
    if amount_of_values = none then ⟨-1, handle, amount_of_values⟩
    else
      match internal_handle.hash_values with
      | none => ⟨0, handle, amount_of_values⟩
      | some hash_values => ⟨1, handle, some hash_values.amount_of_values⟩

/-- Retrieves the hash value identifier specified by its index.
Returns 1 if successful, 0 if value not present or -1 on error. -/
def libewf_get_hash_value_identifier (c : Collaborators)
    (handle : Option libewf_internal_handle_t) (index : Nat)
    (identifier : Option (List Nat)) (identifier_length : Nat) :
    Outcome (Option (List Nat)) :=
  match handle with
  | none => ⟨-1, handle, identifier⟩
  | some internal_handle =>
    if internal_handle.hash_values = none then ⟨0, handle, identifier⟩
    else
      let result := c.libewf_values_table_get_identifier
        internal_handle.hash_values index identifier identifier_length
      ⟨result.1, handle, result.2⟩

/-- The characters of the identifier "MD5". -/
def MD5_identifier : List Nat := [77, 68, 53]

/-- The part of `libewf_get_hash_value` after the hash values were created
from the MD5 hash: the presence test and the table lookup. -/
def libewf_get_hash_value_lookup (c : Collaborators)
    (internal_handle : libewf_internal_handle_t) (identifier : List Nat)
    (identifier_length : Nat) (value : Option (List Nat)) (value_length : Nat) :
    Outcome (Option (List Nat)) :=
  if internal_handle.hash_values = none then ⟨0, some internal_handle, value⟩
  else
    let result := c.libewf_values_table_get_value
      internal_handle.hash_values identifier identifier_length value value_length
    ⟨result.1, some internal_handle, result.2⟩

/-- Retrieves the hash value specified by the identifier.
Returns 1 if successful, 0 if value not present or -1 on error. -/
def libewf_get_hash_value (c : Collaborators)
    (handle : Option libewf_internal_handle_t) (identifier : Option (List Nat))
    (value : Option (List Nat)) (value_length : Nat) : Outcome (Option (List Nat)) :=
  match handle with
  | none => ⟨-1, handle, value⟩
  | some internal_handle =>
    match identifier with
    | none => ⟨-1, handle, value⟩
    | some identifier =>
      if value = none then ⟨-1, handle, value⟩
      else
        let identifier_length := narrow_string_length identifier
        match internal_handle.hash_sections with
        | none =>
          libewf_get_hash_value_lookup c internal_handle identifier identifier_length
            value value_length
        | some hash_sections =>
          if internal_handle.hash_values = none ∧ hash_sections.md5_hash_set ≠ 0
              ∧ identifier_length = 3
              ∧ narrow_string_compare identifier MD5_identifier identifier_length = 0 then
            let parsed := c.libewf_hash_values_parse_md5_hash
              internal_handle.hash_values hash_sections.md5_hash 16
            let internal_handle := { internal_handle with hash_values := parsed.2 }
            if parsed.1 ≠ 1 then ⟨-1, some internal_handle, value⟩
            else
              libewf_get_hash_value_lookup c internal_handle identifier identifier_length
                value value_length
          else
            libewf_get_hash_value_lookup c internal_handle identifier identifier_length
              value value_length

/-! ## Setters -/

/-- Sets the amount of sectors per chunk in the media information.
Returns 1 if successful or -1 on error. -/
def libewf_set_sectors_per_chunk (c : Collaborators)
    (handle : Option libewf_internal_handle_t) (sectors_per_chunk : Nat) : Outcome Unit :=
  match handle with
  | none => ⟨-1, handle, ()⟩
  | some internal_handle =>
    match internal_handle.media_values with
    | none => ⟨-1, handle, ()⟩
    | some media_values =>
      match internal_handle.write with
      | none => ⟨-1, handle, ()⟩
      | some write =>
        if write.values_initialized ≠ 0 then ⟨-1, handle, ()⟩
        else
          let set := c.libewf_internal_handle_set_media_values internal_handle
            sectors_per_chunk media_values.bytes_per_sector media_values.media_size
          if set.1 ≠ 1 then ⟨-1, some set.2, ()⟩ else ⟨1, some set.2, ()⟩

/-- Sets the amount of bytes per sector in the media information.
Returns 1 if successful or -1 on error. -/
def libewf_set_bytes_per_sector (c : Collaborators)
    (handle : Option libewf_internal_handle_t) (bytes_per_sector : Nat) : Outcome Unit :=
  match handle with
  | none => ⟨-1, handle, ()⟩
  | some internal_handle =>
    match internal_handle.media_values with
    | none => ⟨-1, handle, ()⟩
    | some media_values =>
      if internal_handle.read ≠ none then ⟨-1, handle, ()⟩
      else
        match internal_handle.write with
        | none => ⟨-1, handle, ()⟩
        | some write =>
          if write.values_initialized ≠ 0 then ⟨-1, handle, ()⟩
          else
            let set := c.libewf_internal_handle_set_media_values internal_handle
              media_values.sectors_per_chunk bytes_per_sector media_values.media_size
            if set.1 ≠ 1 then ⟨-1, some set.2, ()⟩ else ⟨1, some set.2, ()⟩

/-- Sets the error granularity.
Returns 1 if successful or -1 on error. -/
def libewf_set_error_granularity (handle : Option libewf_internal_handle_t)
    (error_granularity : Nat) : Outcome Unit :=
  match handle with
  | none => ⟨-1, handle, ()⟩
  | some internal_handle =>
    match internal_handle.media_values with
    | none => ⟨-1, handle, ()⟩
    | some media_values =>
      match internal_handle.write with
      | none => ⟨-1, handle, ()⟩
      | some write =>
        if write.values_initialized ≠ 0 then ⟨-1, handle, ()⟩
        else
          ⟨1, some { internal_handle with
            media_values := some { media_values with
              error_granularity := error_granularity } }, ()⟩

/-- Sets the compression values.
Returns 1 if successful or -1 on error. -/
def libewf_set_compression_values (d : Definitions)
    (handle : Option libewf_internal_handle_t) (compression_level : Int)
    (compress_empty_block : Nat) : Outcome Unit :=
  match handle with
  | none => ⟨-1, handle, ()⟩
  | some internal_handle =>
    match internal_handle.write with
    | none => ⟨-1, handle, ()⟩
    | some write =>
      if write.values_initialized ≠ 0 then ⟨-1, handle, ()⟩
      else if compression_level ≠ d.EWF_COMPRESSION_NONE
          ∧ compression_level ≠ d.EWF_COMPRESSION_FAST
          ∧ compression_level ≠ d.EWF_COMPRESSION_BEST then ⟨-1, handle, ()⟩
      else
        let internal_handle := { internal_handle with
          compression_level := compression_level, compress_empty_block := 0 }
        if compression_level = d.EWF_COMPRESSION_NONE then
          ⟨1, some { internal_handle with compress_empty_block := compress_empty_block }, ()⟩
        else ⟨1, some internal_handle, ()⟩

/-- Sets the media size.
Returns 1 if successful or -1 on error. -/
def libewf_set_media_size (c : Collaborators)
    (handle : Option libewf_internal_handle_t) (media_size : Nat) : Outcome Unit :=
  match handle with
  | none => ⟨-1, handle, ()⟩
  | some internal_handle =>
    match internal_handle.media_values with
    | none => ⟨-1, handle, ()⟩
    | some media_values =>
      if internal_handle.read ≠ none then ⟨-1, handle, ()⟩
      else
        match internal_handle.write with
        | none => ⟨-1, handle, ()⟩
        | some write =>
          if write.values_initialized ≠ 0 then ⟨-1, handle, ()⟩
          else
            let set := c.libewf_internal_handle_set_media_values internal_handle
              media_values.sectors_per_chunk media_values.bytes_per_sector media_size
            if set.1 ≠ 1 then ⟨-1, some set.2, ()⟩ else ⟨1, some set.2, ()⟩

/-- Sets the segment file size.
Returns 1 if successful or -1 on error. -/
def libewf_set_segment_file_size (handle : Option libewf_internal_handle_t)
    (segment_file_size : Nat) : Outcome Unit :=
  match handle with
  | none => ⟨-1, handle, ()⟩
  | some internal_handle =>
    if internal_handle.read ≠ none then ⟨-1, handle, ()⟩
    else
      match internal_handle.write with
      | none => ⟨-1, handle, ()⟩
      | some write =>
        if write.values_initialized ≠ 0 then ⟨-1, handle, ()⟩
        else if segment_file_size > INT64_MAX then ⟨-1, handle, ()⟩
        else if segment_file_size = 0
            ∨ segment_file_size > write.maximum_segment_file_size then ⟨-1, handle, ()⟩
        else
          ⟨1, some { internal_handle with
            write := some { write with segment_file_size := segment_file_size } }, ()⟩

/-- Sets the delta segment file size.
Returns 1 if successful or -1 on error. -/
def libewf_set_delta_segment_file_size (handle : Option libewf_internal_handle_t)
    (delta_segment_file_size : Nat) : Outcome Unit :=
  match handle with
  | none => ⟨-1, handle, ()⟩
  | some internal_handle =>
    match internal_handle.write with
    | none => ⟨-1, handle, ()⟩
    | some write =>
      if write.values_initialized ≠ 0 then ⟨-1, handle, ()⟩
      else if delta_segment_file_size > INT64_MAX then ⟨-1, handle, ()⟩
      else if delta_segment_file_size = 0 then ⟨-1, handle, ()⟩
      else
        ⟨1, some { internal_handle with
          write := some { write with
            delta_segment_file_size := delta_segment_file_size } }, ()⟩

/-- Sets the media type.
Returns 1 if successful or -1 on error. -/
def libewf_set_media_type (handle : Option libewf_internal_handle_t)
    (media_type : Nat) : Outcome Unit :=
  match handle with
  | none => ⟨-1, handle, ()⟩
  | some internal_handle =>
    match internal_handle.media_values with
    | none => ⟨-1, handle, ()⟩
    | some media_values =>
      if internal_handle.read ≠ none then ⟨-1, handle, ()⟩
      else
        match internal_handle.write with
        | none => ⟨-1, handle, ()⟩
        | some write =>
          if write.values_initialized ≠ 0 then ⟨-1, handle, ()⟩
          else
            ⟨1, some { internal_handle with
              media_values := some { media_values with media_type := media_type } }, ()⟩

/-- Sets the volume type; `media_flags` is a `uint8_t`, so the complement of
`EWF_MEDIA_FLAGS_IS_PHYSICAL` acts through its low 8 bits.
Returns 1 if successful or -1 on error. -/
def libewf_set_volume_type (d : Definitions)
    (handle : Option libewf_internal_handle_t) (volume_type : Nat) : Outcome Unit :=
  match handle with
  | none => ⟨-1, handle, ()⟩
  | some internal_handle =>
    match internal_handle.media_values with
    | none => ⟨-1, handle, ()⟩
    | some media_values =>
      if internal_handle.read ≠ none then ⟨-1, handle, ()⟩
      else
        match internal_handle.write with
        | none => ⟨-1, handle, ()⟩
        | some write =>
          if write.values_initialized ≠ 0 then ⟨-1, handle, ()⟩
          else if volume_type = d.LIBEWF_VOLUME_TYPE_LOGICAL then
            ⟨1, some { internal_handle with
              media_values := some { media_values with
                media_flags := (media_values.media_flags
                  &&& (255 - d.EWF_MEDIA_FLAGS_IS_PHYSICAL % 256)) % 256 } }, ()⟩
          else if volume_type = d.LIBEWF_VOLUME_TYPE_PHYSICAL then
            ⟨1, some { internal_handle with
              media_values := some { media_values with
                media_flags := (media_values.media_flags
                  ||| d.EWF_MEDIA_FLAGS_IS_PHYSICAL) % 256 } }, ()⟩
          else ⟨-1, handle, ()⟩

/-- Sets the output format.
Returns 1 if successful or -1 on error. -/
def libewf_set_format (c : Collaborators)
    (handle : Option libewf_internal_handle_t) (format : Nat) : Outcome Unit :=
  match handle with
  | none => ⟨-1, handle, ()⟩
  | some internal_handle =>
    if internal_handle.read ≠ none then ⟨-1, handle, ()⟩
    else
      match internal_handle.write with
      | none => ⟨-1, handle, ()⟩
      | some write =>
        if write.values_initialized ≠ 0 then ⟨-1, handle, ()⟩
        else
          let set := c.libewf_internal_handle_set_format internal_handle format
          if set.1 ≠ 1 then ⟨-1, some set.2, ()⟩ else ⟨1, some set.2, ()⟩

/-- Sets the GUID.  Returns 1 if successful or -1 on error. -/
def libewf_set_guid (handle : Option libewf_internal_handle_t)
    (guid : Option (List Nat)) (size : Nat) : Outcome Unit :=
  match handle with
  | none => ⟨-1, handle, ()⟩
  | some internal_handle =>
    match internal_handle.media_values with
    | none => ⟨-1, handle, ()⟩
    | some media_values =>
      match guid with
      | none => ⟨-1, handle, ()⟩
      | some guid =>
        if size < 16 then ⟨-1, handle, ()⟩
        else if internal_handle.read ≠ none then ⟨-1, handle, ()⟩
        else
          match internal_handle.write with
          | none => ⟨-1, handle, ()⟩
          | some write =>
            if write.values_initialized ≠ 0 then ⟨-1, handle, ()⟩
            else
              match memory_copy media_values.guid guid 16 with
              | none => ⟨-1, handle, ()⟩
              | some copied =>
                ⟨1, some { internal_handle with
                  media_values := some { media_values with guid := copied } }, ()⟩

/-- Sets the MD5 hash.  Returns 1 if successful or -1 on error. -/
def libewf_set_md5_hash (c : Collaborators)
    (handle : Option libewf_internal_handle_t) (md5_hash : Option (List Nat))
    (size : Nat) : Outcome Unit :=
  match handle with
  | none => ⟨-1, handle, ()⟩
  | some internal_handle =>
    match internal_handle.hash_sections with
    | none => ⟨-1, handle, ()⟩
    | some hash_sections =>
      if internal_handle.read ≠ none ∨ hash_sections.md5_hash_set ≠ 0
          ∨ hash_sections.md5_digest_set ≠ 0 then ⟨-1, handle, ()⟩
      else
        match md5_hash with
        | none => ⟨-1, handle, ()⟩
        | some md5_hash =>
          if size < 16 then ⟨-1, handle, ()⟩
          else
            match memory_copy hash_sections.md5_hash md5_hash 16 with
            | none => ⟨-1, handle, ()⟩
            | some copied_hash =>
              let hash_sections := { hash_sections with md5_hash := copied_hash }
              let internal_handle := { internal_handle with
                hash_sections := some hash_sections }
              match memory_copy hash_sections.md5_digest md5_hash 16 with
              | none => ⟨-1, some internal_handle, ()⟩
              | some copied_digest =>
                let hash_sections := { hash_sections with md5_digest := copied_digest }
                let parsed := c.libewf_hash_values_parse_md5_hash
                  internal_handle.hash_values md5_hash 16
                let internal_handle := { internal_handle with
                  hash_sections := some hash_sections, hash_values := parsed.2 }
                if parsed.1 ≠ 1 then ⟨-1, some internal_handle, ()⟩
                else
                  ⟨1, some { internal_handle with
                    hash_sections := some { hash_sections with
                      md5_hash_set := 1, md5_digest_set := 1 } }, ()⟩

/-- Sets the SHA1 hash.  Returns 1 if successful or -1 on error. -/
def libewf_set_sha1_hash (c : Collaborators)
    (handle : Option libewf_internal_handle_t) (sha1_hash : Option (List Nat))
    (size : Nat) : Outcome Unit :=
  match handle with
  | none => ⟨-1, handle, ()⟩
  | some internal_handle =>
    match internal_handle.hash_sections with
    | none => ⟨-1, handle, ()⟩
    | some hash_sections =>
      if internal_handle.read ≠ none ∨ hash_sections.sha1_digest_set ≠ 0 then
        ⟨-1, handle, ()⟩
      else
        match sha1_hash with
        | none => ⟨-1, handle, ()⟩
        | some sha1_hash =>
          if size < 20 then ⟨-1, handle, ()⟩
          else
            match memory_copy hash_sections.sha1_digest sha1_hash 20 with
            | none => ⟨-1, handle, ()⟩
            | some copied_digest =>
              let hash_sections := { hash_sections with sha1_digest := copied_digest }
              let parsed := c.libewf_hash_values_parse_sha1_hash
                internal_handle.hash_values sha1_hash 20
              let internal_handle := { internal_handle with
                hash_sections := some hash_sections, hash_values := parsed.2 }
              if parsed.1 ≠ 1 then ⟨-1, some internal_handle, ()⟩
              else
                ⟨1, some { internal_handle with
                  hash_sections := some { hash_sections with sha1_digest_set := 1 } }, ()⟩

/-- The position `length - 1` of the filename setters, in `size_t` arithmetic
(64 bits wide): for a `length` of 0 the subtraction wraps to `SIZE_MAX`. -/
def filename_last_position (length : Nat) : Nat :=
  (length % UINT64_MOD + (UINT64_MOD - 1)) % UINT64_MOD

/-- The length that the filename setters pass on: one more, in `size_t`
arithmetic, when the character at `length - 1` is not the end-of-string
character.  The source reads `filename[ length - 1 ]` unchecked; a position
outside the string, as for a `length` of 0, reads as the end-of-string
character here. -/
def filename_length (filename : List Nat) (length : Nat) : Nat :=
  if filename.getD (filename_last_position length) 0 ≠ 0 then (length + 1) % UINT64_MOD
  else length

/-- Sets the segment file.  Returns 1 if successful or -1 on error. -/
def libewf_set_segment_filename (c : Collaborators)
    (handle : Option libewf_internal_handle_t) (filename : List Nat) (length : Nat) :
    Outcome Unit :=
  match handle with
  | none => ⟨-1, handle, ()⟩
  | some internal_handle =>
    if internal_handle.write = none then ⟨-1, handle, ()⟩
    else if internal_handle.segment_table = none then ⟨-1, handle, ()⟩
    else
      let set := c.libewf_segment_table_set_basename internal_handle.segment_table
        filename (filename_length filename length)
      let internal_handle := { internal_handle with segment_table := set.2 }
      if set.1 ≠ 1 then ⟨-1, some internal_handle, ()⟩ else ⟨1, some internal_handle, ()⟩

/-- Sets the segment file (wide character variant).
Returns 1 if successful or -1 on error. -/
def libewf_set_segment_filename_wide (c : Collaborators)
    (handle : Option libewf_internal_handle_t) (filename : List Nat) (length : Nat) :
    Outcome Unit :=
  match handle with
  | none => ⟨-1, handle, ()⟩
  | some internal_handle =>
    if internal_handle.write = none then ⟨-1, handle, ()⟩
    else if internal_handle.segment_table = none then ⟨-1, handle, ()⟩
    else
      let set := c.libewf_segment_table_set_basename_wide internal_handle.segment_table
        filename (filename_length filename length)
      let internal_handle := { internal_handle with segment_table := set.2 }
      if set.1 ≠ 1 then ⟨-1, some internal_handle, ()⟩ else ⟨1, some internal_handle, ()⟩

/-- Sets the delta segment file.  Returns 1 if successful or -1 on error. -/
def libewf_set_delta_segment_filename (c : Collaborators)
    (handle : Option libewf_internal_handle_t) (filename : List Nat) (length : Nat) :
    Outcome Unit :=
  match handle with
  | none => ⟨-1, handle, ()⟩
  | some internal_handle =>
    if internal_handle.write = none then ⟨-1, handle, ()⟩
    else if internal_handle.delta_segment_table = none then ⟨-1, handle, ()⟩
    else
      let set := c.libewf_segment_table_set_basename internal_handle.delta_segment_table
        filename (filename_length filename length)
      let internal_handle := { internal_handle with delta_segment_table := set.2 }
      if set.1 ≠ 1 then ⟨-1, some internal_handle, ()⟩ else ⟨1, some internal_handle, ()⟩

/-- Sets the delta segment file (wide character variant).
Returns 1 if successful or -1 on error. -/
def libewf_set_delta_segment_filename_wide (c : Collaborators)
    (handle : Option libewf_internal_handle_t) (filename : List Nat) (length : Nat) :
    Outcome Unit :=
  match handle with
  | none => ⟨-1, handle, ()⟩
  | some internal_handle =>
    if internal_handle.write = none then ⟨-1, handle, ()⟩
    else if internal_handle.delta_segment_table = none then ⟨-1, handle, ()⟩
    else
      let set := c.libewf_segment_table_set_basename_wide
        internal_handle.delta_segment_table filename (filename_length filename length)
      let internal_handle := { internal_handle with delta_segment_table := set.2 }
      if set.1 ≠ 1 then ⟨-1, some internal_handle, ()⟩ else ⟨1, some internal_handle, ()⟩

/-- Sets the read wipe chunk on error.
Returns 1 if successful or -1 on error. -/
def libewf_set_read_wipe_chunk_on_error (handle : Option libewf_internal_handle_t)
    (wipe_on_error : Nat) : Outcome Unit :=
  match handle with
  | none => ⟨-1, handle, ()⟩
  | some internal_handle =>
    match internal_handle.read with
    | none => ⟨-1, handle, ()⟩
    | some read =>
      ⟨1, some { internal_handle with
        read := some { read with wipe_on_error := wipe_on_error } }, ()⟩

/-- Sets the header codepage.
Returns 1 if successful or -1 on error. -/
def libewf_set_header_codepage (d : Definitions)
    (handle : Option libewf_internal_handle_t) (header_codepage : Int) : Outcome Unit :=
  match handle with
  | none => ⟨-1, handle, ()⟩
  | some internal_handle =>
    match internal_handle.header_sections with
    | none => ⟨-1, handle, ()⟩
    | some header_sections =>
      if header_codepage ≠ d.LIBEWF_CODEPAGE_ASCII
          ∨ header_codepage ≠ d.LIBEWF_CODEPAGE_WINDOWS_1250
          ∨ header_codepage ≠ d.LIBEWF_CODEPAGE_WINDOWS_1251
          ∨ header_codepage ≠ d.LIBEWF_CODEPAGE_WINDOWS_1252
          ∨ header_codepage ≠ d.LIBEWF_CODEPAGE_WINDOWS_1253
          ∨ header_codepage ≠ d.LIBEWF_CODEPAGE_WINDOWS_1254
          ∨ header_codepage ≠ d.LIBEWF_CODEPAGE_WINDOWS_1256
          ∨ header_codepage ≠ d.LIBEWF_CODEPAGE_WINDOWS_1257 then ⟨-1, handle, ()⟩
      else
        ⟨1, some { internal_handle with
          header_sections := some { header_sections with
            header_codepage := header_codepage } }, ()⟩

/-- The part of `libewf_set_header_value` that stores the value once the
header values exist. -/
def libewf_set_header_value_store (c : Collaborators)
    (internal_handle : libewf_internal_handle_t) (identifier : List Nat)
    (value : Option (List Nat)) (value_length : Nat) : Outcome Unit :=
  let identifier_length := narrow_string_length identifier
  let set := c.libewf_values_table_set_value internal_handle.header_values
    identifier identifier_length value value_length
  let internal_handle := { internal_handle with header_values := set.2 }
  if set.1 ≠ 1 then ⟨-1, some internal_handle, ()⟩ else ⟨1, some internal_handle, ()⟩

/-- Sets the header value specified by the identifier.
Returns 1 if successful or -1 on error. -/
def libewf_set_header_value (c : Collaborators) (d : Definitions)
    (handle : Option libewf_internal_handle_t) (identifier : Option (List Nat))
    (value : Option (List Nat)) (value_length : Nat) : Outcome Unit :=
  match handle with
  | none => ⟨-1, handle, ()⟩
  | some internal_handle =>
    if internal_handle.read ≠ none then ⟨-1, handle, ()⟩
    else
      match internal_handle.write with
      | none => ⟨-1, handle, ()⟩
      | some write =>
        if write.values_initialized ≠ 0 then ⟨-1, handle, ()⟩
        else
          match identifier with
          | none => ⟨-1, handle, ()⟩
          | some identifier =>
            if internal_handle.header_values = none then
              let created := c.libewf_values_table_initialize
                internal_handle.header_values d.LIBEWF_HEADER_VALUES_DEFAULT_AMOUNT
              let internal_handle := { internal_handle with header_values := created.2 }
              if created.1 ≠ 1 then ⟨-1, some internal_handle, ()⟩
              else
                let initialized := c.libewf_header_values_initialize
                  internal_handle.header_values
                let internal_handle := { internal_handle with
                  header_values := initialized.2 }
                if initialized.1 ≠ 1 then ⟨-1, some internal_handle, ()⟩
                else
                  libewf_set_header_value_store c internal_handle identifier
                    value value_length
            else
              libewf_set_header_value_store c internal_handle identifier
                value value_length

/-- The part of `libewf_set_hash_value` that stores the value once the hash
values exist, and generates the MD5 hash for the identifier "MD5". -/
def libewf_set_hash_value_store (c : Collaborators)
    (internal_handle : libewf_internal_handle_t) (identifier : List Nat)
    (value : Option (List Nat)) (value_length : Nat) : Outcome Unit :=
  let identifier_length := narrow_string_length identifier
  let set := c.libewf_values_table_set_value internal_handle.hash_values
    identifier identifier_length value value_length
  let internal_handle := { internal_handle with hash_values := set.2 }
  if set.1 ≠ 1 then ⟨-1, some internal_handle, ()⟩
  else
    match internal_handle.hash_sections with
    | none => ⟨1, some internal_handle, ()⟩
    | some hash_sections =>
      if identifier_length = 3
          ∧ narrow_string_compare identifier MD5_identifier identifier_length = 0 then
        let generated := c.libewf_hash_values_generate_md5_hash
          internal_handle.hash_values hash_sections.md5_hash 16 hash_sections.md5_hash_set
        let internal_handle := { internal_handle with
          hash_values := generated.2.1,
          hash_sections := some { hash_sections with
            md5_hash := generated.2.2.1, md5_hash_set := generated.2.2.2 } }
        if generated.1 ≠ 1 then ⟨-1, some internal_handle, ()⟩
        else ⟨1, some internal_handle, ()⟩
      else ⟨1, some internal_handle, ()⟩

/-- Sets the hash value specified by the identifier.
Returns 1 if successful or -1 on error. -/
def libewf_set_hash_value (c : Collaborators) (d : Definitions)
    (handle : Option libewf_internal_handle_t) (identifier : Option (List Nat))
    (value : Option (List Nat)) (value_length : Nat) : Outcome Unit :=
  match handle with
  | none => ⟨-1, handle, ()⟩
  | some internal_handle =>
    if internal_handle.read ≠ none then ⟨-1, handle, ()⟩
    else
      match identifier with
      | none => ⟨-1, handle, ()⟩
      | some identifier =>
        if internal_handle.hash_values = none then
          let created := c.libewf_values_table_initialize
            internal_handle.hash_values d.LIBEWF_HASH_VALUES_DEFAULT_AMOUNT
          let internal_handle := { internal_handle with hash_values := created.2 }
          if created.1 ≠ 1 then ⟨-1, some internal_handle, ()⟩
          else
            let initialized := c.libewf_hash_values_initialize
              internal_handle.hash_values
            let internal_handle := { internal_handle with hash_values := initialized.2 }
            if initialized.1 ≠ 1 then ⟨-1, some internal_handle, ()⟩
            else
              libewf_set_hash_value_store c internal_handle identifier value value_length
        else
          libewf_set_hash_value_store c internal_handle identifier value value_length

/-! ## Parsers -/

/-- The first character of the value string at `index` of a values table is
`character`: the `value` array and the entry are not `NULL` and
`value[ index ][ 0 ]` is the character.  An index outside the array reads as a
`NULL` entry, the empty string starts with its end-of-string character. -/
def value_starts_with (values : libewf_values_table_t) (index : Nat) (character : Nat) :
    Bool :=
  match values.value with
  | none => false
  | some value =>
    match value.getD index none with
    | none => false
    | some string => string.headD 0 == character

/-- The end of `libewf_parse_header_values`: fails without header values,
otherwise turns the EnCase2 format into EnCase3 when the acquiry software
version starts with '3'. -/
def libewf_parse_header_values_format (d : Definitions)
    (internal_handle : libewf_internal_handle_t) : Outcome Unit :=
  match internal_handle.header_values with
  | none => ⟨-1, some internal_handle, ()⟩
  | some header_values =>
    if internal_handle.format = d.LIBEWF_FORMAT_ENCASE2
        ∧ header_values.amount_of_values > d.LIBEWF_HEADER_VALUES_DEFAULT_AMOUNT
        ∧ value_starts_with header_values
            d.LIBEWF_HEADER_VALUES_INDEX_ACQUIRY_SOFTWARE_VERSION 51 = true then
      ⟨1, some { internal_handle with format := d.LIBEWF_FORMAT_ENCASE3 }, ()⟩
    else ⟨1, some internal_handle, ()⟩

/-- The third step of `libewf_parse_header_values`: the header section. -/
def libewf_parse_header_values_header (c : Collaborators) (d : Definitions)
    (internal_handle : libewf_internal_handle_t)
    (header_sections : libewf_header_sections_t) (date_format : Nat) : Outcome Unit :=
  match internal_handle.header_values, header_sections.header with
  | none, some header =>
    let parsed := c.libewf_header_values_parse_header internal_handle.header_values
      header header_sections.header_size header_sections.header_codepage date_format
    let internal_handle := { internal_handle with header_values := parsed.2 }
    if parsed.1 ≠ 1 then ⟨-1, some internal_handle, ()⟩
    else libewf_parse_header_values_format d internal_handle
  | _, _ => libewf_parse_header_values_format d internal_handle

/-- The second step of `libewf_parse_header_values`: the header2 section. -/
def libewf_parse_header_values_header2 (c : Collaborators) (d : Definitions)
    (internal_handle : libewf_internal_handle_t)
    (header_sections : libewf_header_sections_t) (date_format : Nat) : Outcome Unit :=
  match internal_handle.header_values, header_sections.header2 with
  | none, some header2 =>
    let parsed := c.libewf_header_values_parse_header2 internal_handle.header_values
      header2 header_sections.header2_size date_format
    let internal_handle := { internal_handle with header_values := parsed.2 }
    if parsed.1 ≠ 1 then ⟨-1, some internal_handle, ()⟩
    else libewf_parse_header_values_header c d internal_handle header_sections date_format
  | _, _ => libewf_parse_header_values_header c d internal_handle header_sections date_format

/-- Parses the header values from the xheader, header2 or header section.
Will parse the first available header in order mentioned above.
Returns 1 if successful, 0 if already parsed or -1 on error. -/
def libewf_parse_header_values (c : Collaborators) (d : Definitions)
    (handle : Option libewf_internal_handle_t) (date_format : Nat) : Outcome Unit :=
  match handle with
  | none => ⟨-1, handle, ()⟩
  | some internal_handle =>
    match internal_handle.header_sections with
    | none => ⟨-1, handle, ()⟩
    | some header_sections =>
      if internal_handle.header_values ≠ none then ⟨0, handle, ()⟩
      else
        match header_sections.xheader with
        | some xheader =>
          let parsed := c.libewf_header_values_parse_xheader
            internal_handle.header_values xheader header_sections.xheader_size date_format
          let internal_handle := { internal_handle with header_values := parsed.2 }
          if parsed.1 ≠ 1 then ⟨-1, some internal_handle, ()⟩
          else
            libewf_parse_header_values_header2 c d internal_handle header_sections
              date_format
        | none =>
          libewf_parse_header_values_header2 c d internal_handle header_sections
            date_format

/-- The `else if` chain of `libewf_parse_hash_values`, entered when the xhash
section is absent or was parsed: the digests, else the MD5 hash. -/
def libewf_parse_hash_values_digests (c : Collaborators)
    (internal_handle : libewf_internal_handle_t)
    (hash_sections : libewf_hash_sections_t) : Outcome Unit :=
  if hash_sections.md5_digest_set ≠ 0 ∨ hash_sections.sha1_digest_set ≠ 0 then
    let md5 :=
      if hash_sections.md5_digest_set ≠ 0 then
        c.libewf_hash_values_parse_md5_hash internal_handle.hash_values
          hash_sections.md5_digest 16
      else (1, internal_handle.hash_values)
    let internal_handle := { internal_handle with hash_values := md5.2 }
    if md5.1 ≠ 1 then ⟨-1, some internal_handle, ()⟩
    else
      let sha1 :=
        if hash_sections.sha1_digest_set ≠ 0 then
          c.libewf_hash_values_parse_sha1_hash internal_handle.hash_values
            hash_sections.sha1_digest 20
        else (1, internal_handle.hash_values)
      let internal_handle := { internal_handle with hash_values := sha1.2 }
      if sha1.1 ≠ 1 then ⟨-1, some internal_handle, ()⟩
      else ⟨1, some internal_handle, ()⟩
  else if hash_sections.md5_hash_set ≠ 0 then
    let md5 := c.libewf_hash_values_parse_md5_hash internal_handle.hash_values
      hash_sections.md5_hash 16
    let internal_handle := { internal_handle with hash_values := md5.2 }
    if md5.1 ≠ 1 then ⟨-1, some internal_handle, ()⟩
    else ⟨1, some internal_handle, ()⟩
  else ⟨1, some internal_handle, ()⟩

/-- Parses the hash values from the xhash section.
Returns 1 if successful, 0 if already parsed or -1 on error. -/
def libewf_parse_hash_values (c : Collaborators)
    (handle : Option libewf_internal_handle_t) : Outcome Unit :=
  match handle with
  | none => ⟨-1, handle, ()⟩
  | some internal_handle =>
    match internal_handle.hash_sections with
    | none => ⟨-1, handle, ()⟩
    | some hash_sections =>
      if internal_handle.hash_values ≠ none then ⟨0, handle, ()⟩
      else
        match hash_sections.xhash with
        | some xhash =>
          let parsed := c.libewf_hash_values_parse_xhash internal_handle.hash_values
            xhash hash_sections.xhash_size
          let internal_handle := { internal_handle with hash_values := parsed.2 }
          if parsed.1 ≠ 1 then ⟨-1, some internal_handle, ()⟩
          else libewf_parse_hash_values_digests c internal_handle hash_sections
        | none => libewf_parse_hash_values_digests c internal_handle hash_sections

/-! ## Sector tables -/

/-- Add an acquiry error.  Returns 1 if successful or -1 on error. -/
def libewf_add_acquiry_error (c : Collaborators)
    (handle : Option libewf_internal_handle_t) (first_sector : Int)
    (amount_of_sectors : Nat) : Outcome Unit :=
  match handle with
  | none => ⟨-1, handle, ()⟩
  | some internal_handle =>
    let added := c.libewf_sector_table_add_sector internal_handle.acquiry_errors
      first_sector amount_of_sectors 1
    let internal_handle := { internal_handle with acquiry_errors := added.2 }
    if added.1 ≠ 1 then ⟨-1, some internal_handle, ()⟩ else ⟨1, some internal_handle, ()⟩

/-- Add a CRC error.  Returns 1 if successful or -1 on error. -/
def libewf_add_crc_error (c : Collaborators)
    (handle : Option libewf_internal_handle_t) (first_sector : Int)
    (amount_of_sectors : Nat) : Outcome Unit :=
  match handle with
  | none => ⟨-1, handle, ()⟩
  | some internal_handle =>
    match internal_handle.read with
    | none => ⟨-1, handle, ()⟩
    | some read =>
      let added := c.libewf_sector_table_add_sector read.crc_errors
        first_sector amount_of_sectors 1
      let internal_handle := { internal_handle with
        read := some { read with crc_errors := added.2 } }
      if added.1 ≠ 1 then ⟨-1, some internal_handle, ()⟩
      else ⟨1, some internal_handle, ()⟩

/-- Add a session.  Returns 1 if successful or -1 on error. -/
def libewf_add_session (c : Collaborators)
    (handle : Option libewf_internal_handle_t) (first_sector : Int)
    (amount_of_sectors : Nat) : Outcome Unit :=
  match handle with
  | none => ⟨-1, handle, ()⟩
  | some internal_handle =>
    let added := c.libewf_sector_table_add_sector internal_handle.sessions
      first_sector amount_of_sectors 0
    let internal_handle := { internal_handle with sessions := added.2 }
    if added.1 ≠ 1 then ⟨-1, some internal_handle, ()⟩ else ⟨1, some internal_handle, ()⟩

/-! ## Copy functions

Both handles are passed by value: `handle` of the outcome is the destination
handle after the call, `out` the source handle after the call.  The
destination and the source are distinct objects. -/

/-- The part of `libewf_copy_header_values` that copies once the destination
has header values. -/
def libewf_copy_header_values_copy (c : Collaborators)
    (internal_destination_handle internal_source_handle : libewf_internal_handle_t) :
    Outcome (Option libewf_internal_handle_t) :=
  let copied := c.libewf_header_values_copy internal_destination_handle.header_values
    internal_source_handle.header_values
  let internal_destination_handle := { internal_destination_handle with
    header_values := copied.2.1 }
  let internal_source_handle := { internal_source_handle with
    header_values := copied.2.2 }
  if copied.1 ≠ 1 then
    ⟨-1, some internal_destination_handle, some internal_source_handle⟩
  else ⟨1, some internal_destination_handle, some internal_source_handle⟩

/-- Copies the header values from the source to the destination handle.
Returns 1 if successful or -1 on error. -/
def libewf_copy_header_values (c : Collaborators) (d : Definitions)
    (destination_handle source_handle : Option libewf_internal_handle_t) :
    Outcome (Option libewf_internal_handle_t) :=
  match destination_handle with
  | none => ⟨-1, destination_handle, source_handle⟩
  | some internal_destination_handle =>
    match source_handle with
    | none => ⟨-1, destination_handle, source_handle⟩
    | some internal_source_handle =>
      if internal_source_handle.header_values = none then
        ⟨-1, destination_handle, source_handle⟩
      else if internal_destination_handle.header_values = none then
        let created := c.libewf_values_table_initialize
          internal_destination_handle.header_values d.LIBEWF_HEADER_VALUES_DEFAULT_AMOUNT
        let internal_destination_handle := { internal_destination_handle with
          header_values := created.2 }
        if created.1 ≠ 1 then ⟨-1, some internal_destination_handle, source_handle⟩
        else
          let initialized := c.libewf_header_values_initialize
            internal_destination_handle.header_values
          let internal_destination_handle := { internal_destination_handle with
            header_values := initialized.2 }
          if initialized.1 ≠ 1 then
            ⟨-1, some internal_destination_handle, source_handle⟩
          else
            libewf_copy_header_values_copy c internal_destination_handle
              internal_source_handle
      else
        libewf_copy_header_values_copy c internal_destination_handle internal_source_handle

/-- Copies the media values from the source to the destination handle: a
`memory_copy` of the whole `libewf_media_values_t`.
Returns 1 if successful or -1 on error. -/
def libewf_copy_media_values
    (destination_handle source_handle : Option libewf_internal_handle_t) :
    Outcome (Option libewf_internal_handle_t) :=
  match destination_handle with
  | none => ⟨-1, destination_handle, source_handle⟩
  | some internal_destination_handle =>
    match source_handle with
    | none => ⟨-1, destination_handle, source_handle⟩
    | some internal_source_handle =>
      match internal_source_handle.media_values with
      | none => ⟨-1, destination_handle, source_handle⟩
      | some source_media_values =>
        match internal_destination_handle.media_values with
        | none => ⟨-1, destination_handle, source_handle⟩
        | some _ =>
          ⟨1, some { internal_destination_handle with
            media_values := some source_media_values }, source_handle⟩

/-! ## The interface as a set of operations on one handle -/

/-- A call of an interface function on a handle, with its other arguments.
The copy functions appear twice: with the handle as destination (`_to`, the
argument is the source) and as source (`_from`, the argument is the
destination). -/
inductive Operation where
  | get_flags_read
  | get_flags_read_write
  | get_flags_write
  | get_sectors_per_chunk (sectors_per_chunk : Option Nat)
  | get_bytes_per_sector (bytes_per_sector : Option Nat)
  | get_amount_of_sectors (amount_of_sectors : Option Nat)
  | get_chunk_size (chunk_size : Option Nat)
  | get_error_granularity (error_granularity : Option Nat)
  | get_compression_values (compression_level : Option Int)
      (compress_empty_block : Option Nat)
  | get_media_size (media_size : Option Nat)
  | get_media_type (media_type : Option Nat)
  | get_media_flags (media_flags : Option Nat)
  | get_volume_type (volume_type : Option Nat)
  | get_format (format : Option Nat)
  | get_guid (guid : Option (List Nat)) (size : Nat)
  | get_md5_hash (md5_hash : Option (List Nat)) (size : Nat)
  | get_sha1_hash (sha1_hash : Option (List Nat)) (size : Nat)
  | get_segment_filename (filename : Option (List Nat)) (size : Nat)
  | get_segment_filename_wide (filename : Option (List Nat)) (size : Nat)
  | get_delta_segment_filename (filename : Option (List Nat)) (size : Nat)
  | get_delta_segment_filename_wide (filename : Option (List Nat)) (size : Nat)
  | get_amount_of_acquiry_errors (amount_of_errors : Option Nat)
  | get_acquiry_error (index : Nat) (first_sector : Option Int)
      (amount_of_sectors : Option Nat)
  | get_amount_of_crc_errors (amount_of_errors : Option Nat)
  | get_crc_error (index : Nat) (first_sector : Option Int)
      (amount_of_sectors : Option Nat)
  | get_amount_of_sessions (amount_of_sessions : Option Nat)
  | get_session (index : Nat) (first_sector : Option Int)
      (amount_of_sectors : Option Nat)
  | get_write_amount_of_chunks (amount_of_chunks : Option Nat)
  | get_header_codepage (header_codepage : Option Int)
  | get_amount_of_header_values (amount_of_values : Option Nat)
  | get_header_value_identifier (index : Nat) (identifier : Option (List Nat))
      (identifier_length : Nat)
  | get_header_value (identifier : Option (List Nat)) (value : Option (List Nat))
      (value_length : Nat)
  | get_amount_of_hash_values (amount_of_values : Option Nat)
  | get_hash_value_identifier (index : Nat) (identifier : Option (List Nat))
      (identifier_length : Nat)
  | get_hash_value (identifier : Option (List Nat)) (value : Option (List Nat))
      (value_length : Nat)
  | set_sectors_per_chunk (sectors_per_chunk : Nat)
  | set_bytes_per_sector (bytes_per_sector : Nat)
  | set_error_granularity (error_granularity : Nat)
  | set_compression_values (compression_level : Int) (compress_empty_block : Nat)
  | set_media_size (media_size : Nat)
  | set_segment_file_size (segment_file_size : Nat)
  | set_delta_segment_file_size (delta_segment_file_size : Nat)
  | set_media_type (media_type : Nat)
  | set_volume_type (volume_type : Nat)
  | set_format (format : Nat)
  | set_guid (guid : Option (List Nat)) (size : Nat)
  | set_md5_hash (md5_hash : Option (List Nat)) (size : Nat)
  | set_sha1_hash (sha1_hash : Option (List Nat)) (size : Nat)
  | set_segment_filename (filename : List Nat) (length : Nat)
  | set_segment_filename_wide (filename : List Nat) (length : Nat)
  | set_delta_segment_filename (filename : List Nat) (length : Nat)
  | set_delta_segment_filename_wide (filename : List Nat) (length : Nat)
  | set_read_wipe_chunk_on_error (wipe_on_error : Nat)
  | set_header_codepage (header_codepage : Int)
  | set_header_value (identifier : Option (List Nat)) (value : Option (List Nat))
      (value_length : Nat)
  | set_hash_value (identifier : Option (List Nat)) (value : Option (List Nat))
      (value_length : Nat)
  | parse_header_values (date_format : Nat)
  | parse_hash_values
  | add_acquiry_error (first_sector : Int) (amount_of_sectors : Nat)
  | add_crc_error (first_sector : Int) (amount_of_sectors : Nat)
  | add_session (first_sector : Int) (amount_of_sectors : Nat)
  | copy_header_values_to (source_handle : Option libewf_internal_handle_t)
  | copy_header_values_from (destination_handle : Option libewf_internal_handle_t)
  | copy_media_values_to (source_handle : Option libewf_internal_handle_t)
  | copy_media_values_from (destination_handle : Option libewf_internal_handle_t)

/-- The handle after an operation. -/
def Operation.run (c : Collaborators) (d : Definitions) (handle : Option libewf_internal_handle_t) :
    Operation → Option libewf_internal_handle_t
  | .get_flags_read => handle
  | .get_flags_read_write => handle
  | .get_flags_write => handle
  | .get_sectors_per_chunk o => (libewf_get_sectors_per_chunk handle o).handle
  | .get_bytes_per_sector o => (libewf_get_bytes_per_sector handle o).handle
  | .get_amount_of_sectors o => (libewf_get_amount_of_sectors handle o).handle
  | .get_chunk_size o => (libewf_get_chunk_size handle o).handle
  | .get_error_granularity o => (libewf_get_error_granularity handle o).handle
  | .get_compression_values l b => (libewf_get_compression_values handle l b).handle
  | .get_media_size o => (libewf_get_media_size handle o).handle
  | .get_media_type o => (libewf_get_media_type handle o).handle
  | .get_media_flags o => (libewf_get_media_flags handle o).handle
  | .get_volume_type o => (libewf_get_volume_type d handle o).handle
  | .get_format o => (libewf_get_format handle o).handle
  | .get_guid g n => (libewf_get_guid handle g n).handle
  | .get_md5_hash b n => (libewf_get_md5_hash c handle b n).handle
  | .get_sha1_hash b n => (libewf_get_sha1_hash c handle b n).handle
  | .get_segment_filename f n => (libewf_get_segment_filename c handle f n).handle
  | .get_segment_filename_wide f n => (libewf_get_segment_filename_wide c handle f n).handle
  | .get_delta_segment_filename f n => (libewf_get_delta_segment_filename c handle f n).handle
  | .get_delta_segment_filename_wide f n =>
    (libewf_get_delta_segment_filename_wide c handle f n).handle
  | .get_amount_of_acquiry_errors o => (libewf_get_amount_of_acquiry_errors handle o).handle
  | .get_acquiry_error i f a => (libewf_get_acquiry_error c handle i f a).handle
  | .get_amount_of_crc_errors o => (libewf_get_amount_of_crc_errors handle o).handle
  | .get_crc_error i f a => (libewf_get_crc_error c handle i f a).handle
  | .get_amount_of_sessions o => (libewf_get_amount_of_sessions handle o).handle
  | .get_session i f a => (libewf_get_session c handle i f a).handle
  | .get_write_amount_of_chunks o => (libewf_get_write_amount_of_chunks handle o).handle
  | .get_header_codepage o => (libewf_get_header_codepage handle o).handle
  | .get_amount_of_header_values o => (libewf_get_amount_of_header_values handle o).handle
  | .get_header_value_identifier i b n =>
    (libewf_get_header_value_identifier c handle i b n).handle
  | .get_header_value i v n => (libewf_get_header_value c handle i v n).handle
  | .get_amount_of_hash_values o => (libewf_get_amount_of_hash_values handle o).handle
  | .get_hash_value_identifier i b n =>
    (libewf_get_hash_value_identifier c handle i b n).handle
  | .get_hash_value i v n => (libewf_get_hash_value c handle i v n).handle
  | .set_sectors_per_chunk n => (libewf_set_sectors_per_chunk c handle n).handle
  | .set_bytes_per_sector n => (libewf_set_bytes_per_sector c handle n).handle
  | .set_error_granularity n => (libewf_set_error_granularity handle n).handle
  | .set_compression_values l b => (libewf_set_compression_values d handle l b).handle
  | .set_media_size n => (libewf_set_media_size c handle n).handle
  | .set_segment_file_size n => (libewf_set_segment_file_size handle n).handle
  | .set_delta_segment_file_size n => (libewf_set_delta_segment_file_size handle n).handle
  | .set_media_type t => (libewf_set_media_type handle t).handle
  | .set_volume_type t => (libewf_set_volume_type d handle t).handle
  | .set_format f => (libewf_set_format c handle f).handle
  | .set_guid g n => (libewf_set_guid handle g n).handle
  | .set_md5_hash b n => (libewf_set_md5_hash c handle b n).handle
  | .set_sha1_hash b n => (libewf_set_sha1_hash c handle b n).handle
  | .set_segment_filename f n => (libewf_set_segment_filename c handle f n).handle
  | .set_segment_filename_wide f n => (libewf_set_segment_filename_wide c handle f n).handle
  | .set_delta_segment_filename f n => (libewf_set_delta_segment_filename c handle f n).handle
  | .set_delta_segment_filename_wide f n =>
    (libewf_set_delta_segment_filename_wide c handle f n).handle
  | .set_read_wipe_chunk_on_error w => (libewf_set_read_wipe_chunk_on_error handle w).handle
  | .set_header_codepage p => (libewf_set_header_codepage d handle p).handle
  | .set_header_value i v n => (libewf_set_header_value c d handle i v n).handle
  | .set_hash_value i v n => (libewf_set_hash_value c d handle i v n).handle
  | .parse_header_values f => (libewf_parse_header_values c d handle f).handle
  | .parse_hash_values => (libewf_parse_hash_values c handle).handle
  | .add_acquiry_error f a => (libewf_add_acquiry_error c handle f a).handle
  | .add_crc_error f a => (libewf_add_crc_error c handle f a).handle
  | .add_session f a => (libewf_add_session c handle f a).handle
  | .copy_header_values_to source => (libewf_copy_header_values c d handle source).handle
  | .copy_header_values_from destination =>
    (libewf_copy_header_values c d destination handle).out
  | .copy_media_values_to source => (libewf_copy_media_values handle source).handle
  | .copy_media_values_from destination => (libewf_copy_media_values destination handle).out

/-- The chunk size and the bytes per sector of a handle, when it has media
values. -/
def chunk_geometry (handle : Option libewf_internal_handle_t) : Option (Nat × Nat) :=
  match handle with
  | none => none
  | some internal_handle =>
    match internal_handle.media_values with
    | none => none
    | some media_values => some (media_values.chunk_size, media_values.bytes_per_sector)

/-- Writing has begun: the handle has a write subhandle whose
`values_initialized` is not 0. -/
def writing_has_begun (internal_handle : libewf_internal_handle_t) : Prop :=
  ∃ write, internal_handle.write = some write ∧ write.values_initialized ≠ 0

/-- The operation is a `libewf_get_*` function other than
`libewf_get_media_size`, `libewf_get_md5_hash`, `libewf_get_sha1_hash` and
`libewf_get_hash_value`. -/
def Operation.is_plain_getter : Operation → Bool
  | .get_flags_read => true
  | .get_flags_read_write => true
  | .get_flags_write => true
  | .get_sectors_per_chunk _ => true
  | .get_bytes_per_sector _ => true
  | .get_amount_of_sectors _ => true
  | .get_chunk_size _ => true
  | .get_error_granularity _ => true
  | .get_compression_values _ _ => true
  | .get_media_type _ => true
  | .get_media_flags _ => true
  | .get_volume_type _ => true
  | .get_format _ => true
  | .get_guid _ _ => true
  | .get_segment_filename _ _ => true
  | .get_segment_filename_wide _ _ => true
  | .get_delta_segment_filename _ _ => true
  | .get_delta_segment_filename_wide _ _ => true
  | .get_amount_of_acquiry_errors _ => true
  | .get_acquiry_error _ _ _ => true
  | .get_amount_of_crc_errors _ => true
  | .get_crc_error _ _ _ => true
  | .get_amount_of_sessions _ => true
  | .get_session _ _ _ => true
  | .get_write_amount_of_chunks _ => true
  | .get_header_codepage _ => true
  | .get_amount_of_header_values _ => true
  | .get_header_value_identifier _ _ _ => true
  | .get_header_value _ _ _ => true
  | .get_amount_of_hash_values _ => true
  | .get_hash_value_identifier _ _ _ => true
  | _ => false

/-! ## The write-chunk test (`tests/ewf_test_write_chunk.c`) -/

/-- Constants of the library header that the write-chunk test names. -/
structure TestDefinitions where
  LIBEWF_COMPRESSION_NONE : Int
  LIBEWF_COMPRESSION_FAST : Int
  LIBEWF_COMPRESSION_BEST : Int
  LIBEWF_COMPRESS_FLAG_USE_EMPTY_BLOCK_COMPRESSION : Nat

/-- The compression level and compression flags that `main` of the write-chunk
test passes to `ewf_test_write_chunk`, derived from the argument of its `-c`
option (`none` when the option is not given): without the option the initial
values `LIBEWF_COMPRESSION_NONE` and 0; `none` where `main` prints "Unsupported
compression level." and stops. -/
def main_compression_values (t : TestDefinitions)
    (option_compression_level : Option (List Nat)) : Option (Int × Nat) :=
  match option_compression_level with
  | none => some (t.LIBEWF_COMPRESSION_NONE, 0)
  | some option =>
    if option.length ≠ 1 then none
    else if option.getD 0 0 = 98 then some (t.LIBEWF_COMPRESSION_BEST, 0)
    else if option.getD 0 0 = 101 then
      some (t.LIBEWF_COMPRESSION_NONE, t.LIBEWF_COMPRESS_FLAG_USE_EMPTY_BLOCK_COMPRESSION)
    else if option.getD 0 0 = 102 then some (t.LIBEWF_COMPRESSION_FAST, 0)
    else if option.getD 0 0 = 110 then some (t.LIBEWF_COMPRESSION_NONE, 0)
    else none

/-! ## Concrete values, on which the functions are evaluated -/

/-- A valuation of the constants of the definition headers. -/
def sample_definitions : Definitions where
  LIBEWF_FLAG_READ := 1
  LIBEWF_FLAG_WRITE := 2
  EWF_COMPRESSION_NONE := 0
  EWF_COMPRESSION_FAST := 1
  EWF_COMPRESSION_BEST := 2
  EWF_MEDIA_FLAGS_IS_PHYSICAL := 2
  LIBEWF_VOLUME_TYPE_LOGICAL := 0
  LIBEWF_VOLUME_TYPE_PHYSICAL := 1
  LIBEWF_FORMAT_ENCASE2 := 2
  LIBEWF_FORMAT_ENCASE3 := 3
  LIBEWF_CODEPAGE_ASCII := 20127
  LIBEWF_CODEPAGE_WINDOWS_1250 := 1250
  LIBEWF_CODEPAGE_WINDOWS_1251 := 1251
  LIBEWF_CODEPAGE_WINDOWS_1252 := 1252
  LIBEWF_CODEPAGE_WINDOWS_1253 := 1253
  LIBEWF_CODEPAGE_WINDOWS_1254 := 1254
  LIBEWF_CODEPAGE_WINDOWS_1256 := 1256
  LIBEWF_CODEPAGE_WINDOWS_1257 := 1257
  LIBEWF_HEADER_VALUES_DEFAULT_AMOUNT := 16
  LIBEWF_HASH_VALUES_DEFAULT_AMOUNT := 1
  LIBEWF_HEADER_VALUES_INDEX_ACQUIRY_SOFTWARE_VERSION := 8

/-- A values table with one entry. -/
def sample_values_table (identifier value : List Nat) : libewf_values_table_t where
  amount_of_values := 1
  identifier := some [some identifier]
  value := some [some value]

/-- Collaborators that succeed: the media values setter stores the three
values and the chunk size, the hash parsers create a one-entry table, the
table functions leave their table as it is. -/
def sample_collaborators : Collaborators where
  libewf_internal_handle_set_media_values := fun internal_handle spc bps size =>
    (1, { internal_handle with
      media_values := internal_handle.media_values.map fun media_values =>
        { media_values with
          sectors_per_chunk := spc, bytes_per_sector := bps,
          chunk_size := spc * bps, media_size := size } })
  libewf_internal_handle_set_format := fun internal_handle format =>
    (1, { internal_handle with format := format })
  libewf_segment_table_get_basename := fun _ filename _ => (0, filename)
  libewf_segment_table_get_basename_wide := fun _ filename _ => (0, filename)
  libewf_segment_table_set_basename := fun _ filename _ => (1, some ⟨some filename⟩)
  libewf_segment_table_set_basename_wide := fun _ filename _ => (1, some ⟨some filename⟩)
  libewf_sector_table_get_sector := fun _ _ first_sector amount => (0, first_sector, amount)
  libewf_sector_table_add_sector := fun table first_sector amount _ =>
    match table with
    | none => (-1, none)
    | some table =>
      (1, some ⟨table.amount + 1, table.sector ++ [(first_sector, amount)]⟩)
  libewf_values_table_initialize := fun _ _ => (1, some ⟨0, some [], some []⟩)
  libewf_header_values_initialize := fun table => (1, table)
  libewf_hash_values_initialize := fun table => (1, table)
  libewf_values_table_get_identifier := fun _ _ identifier _ => (0, identifier)
  libewf_values_table_get_value := fun _ _ _ value _ => (0, value)
  libewf_values_table_set_value := fun table _ _ _ _ => (1, table)
  libewf_header_values_copy := fun _ source => (1, source, source)
  libewf_header_values_parse_xheader := fun _ xheader _ _ =>
    (1, some (sample_values_table [120] xheader))
  libewf_header_values_parse_header2 := fun _ header2 _ _ =>
    (1, some (sample_values_table [50] header2))
  libewf_header_values_parse_header := fun _ header _ _ _ =>
    (1, some (sample_values_table [49] header))
  libewf_hash_values_parse_xhash := fun _ xhash _ =>
    (1, some (sample_values_table [120] xhash))
  libewf_hash_values_parse_md5_hash := fun _ md5_hash size =>
    (1, some (sample_values_table MD5_identifier (md5_hash.take size)))
  libewf_hash_values_parse_sha1_hash := fun _ sha1_hash size =>
    (1, some (sample_values_table [83, 72, 65, 49] (sha1_hash.take size)))
  libewf_hash_values_generate_md5_hash := fun table md5_hash _ md5_hash_set =>
    (1, table, md5_hash, md5_hash_set)
  libewf_hash_values_generate_sha1_hash := fun table sha1_hash _ sha1_hash_set =>
    (1, table, sha1_hash, sha1_hash_set)

/-- Media values of a 1 MiB medium in chunks of 64 sectors of 512 bytes. -/
def sample_media_values : libewf_media_values_t where
  media_size := 1048576
  chunk_size := 32768
  sectors_per_chunk := 64
  bytes_per_sector := 512
  amount_of_sectors := 2048
  error_granularity := 64
  media_type := 1
  media_flags := 1
  guid := List.replicate 16 0

/-- Hash sections without a hash. -/
def sample_hash_sections : libewf_hash_sections_t where
  xhash := none
  xhash_size := 0
  md5_hash := List.replicate 16 0
  md5_hash_set := 0
  md5_digest := List.replicate 16 0
  md5_digest_set := 0
  sha1_digest := List.replicate 20 0
  sha1_digest_set := 0

/-- A write subhandle with the given `values_initialized`. -/
def sample_write (values_initialized : Nat) : libewf_write_t where
  values_initialized := values_initialized
  segment_file_size := 1500000000
  delta_segment_file_size := 1500000000
  maximum_segment_file_size := 2147483647
  amount_of_chunks := values_initialized

/-- A handle opened for writing, with the given `values_initialized`. -/
def sample_write_handle (values_initialized : Nat) : libewf_internal_handle_t where
  read := none
  write := some (sample_write values_initialized)
  media_values := some sample_media_values
  segment_table := some ⟨none⟩
  delta_segment_table := some ⟨none⟩
  header_sections := some ⟨none, 0, none, 0, none, 0, 20127⟩
  hash_sections := some sample_hash_sections
  header_values := none
  hash_values := none
  acquiry_errors := some ⟨0, []⟩
  sessions := some ⟨0, []⟩
  compression_level := 0
  compress_empty_block := 0
  format := 5

/-- A handle opened for reading: a read subhandle and no write subhandle. -/
def sample_read_handle : libewf_internal_handle_t :=
  { sample_write_handle 0 with read := some ⟨some ⟨0, []⟩, 0⟩, write := none }

/-- Media values with 128 sectors of 4096 bytes per chunk. -/
def sample_source_media_values : libewf_media_values_t :=
  { sample_media_values with
    chunk_size := 524288, sectors_per_chunk := 128, bytes_per_sector := 4096 }

/-- A second write handle, the source of a copy. -/
def sample_source_handle : libewf_internal_handle_t :=
  { sample_write_handle 0 with media_values := some sample_source_media_values }

/-- A handle without media values and without hash sections. -/
def sample_bare_handle : libewf_internal_handle_t :=
  { sample_write_handle 0 with media_values := none, hash_sections := none }

/-- Hash sections in which the MD5 hash is set. -/
def sample_set_hash_sections : libewf_hash_sections_t :=
  { sample_hash_sections with
    md5_hash := List.range 16, md5_hash_set := 1,
    md5_digest := List.range 16, md5_digest_set := 1 }

/-- A write handle that has written its first chunk and has its MD5 hash
set. -/
def sample_hashed_handle : libewf_internal_handle_t :=
  { sample_write_handle 1 with
    hash_sections := some sample_set_hash_sections,
    hash_values := some (sample_values_table MD5_identifier (List.range 16)) }

/-- Media values in which no media size is stored. -/
def sample_unsized_media_values : libewf_media_values_t :=
  { sample_media_values with media_size := 0 }

/-- A handle whose media values store no media size. -/
def sample_unsized_handle : libewf_internal_handle_t :=
  { sample_write_handle 0 with media_values := some sample_unsized_media_values }

/-- A GUID of 16 bytes followed by 4 further bytes of the caller's buffer. -/
def sample_guid_buffer : List Nat :=
  [1, 2, 3, 4, 5, 6, 7, 8, 9, 10, 11, 12, 13, 14, 15, 16, 170, 187, 204, 221]

/-- Media values whose media flags are 0x83: image, physical, and bit 7. -/
def sample_flagged_media_values : libewf_media_values_t :=
  { sample_media_values with media_flags := 0x83 }

/-- A fresh write handle whose media flags are 0x83. -/
def sample_flagged_handle : libewf_internal_handle_t :=
  { sample_write_handle 0 with media_values := some sample_flagged_media_values }

/-- A header values table of `amount` values in which only the value at index
8, the acquiry software version, is present. -/
def sample_header_values (amount : Nat) (version : List Nat) : libewf_values_table_t where
  amount_of_values := amount
  identifier := some (List.replicate amount none)
  value := some ((List.replicate amount none).set 8 (some version))

/-- Collaborators whose header parser yields a table of `amount` values with
the bytes of the header section as acquiry software version. -/
def sample_header_collaborators (amount : Nat) : Collaborators :=
  { sample_collaborators with
    libewf_header_values_parse_header := fun _ header _ _ _ =>
      (1, some (sample_header_values amount header)) }

/-- A handle opened for reading an EnCase2 image (format 2) whose header
section holds the characters "3.18". -/
def sample_encase2_handle : libewf_internal_handle_t :=
  { sample_read_handle with
    format := 2,
    header_sections := some ⟨some [51, 46, 49, 56], 4, none, 0, none, 0, 20127⟩ }

/-- Header sections without xheader, header2 and header, in the ASCII
codepage. -/
def sample_empty_header_sections : libewf_header_sections_t :=
  ⟨none, 0, none, 0, none, 0, 20127⟩

/-- A valuation of the constants of the write-chunk test, with the compression
levels of `sample_definitions`. -/
def sample_test_definitions : TestDefinitions where
  LIBEWF_COMPRESSION_NONE := 0
  LIBEWF_COMPRESSION_FAST := 1
  LIBEWF_COMPRESSION_BEST := 2
  LIBEWF_COMPRESS_FLAG_USE_EMPTY_BLOCK_COMPRESSION := 1

/-- A handle opened for reading and writing: a read subhandle and a write
subhandle that has not written a chunk. -/
def sample_read_write_handle : libewf_internal_handle_t :=
  { sample_write_handle 0 with read := some ⟨some ⟨0, []⟩, 0⟩ }

/-- Media values of 2^32 - 1 sectors of 2^32 - 1 bytes, without a stored media
size. -/
def sample_huge_media_values : libewf_media_values_t :=
  { sample_media_values with
    media_size := 0, amount_of_sectors := 4294967295, bytes_per_sector := 4294967295 }

/-- A handle with the media values `sample_huge_media_values`. -/
def sample_huge_handle : libewf_internal_handle_t :=
  { sample_write_handle 0 with media_values := some sample_huge_media_values }

/-- A handle opened for reading whose header sections hold a header ("1"), a
header2 ("2") and an xheader ("x"). -/
def sample_three_headers_handle : libewf_internal_handle_t :=
  { sample_read_handle with
    header_sections := some ⟨some [49], 1, some [50], 1, some [120], 1, 20127⟩ }

/-- Collaborators whose MD5 generator yields the hash 0, 1, .., 15 and marks it
as set. -/
def sample_generating_collaborators : Collaborators :=
  { sample_collaborators with
    libewf_hash_values_generate_md5_hash := fun table _ _ _ =>
      (1, table, List.range 16, 1) }

/-! ## Theorems -/

/-- C1: once the first chunk has been written (the write subhandle has
`values_initialized != 0`), each of `libewf_set_sectors_per_chunk`,
`libewf_set_bytes_per_sector`, `libewf_set_media_size`, `libewf_set_media_type`,
`libewf_set_volume_type`, `libewf_set_guid` and `libewf_set_format` returns -1
for every argument and leaves the whole handle, its media values and format
included, unchanged. -/
theorem geometry_setters_fail_once_values_initialized (c : Collaborators) (d : Definitions)
    (internal_handle : libewf_internal_handle_t) (write : libewf_write_t)
    (hwrite : internal_handle.write = some write) (hinit : write.values_initialized ≠ 0)
    (sectors_per_chunk bytes_per_sector media_size media_type volume_type format size : Nat)
    (guid : Option (List Nat)) :
    libewf_set_sectors_per_chunk c (some internal_handle) sectors_per_chunk
        = ⟨-1, some internal_handle, ()⟩
    ∧ libewf_set_bytes_per_sector c (some internal_handle) bytes_per_sector
        = ⟨-1, some internal_handle, ()⟩
    ∧ libewf_set_media_size c (some internal_handle) media_size
        = ⟨-1, some internal_handle, ()⟩
    ∧ libewf_set_media_type (some internal_handle) media_type
        = ⟨-1, some internal_handle, ()⟩
    ∧ libewf_set_volume_type d (some internal_handle) volume_type
        = ⟨-1, some internal_handle, ()⟩
    ∧ libewf_set_guid (some internal_handle) guid size
        = ⟨-1, some internal_handle, ()⟩
    ∧ libewf_set_format c (some internal_handle) format
        = ⟨-1, some internal_handle, ()⟩ := by
  refine ⟨?_, ?_, ?_, ?_, ?_, ?_, ?_⟩
  · cases hm : internal_handle.media_values <;>
      simp [libewf_set_sectors_per_chunk, hm, hwrite, hinit]
  · cases hm : internal_handle.media_values <;>
      simp [libewf_set_bytes_per_sector, hm, hwrite, hinit]
  · cases hm : internal_handle.media_values <;>
      simp [libewf_set_media_size, hm, hwrite, hinit]
  · cases hm : internal_handle.media_values <;>
      simp [libewf_set_media_type, hm, hwrite, hinit]
  · cases hm : internal_handle.media_values <;>
      simp [libewf_set_volume_type, hm, hwrite, hinit]
  · cases hm : internal_handle.media_values <;> cases guid <;>
      simp [libewf_set_guid, hm, hwrite, hinit]
  · simp [libewf_set_format, hwrite, hinit]

/-- C1, on the scenario of the specification: one chunk was written with 64
sectors per chunk, then `set_sectors_per_chunk(128)` is called. -/
theorem geometry_setters_fail_once_values_initialized_witness :
    (sample_write_handle 1).write = some (sample_write 1)
    ∧ (sample_write 1).values_initialized ≠ 0
    ∧ libewf_set_sectors_per_chunk sample_collaborators (some (sample_write_handle 1)) 128
        = ⟨-1, some (sample_write_handle 1), ()⟩ :=
  ⟨rfl, by decide,
    (geometry_setters_fail_once_values_initialized sample_collaborators sample_definitions
      (sample_write_handle 1) (sample_write 1) rfl (by decide) 128 512 0 0 0 0 16 none).1⟩

/-- C2, as stated, fails: `libewf_copy_media_values` has no state guard.  On a
destination handle with `values_initialized = 1`, chunk size 32768 and 512
bytes per sector, copying from a source with chunk size 524288 and 4096 bytes
per sector returns 1 and changes both values of the destination. -/
theorem copy_media_values_changes_chunk_geometry_after_writing_began :
    writing_has_begun (sample_write_handle 1)
    ∧ chunk_geometry (some (sample_write_handle 1)) = some (32768, 512)
    ∧ (libewf_copy_media_values (some (sample_write_handle 1))
        (some sample_source_handle)).result = 1
    ∧ chunk_geometry (libewf_copy_media_values (some (sample_write_handle 1))
        (some sample_source_handle)).handle = some (524288, 4096) :=
  ⟨⟨sample_write 1, rfl, by decide⟩, rfl, rfl, rfl⟩

set_option maxHeartbeats 1600000 in
/-- C2, amended: once writing has begun (`values_initialized != 0` in the write
subhandle), `chunk_size` and `bytes_per_sector` of the handle are the same
after as before every interface operation other than `libewf_copy_media_values`
with the handle as destination: every `libewf_set_*`, `libewf_get_*`,
`libewf_parse_*` and `libewf_add_*` function, `libewf_copy_header_values`, and
`libewf_copy_media_values` with the handle as source.
`libewf_copy_media_values` with the handle as destination is not guarded: when
both handles have media values it returns 1 and the media values of the
destination become those of the source. -/
theorem chunk_geometry_immutable_except_copy_media_values (c : Collaborators)
    (d : Definitions) (internal_handle : libewf_internal_handle_t) (op : Operation)
    (hbegun : writing_has_begun internal_handle) :
    ((∀ source_handle, op ≠ Operation.copy_media_values_to source_handle) →
      chunk_geometry (op.run c d (some internal_handle))
        = chunk_geometry (some internal_handle))
    ∧ (∀ source_handle source_media_values,
        source_handle.media_values = some source_media_values →
        internal_handle.media_values ≠ none →
        libewf_copy_media_values (some internal_handle) (some source_handle)
          = ⟨1, some { internal_handle with media_values := some source_media_values },
              some source_handle⟩) := by
  obtain ⟨write, hwrite, hinit⟩ := hbegun
  constructor
  · intro hop
    cases op <;>
      simp only [Operation.run, libewf_get_sectors_per_chunk, libewf_get_bytes_per_sector,
        libewf_get_amount_of_sectors, libewf_get_chunk_size, libewf_get_error_granularity,
        libewf_get_compression_values, libewf_get_media_size, libewf_get_media_type,
        libewf_get_media_flags, libewf_get_volume_type, libewf_get_format, libewf_get_guid,
        libewf_get_md5_hash, libewf_get_md5_hash_copy, libewf_get_sha1_hash,
        libewf_get_sha1_hash_copy, libewf_get_segment_filename,
        libewf_get_segment_filename_wide, libewf_get_delta_segment_filename,
        libewf_get_delta_segment_filename_wide, libewf_get_amount_of_acquiry_errors,
        libewf_get_acquiry_error, libewf_get_amount_of_crc_errors, libewf_get_crc_error,
        libewf_get_amount_of_sessions, libewf_get_session,
        libewf_get_write_amount_of_chunks, libewf_get_header_codepage,
        libewf_get_amount_of_header_values, libewf_get_header_value_identifier,
        libewf_get_header_value, libewf_get_amount_of_hash_values,
        libewf_get_hash_value_identifier, libewf_get_hash_value,
        libewf_get_hash_value_lookup, libewf_set_sectors_per_chunk,
        libewf_set_bytes_per_sector, libewf_set_error_granularity,
        libewf_set_compression_values, libewf_set_media_size,
        libewf_set_segment_file_size, libewf_set_delta_segment_file_size,
        libewf_set_media_type, libewf_set_volume_type, libewf_set_format, libewf_set_guid,
        libewf_set_md5_hash, libewf_set_sha1_hash, libewf_set_segment_filename,
        libewf_set_segment_filename_wide, libewf_set_delta_segment_filename,
        libewf_set_delta_segment_filename_wide, libewf_set_read_wipe_chunk_on_error,
        libewf_set_header_codepage, libewf_set_header_value,
        libewf_set_header_value_store, libewf_set_hash_value,
        libewf_set_hash_value_store, libewf_parse_header_values,
        libewf_parse_header_values_header2, libewf_parse_header_values_header,
        libewf_parse_header_values_format, libewf_parse_hash_values,
        libewf_parse_hash_values_digests, libewf_add_acquiry_error, libewf_add_crc_error,
        libewf_add_session, libewf_copy_header_values, libewf_copy_header_values_copy,
        libewf_copy_media_values, memory_copy, hwrite] <;>
      (repeat' split) <;>
      simp_all [chunk_geometry]
  · intro source_handle source_media_values hsource hdestination
    cases hm : internal_handle.media_values with
    | none => exact absurd hm hdestination
    | some media_values => simp [libewf_copy_media_values, hsource, hm]

/-- C2, amended, on a handle that has written one chunk: a following
`libewf_set_sectors_per_chunk(128)` leaves chunk size and bytes per sector as
they are. -/
theorem chunk_geometry_immutable_except_copy_media_values_witness :
    writing_has_begun (sample_write_handle 1)
    ∧ chunk_geometry ((Operation.set_sectors_per_chunk 128).run sample_collaborators
        sample_definitions (some (sample_write_handle 1))) = some (32768, 512) :=
  ⟨⟨sample_write 1, rfl, by decide⟩,
    (chunk_geometry_immutable_except_copy_media_values sample_collaborators
      sample_definitions (sample_write_handle 1) (Operation.set_sectors_per_chunk 128)
      ⟨sample_write 1, rfl, by decide⟩).1 (fun _ h => Operation.noConfusion h)⟩

/-- C3: on a handle in a read-only state (no write subhandle) each of
`libewf_set_sectors_per_chunk`, `libewf_set_bytes_per_sector`,
`libewf_set_media_size`, `libewf_set_media_type`, `libewf_set_volume_type`,
`libewf_set_guid`, `libewf_set_format`, `libewf_set_error_granularity`,
`libewf_set_compression_values`, `libewf_set_segment_file_size` and
`libewf_set_delta_segment_file_size` returns -1 for every argument and leaves
the handle unchanged. -/
theorem setters_fail_without_write_subhandle (c : Collaborators) (d : Definitions)
    (internal_handle : libewf_internal_handle_t) (hwrite : internal_handle.write = none)
    (sectors_per_chunk bytes_per_sector media_size media_type volume_type format size
      error_granularity compress_empty_block segment_file_size delta_segment_file_size : Nat)
    (guid : Option (List Nat)) (compression_level : Int) :
    libewf_set_sectors_per_chunk c (some internal_handle) sectors_per_chunk
        = ⟨-1, some internal_handle, ()⟩
    ∧ libewf_set_bytes_per_sector c (some internal_handle) bytes_per_sector
        = ⟨-1, some internal_handle, ()⟩
    ∧ libewf_set_media_size c (some internal_handle) media_size
        = ⟨-1, some internal_handle, ()⟩
    ∧ libewf_set_media_type (some internal_handle) media_type
        = ⟨-1, some internal_handle, ()⟩
    ∧ libewf_set_volume_type d (some internal_handle) volume_type
        = ⟨-1, some internal_handle, ()⟩
    ∧ libewf_set_guid (some internal_handle) guid size
        = ⟨-1, some internal_handle, ()⟩
    ∧ libewf_set_format c (some internal_handle) format
        = ⟨-1, some internal_handle, ()⟩
    ∧ libewf_set_error_granularity (some internal_handle) error_granularity
        = ⟨-1, some internal_handle, ()⟩
    ∧ libewf_set_compression_values d (some internal_handle) compression_level
        compress_empty_block = ⟨-1, some internal_handle, ()⟩
    ∧ libewf_set_segment_file_size (some internal_handle) segment_file_size
        = ⟨-1, some internal_handle, ()⟩
    ∧ libewf_set_delta_segment_file_size (some internal_handle) delta_segment_file_size
        = ⟨-1, some internal_handle, ()⟩ := by
  refine ⟨?_, ?_, ?_, ?_, ?_, ?_, ?_, ?_, ?_, ?_, ?_⟩
  · cases hm : internal_handle.media_values <;>
      simp [libewf_set_sectors_per_chunk, hm, hwrite]
  · cases hm : internal_handle.media_values <;>
      simp [libewf_set_bytes_per_sector, hm, hwrite]
  · cases hm : internal_handle.media_values <;>
      simp [libewf_set_media_size, hm, hwrite]
  · cases hm : internal_handle.media_values <;>
      simp [libewf_set_media_type, hm, hwrite]
  · cases hm : internal_handle.media_values <;>
      simp [libewf_set_volume_type, hm, hwrite]
  · cases hm : internal_handle.media_values <;> cases guid <;>
      simp [libewf_set_guid, hm, hwrite]
  · simp [libewf_set_format, hwrite]
  · cases hm : internal_handle.media_values <;>
      simp [libewf_set_error_granularity, hm, hwrite]
  · simp [libewf_set_compression_values, hwrite]
  · simp [libewf_set_segment_file_size, hwrite]
  · simp [libewf_set_delta_segment_file_size, hwrite]

/-- C3, on a handle opened for reading: `libewf_set_media_size` and
`libewf_set_format` fail and change nothing. -/
theorem setters_fail_without_write_subhandle_witness :
    sample_read_handle.write = none
    ∧ libewf_set_media_size sample_collaborators (some sample_read_handle) 4096
        = ⟨-1, some sample_read_handle, ()⟩
    ∧ libewf_set_format sample_collaborators (some sample_read_handle) 3
        = ⟨-1, some sample_read_handle, ()⟩ :=
  have h := setters_fail_without_write_subhandle sample_collaborators sample_definitions
    sample_read_handle rfl 64 512 4096 0 0 3 16 64 0 1 1 none 0
  ⟨rfl, h.2.2.1, h.2.2.2.2.2.2.1⟩

/-- C4, as stated, fails: the hash setters do not test `values_initialized`.
On a write handle that has written its first chunk (`values_initialized = 1`),
with hash sections and no hash set, `libewf_set_md5_hash` and
`libewf_set_sha1_hash` return 1 and store the hash. -/
theorem hash_setters_succeed_after_values_initialized :
    writing_has_begun (sample_write_handle 1)
    ∧ (libewf_set_md5_hash sample_collaborators (some (sample_write_handle 1))
        (some (List.range 16)) 16).result = 1
    ∧ ((libewf_set_md5_hash sample_collaborators (some (sample_write_handle 1))
        (some (List.range 16)) 16).handle.bind fun internal_handle =>
          internal_handle.hash_sections.map fun hash_sections =>
            (hash_sections.md5_hash, hash_sections.md5_hash_set))
        = some (List.range 16, 1)
    ∧ (libewf_set_sha1_hash sample_collaborators (some (sample_write_handle 1))
        (some (List.range 20)) 20).result = 1
    ∧ ((libewf_set_sha1_hash sample_collaborators (some (sample_write_handle 1))
        (some (List.range 20)) 20).handle.bind fun internal_handle =>
          internal_handle.hash_sections.map fun hash_sections =>
            (hash_sections.sha1_digest, hash_sections.sha1_digest_set))
        = some (List.range 20, 1) :=
  ⟨⟨sample_write 1, rfl, by decide⟩, by decide, by decide, by decide, by decide⟩

/-- C4, amended: `libewf_set_md5_hash` and `libewf_set_sha1_hash` do not consult
the write subhandle: for every handle, the return value and the handle after
the call are the same whatever the write subhandle (and its
`values_initialized`) is.  What makes them fail, returning -1 and storing
nothing, is a read subhandle or a hash that is already set (`md5_hash_set` or
`md5_digest_set` non-zero, respectively `sha1_digest_set` non-zero). -/
theorem hash_setters_guard_on_read_and_hash_set (c : Collaborators)
    (internal_handle : libewf_internal_handle_t) (write : Option libewf_write_t)
    (hash : Option (List Nat)) (size : Nat) :
    ((libewf_set_md5_hash c (some { internal_handle with write := write }) hash size).result
        = (libewf_set_md5_hash c (some internal_handle) hash size).result
      ∧ (libewf_set_md5_hash c (some { internal_handle with write := write }) hash size).handle
        = (libewf_set_md5_hash c (some internal_handle) hash size).handle.map
            fun after => { after with write := write })
    ∧ ((libewf_set_sha1_hash c (some { internal_handle with write := write }) hash size).result
        = (libewf_set_sha1_hash c (some internal_handle) hash size).result
      ∧ (libewf_set_sha1_hash c (some { internal_handle with write := write }) hash
          size).handle
        = (libewf_set_sha1_hash c (some internal_handle) hash size).handle.map
            fun after => { after with write := write })
    ∧ (∀ hash_sections, internal_handle.hash_sections = some hash_sections →
        (internal_handle.read ≠ none ∨ hash_sections.md5_hash_set ≠ 0
          ∨ hash_sections.md5_digest_set ≠ 0) →
        libewf_set_md5_hash c (some internal_handle) hash size
          = ⟨-1, some internal_handle, ()⟩)
    ∧ (∀ hash_sections, internal_handle.hash_sections = some hash_sections →
        (internal_handle.read ≠ none ∨ hash_sections.sha1_digest_set ≠ 0) →
        libewf_set_sha1_hash c (some internal_handle) hash size
          = ⟨-1, some internal_handle, ()⟩) := by
  refine ⟨?_, ?_, ?_, ?_⟩
  · simp only [libewf_set_md5_hash, memory_copy]
    constructor <;> (repeat' split) <;> simp_all
  · simp only [libewf_set_sha1_hash, memory_copy]
    constructor <;> (repeat' split) <;> simp_all
  · intro hash_sections hsections hguard
    simp only [libewf_set_md5_hash, hsections]
    rw [if_pos hguard]
  · intro hash_sections hsections hguard
    simp only [libewf_set_sha1_hash, hsections]
    rw [if_pos hguard]

/-- C4, amended, on a handle whose MD5 hash is set and that has written its
first chunk: `libewf_set_md5_hash` fails and stores nothing. -/
theorem hash_setters_guard_on_read_and_hash_set_witness :
    sample_hashed_handle.hash_sections = some sample_set_hash_sections
    ∧ sample_set_hash_sections.md5_hash_set ≠ 0
    ∧ libewf_set_md5_hash sample_collaborators (some sample_hashed_handle)
        (some (List.replicate 16 255)) 16 = ⟨-1, some sample_hashed_handle, ()⟩ :=
  ⟨rfl, by decide,
    (hash_setters_guard_on_read_and_hash_set sample_collaborators sample_hashed_handle
      none (some (List.replicate 16 255)) 16).2.2.1 sample_set_hash_sections rfl
      (Or.inr (Or.inl (by decide)))⟩

/-- C5: getters fail when their substructure is absent.  On a handle
without media values each of `libewf_get_sectors_per_chunk`,
`libewf_get_bytes_per_sector`, `libewf_get_amount_of_sectors`,
`libewf_get_chunk_size`, `libewf_get_error_granularity`, `libewf_get_media_size`,
`libewf_get_media_type`, `libewf_get_media_flags`, `libewf_get_volume_type`,
`libewf_get_format` and `libewf_get_guid` returns -1 and leaves its output
argument (and the handle) as it was; on a handle without hash sections
`libewf_get_md5_hash` and `libewf_get_sha1_hash` return -1 and leave the output
buffer (and the handle) as it was. -/
theorem getters_fail_without_substructure (c : Collaborators) (d : Definitions)
    (internal_handle : libewf_internal_handle_t) (out : Option Nat)
    (buffer : Option (List Nat)) (size : Nat) :
    (internal_handle.media_values = none →
      libewf_get_sectors_per_chunk (some internal_handle) out
          = ⟨-1, some internal_handle, out⟩
      ∧ libewf_get_bytes_per_sector (some internal_handle) out
          = ⟨-1, some internal_handle, out⟩
      ∧ libewf_get_amount_of_sectors (some internal_handle) out
          = ⟨-1, some internal_handle, out⟩
      ∧ libewf_get_chunk_size (some internal_handle) out
          = ⟨-1, some internal_handle, out⟩
      ∧ libewf_get_error_granularity (some internal_handle) out
          = ⟨-1, some internal_handle, out⟩
      ∧ libewf_get_media_size (some internal_handle) out
          = ⟨-1, some internal_handle, out⟩
      ∧ libewf_get_media_type (some internal_handle) out
          = ⟨-1, some internal_handle, out⟩
      ∧ libewf_get_media_flags (some internal_handle) out
          = ⟨-1, some internal_handle, out⟩
      ∧ libewf_get_volume_type d (some internal_handle) out
          = ⟨-1, some internal_handle, out⟩
      ∧ libewf_get_format (some internal_handle) out
          = ⟨-1, some internal_handle, out⟩
      ∧ libewf_get_guid (some internal_handle) buffer size
          = ⟨-1, some internal_handle, buffer⟩)
    ∧ (internal_handle.hash_sections = none →
      libewf_get_md5_hash c (some internal_handle) buffer size
          = ⟨-1, some internal_handle, buffer⟩
      ∧ libewf_get_sha1_hash c (some internal_handle) buffer size
          = ⟨-1, some internal_handle, buffer⟩) := by
  constructor
  · intro hmedia
    simp [libewf_get_sectors_per_chunk, libewf_get_bytes_per_sector,
      libewf_get_amount_of_sectors, libewf_get_chunk_size, libewf_get_error_granularity,
      libewf_get_media_size, libewf_get_media_type, libewf_get_media_flags,
      libewf_get_volume_type, libewf_get_format, libewf_get_guid, hmedia]
  · intro hhash
    simp [libewf_get_md5_hash, libewf_get_sha1_hash, hhash]

/-- C5, on a handle without media values and without hash sections:
`libewf_get_sectors_per_chunk` and `libewf_get_md5_hash` return -1 and leave
the output as it was. -/
theorem getters_fail_without_substructure_witness :
    sample_bare_handle.media_values = none
    ∧ sample_bare_handle.hash_sections = none
    ∧ libewf_get_sectors_per_chunk (some sample_bare_handle) (some 7)
        = ⟨-1, some sample_bare_handle, some 7⟩
    ∧ libewf_get_md5_hash sample_collaborators (some sample_bare_handle)
        (some (List.replicate 16 7)) 16
        = ⟨-1, some sample_bare_handle, some (List.replicate 16 7)⟩ :=
  have h := getters_fail_without_substructure sample_collaborators sample_definitions
    sample_bare_handle (some 7) (some (List.replicate 16 7)) 16
  ⟨rfl, rfl, (h.1 rfl).1, (h.2 rfl).1⟩

/-- C6: for each of `libewf_get_sectors_per_chunk`, `libewf_get_bytes_per_sector`,
`libewf_get_amount_of_sectors`, `libewf_get_chunk_size` and
`libewf_get_error_granularity`, called on a handle with media values and a
non-NULL output: the call returns 1 with the output equal to the stored field
if and only if the stored field is at most `INT32_MAX`; otherwise it returns -1
and the output is not written. -/
theorem media_getters_return_field_iff_at_most_INT32_MAX
    (internal_handle : libewf_internal_handle_t) (media_values : libewf_media_values_t)
    (hmedia : internal_handle.media_values = some media_values) (old : Nat) :
    (((libewf_get_sectors_per_chunk (some internal_handle) (some old)).result = 1
        ∧ (libewf_get_sectors_per_chunk (some internal_handle) (some old)).out
          = some media_values.sectors_per_chunk
        ↔ media_values.sectors_per_chunk ≤ INT32_MAX)
      ∧ (¬ media_values.sectors_per_chunk ≤ INT32_MAX →
        libewf_get_sectors_per_chunk (some internal_handle) (some old)
          = ⟨-1, some internal_handle, some old⟩))
    ∧ (((libewf_get_bytes_per_sector (some internal_handle) (some old)).result = 1
        ∧ (libewf_get_bytes_per_sector (some internal_handle) (some old)).out
          = some media_values.bytes_per_sector
        ↔ media_values.bytes_per_sector ≤ INT32_MAX)
      ∧ (¬ media_values.bytes_per_sector ≤ INT32_MAX →
        libewf_get_bytes_per_sector (some internal_handle) (some old)
          = ⟨-1, some internal_handle, some old⟩))
    ∧ (((libewf_get_amount_of_sectors (some internal_handle) (some old)).result = 1
        ∧ (libewf_get_amount_of_sectors (some internal_handle) (some old)).out
          = some media_values.amount_of_sectors
        ↔ media_values.amount_of_sectors ≤ INT32_MAX)
      ∧ (¬ media_values.amount_of_sectors ≤ INT32_MAX →
        libewf_get_amount_of_sectors (some internal_handle) (some old)
          = ⟨-1, some internal_handle, some old⟩))
    ∧ (((libewf_get_chunk_size (some internal_handle) (some old)).result = 1
        ∧ (libewf_get_chunk_size (some internal_handle) (some old)).out
          = some media_values.chunk_size
        ↔ media_values.chunk_size ≤ INT32_MAX)
      ∧ (¬ media_values.chunk_size ≤ INT32_MAX →
        libewf_get_chunk_size (some internal_handle) (some old)
          = ⟨-1, some internal_handle, some old⟩))
    ∧ (((libewf_get_error_granularity (some internal_handle) (some old)).result = 1
        ∧ (libewf_get_error_granularity (some internal_handle) (some old)).out
          = some media_values.error_granularity
        ↔ media_values.error_granularity ≤ INT32_MAX)
      ∧ (¬ media_values.error_granularity ≤ INT32_MAX →
        libewf_get_error_granularity (some internal_handle) (some old)
          = ⟨-1, some internal_handle, some old⟩)) := by
  refine ⟨?_, ?_, ?_, ?_, ?_⟩
  · by_cases h : INT32_MAX < media_values.sectors_per_chunk <;>
      simp [libewf_get_sectors_per_chunk, hmedia, h]
    omega
  · by_cases h : INT32_MAX < media_values.bytes_per_sector <;>
      simp [libewf_get_bytes_per_sector, hmedia, h]
    omega
  · by_cases h : INT32_MAX < media_values.amount_of_sectors <;>
      simp [libewf_get_amount_of_sectors, hmedia, h]
    omega
  · by_cases h : INT32_MAX < media_values.chunk_size <;>
      simp [libewf_get_chunk_size, hmedia, h]
    omega
  · by_cases h : INT32_MAX < media_values.error_granularity <;>
      simp [libewf_get_error_granularity, hmedia, h]
    omega

/-- C6, on the sample handle: the chunk size 32768 is below `INT32_MAX`, so
`libewf_get_chunk_size` returns 1 and writes it. -/
theorem media_getters_return_field_iff_at_most_INT32_MAX_witness :
    (sample_write_handle 0).media_values = some sample_media_values
    ∧ sample_media_values.chunk_size ≤ INT32_MAX
    ∧ (libewf_get_chunk_size (some (sample_write_handle 0)) (some 7)).result = 1
    ∧ (libewf_get_chunk_size (some (sample_write_handle 0)) (some 7)).out = some 32768 :=
  have h := ((media_getters_return_field_iff_at_most_INT32_MAX (sample_write_handle 0)
    sample_media_values rfl 7).2.2.2.1.1).2 (by decide)
  ⟨rfl, by decide, h.1, h.2⟩

/-- C7: `media_size = total_sectors x bytes_per_sector`.  On a handle with media
values, called with a non-NULL output: when the stored `media_size` is 0,
`libewf_get_media_size` takes the 64-bit product of `amount_of_sectors` and
`bytes_per_sector` as media size and stores it in the media values; when the
stored `media_size` is not 0 it takes the stored value.  In both cases it
returns 1 exactly when that value is at most `INT64_MAX`, and then writes it to
the output; otherwise it returns -1 and the output is not written. -/
theorem get_media_size_is_product_or_stored
    (internal_handle : libewf_internal_handle_t) (media_values : libewf_media_values_t)
    (hmedia : internal_handle.media_values = some media_values) (old : Nat) :
    (media_values.media_size = 0 →
      ((libewf_get_media_size (some internal_handle) (some old)).result = 1
        ↔ (media_values.amount_of_sectors % UINT64_MOD)
            * (media_values.bytes_per_sector % UINT64_MOD) % UINT64_MOD ≤ INT64_MAX)
      ∧ ((libewf_get_media_size (some internal_handle) (some old)).result = 1 →
        (libewf_get_media_size (some internal_handle) (some old)).out
          = some ((media_values.amount_of_sectors % UINT64_MOD)
              * (media_values.bytes_per_sector % UINT64_MOD) % UINT64_MOD))
      ∧ (libewf_get_media_size (some internal_handle) (some old)).handle
          = some { internal_handle with
              media_values := some { media_values with
                media_size := (media_values.amount_of_sectors % UINT64_MOD)
                  * (media_values.bytes_per_sector % UINT64_MOD) % UINT64_MOD } })
    ∧ (media_values.media_size ≠ 0 →
      ((libewf_get_media_size (some internal_handle) (some old)).result = 1
        ↔ media_values.media_size ≤ INT64_MAX)
      ∧ ((libewf_get_media_size (some internal_handle) (some old)).result = 1 →
        (libewf_get_media_size (some internal_handle) (some old)).out
          = some media_values.media_size)
      ∧ (libewf_get_media_size (some internal_handle) (some old)).handle
          = some internal_handle)
    ∧ ((libewf_get_media_size (some internal_handle) (some old)).result ≠ 1 →
      (libewf_get_media_size (some internal_handle) (some old)).result = -1
      ∧ (libewf_get_media_size (some internal_handle) (some old)).out = some old) := by
  have hhandle : { internal_handle with media_values := some media_values }
      = internal_handle := by
    cases internal_handle; simp_all
  refine ⟨?_, ?_, ?_⟩
  · intro hzero
    simp only [libewf_get_media_size, hmedia, hzero, reduceCtorEq, if_false, if_true]
    generalize (media_values.amount_of_sectors % UINT64_MOD)
      * (media_values.bytes_per_sector % UINT64_MOD) % UINT64_MOD = product
    by_cases h : INT64_MAX < product <;> simp [h]
    omega
  · intro hstored
    simp only [libewf_get_media_size, hmedia, hstored, reduceCtorEq, if_false, hhandle]
    by_cases h : INT64_MAX < media_values.media_size <;> simp [h]
    omega
  · simp only [libewf_get_media_size, hmedia, reduceCtorEq, if_false]
    (repeat' split) <;> simp_all

/-- C7, on a handle with 2048 sectors of 512 bytes and no stored media size:
`libewf_get_media_size` returns 1 and yields 2048 * 512 = 1048576. -/
theorem get_media_size_is_product_or_stored_witness :
    sample_unsized_handle.media_values = some sample_unsized_media_values
    ∧ sample_unsized_media_values.media_size = 0
    ∧ (libewf_get_media_size (some sample_unsized_handle) (some 7)).result = 1
    ∧ (libewf_get_media_size (some sample_unsized_handle) (some 7)).out = some 1048576 :=
  have h := (get_media_size_is_product_or_stored sample_unsized_handle
    sample_unsized_media_values rfl 7).1 rfl
  have hresult := h.1.2 (by decide)
  ⟨rfl, rfl, hresult, h.2.1 hresult⟩

/-- C8: `libewf_set_compression_values` returns 1 if and only if the handle is
not NULL, has a write subhandle with `values_initialized == 0`, and the
compression level is one of `EWF_COMPRESSION_NONE`, `EWF_COMPRESSION_FAST`,
`EWF_COMPRESSION_BEST`; in every other case it returns -1 and leaves the handle,
`compression_level` and `compress_empty_block` included, unchanged. -/
theorem set_compression_values_returns_1_iff (d : Definitions)
    (handle : Option libewf_internal_handle_t) (compression_level : Int)
    (compress_empty_block : Nat) :
    ((libewf_set_compression_values d handle compression_level compress_empty_block).result
        = 1
      ↔ (∃ internal_handle write, handle = some internal_handle
          ∧ internal_handle.write = some write ∧ write.values_initialized = 0)
        ∧ (compression_level = d.EWF_COMPRESSION_NONE
          ∨ compression_level = d.EWF_COMPRESSION_FAST
          ∨ compression_level = d.EWF_COMPRESSION_BEST))
    ∧ ((libewf_set_compression_values d handle compression_level
          compress_empty_block).result ≠ 1 →
        libewf_set_compression_values d handle compression_level compress_empty_block
          = ⟨-1, handle, ()⟩)
    ∧ (¬ (compression_level = d.EWF_COMPRESSION_NONE
          ∨ compression_level = d.EWF_COMPRESSION_FAST
          ∨ compression_level = d.EWF_COMPRESSION_BEST) →
        libewf_set_compression_values d handle compression_level compress_empty_block
          = ⟨-1, handle, ()⟩) := by
  cases handle with
  | none => simp [libewf_set_compression_values]
  | some internal_handle =>
    cases hwrite : internal_handle.write with
    | none => simp [libewf_set_compression_values, hwrite]
    | some write =>
      simp only [libewf_set_compression_values, hwrite]
      (repeat' split) <;> simp_all
      tauto

/-- C8, on a fresh write handle: compression level 3 is none of the three
levels and is rejected with -1, the handle unchanged. -/
theorem set_compression_values_returns_1_iff_witness :
    ¬ ((3 : Int) = sample_definitions.EWF_COMPRESSION_NONE
        ∨ (3 : Int) = sample_definitions.EWF_COMPRESSION_FAST
        ∨ (3 : Int) = sample_definitions.EWF_COMPRESSION_BEST)
    ∧ libewf_set_compression_values sample_definitions (some (sample_write_handle 0)) 3 1
        = ⟨-1, some (sample_write_handle 0), ()⟩ :=
  ⟨by decide,
    (set_compression_values_returns_1_iff sample_definitions (some (sample_write_handle 0))
      3 1).2.2 (by decide)⟩

/-- C9: the `compress_empty_block` policy is only kept when the level is NONE.
After `libewf_set_compression_values(handle, level, flag)` returned 1,
`libewf_get_compression_values` on the resulting handle, with non-NULL outputs,
returns 1 with `compression_level = level` and `compress_empty_block = flag` if
the level is `EWF_COMPRESSION_NONE` and 0 otherwise, for every flag. -/
theorem get_compression_values_after_set (d : Definitions)
    (handle : Option libewf_internal_handle_t) (level : Int) (flag : Nat)
    (old_level : Int) (old_flag : Nat)
    (hset : (libewf_set_compression_values d handle level flag).result = 1) :
    (libewf_get_compression_values
        (libewf_set_compression_values d handle level flag).handle
        (some old_level) (some old_flag)).result = 1
    ∧ (libewf_get_compression_values
        (libewf_set_compression_values d handle level flag).handle
        (some old_level) (some old_flag)).out
      = (some level, some (if level = d.EWF_COMPRESSION_NONE then flag else 0)) := by
  cases handle with
  | none => simp [libewf_set_compression_values] at hset
  | some internal_handle =>
    cases hwrite : internal_handle.write with
    | none => simp [libewf_set_compression_values, hwrite] at hset
    | some write =>
      revert hset
      simp only [libewf_set_compression_values, hwrite]
      (repeat' split) <;> simp_all [libewf_get_compression_values]

/-- C9, on a fresh write handle: after `set_compression_values(BEST, 1)` the
values read back are `(BEST, 0)`; the flag is dropped. -/
theorem get_compression_values_after_set_witness :
    (libewf_set_compression_values sample_definitions (some (sample_write_handle 0))
        2 1).result = 1
    ∧ (libewf_get_compression_values
        (libewf_set_compression_values sample_definitions (some (sample_write_handle 0))
          2 1).handle (some 0) (some 7)).out = (some 2, some 0) :=
  ⟨by decide,
    (get_compression_values_after_set sample_definitions (some (sample_write_handle 0))
      2 1 0 7 (by decide)).2⟩

/-- C10: `libewf_set_segment_file_size` returns 1 if and only if the handle is
not NULL, has no read subhandle, has a write subhandle with
`values_initialized == 0`, and `0 < segment_file_size <= INT64_MAX` and
`segment_file_size <= write->maximum_segment_file_size`.  On success
`write->segment_file_size` is the argument and nothing else changes; on
failure the result is -1 and nothing changes. -/
theorem set_segment_file_size_returns_1_iff
    (handle : Option libewf_internal_handle_t) (segment_file_size : Nat) :
    ((libewf_set_segment_file_size handle segment_file_size).result = 1
      ↔ ∃ internal_handle write, handle = some internal_handle
          ∧ internal_handle.read = none
          ∧ internal_handle.write = some write ∧ write.values_initialized = 0
          ∧ 0 < segment_file_size ∧ segment_file_size ≤ INT64_MAX
          ∧ segment_file_size ≤ write.maximum_segment_file_size)
    ∧ (∀ internal_handle write, handle = some internal_handle →
        internal_handle.write = some write →
        (libewf_set_segment_file_size handle segment_file_size).result = 1 →
        (libewf_set_segment_file_size handle segment_file_size).handle
          = some { internal_handle with
              write := some { write with segment_file_size := segment_file_size } })
    ∧ ((libewf_set_segment_file_size handle segment_file_size).result ≠ 1 →
        libewf_set_segment_file_size handle segment_file_size = ⟨-1, handle, ()⟩) := by
  cases handle with
  | none => simp [libewf_set_segment_file_size]
  | some internal_handle =>
    cases hwrite : internal_handle.write with
    | none =>
      by_cases hread : internal_handle.read = none <;>
        simp [libewf_set_segment_file_size, hwrite, hread]
    | some write =>
      simp only [libewf_set_segment_file_size, hwrite]
      (repeat' split) <;> simp_all
      · omega
      · refine ⟨by omega, ?_⟩
        intro internal_handle' write' hhandle hwrite'
        subst hhandle
        rw [hwrite] at hwrite'
        cases hwrite'
        simp_all

/-- C10, on a fresh write handle with maximum segment file size 2147483647:
a segment file size of 1048576 is accepted and stored. -/
theorem set_segment_file_size_returns_1_iff_witness :
    (libewf_set_segment_file_size (some (sample_write_handle 0)) 1048576).result = 1
    ∧ (libewf_set_segment_file_size (some (sample_write_handle 0)) 1048576).handle
      = some { sample_write_handle 0 with
          write := some { sample_write 0 with segment_file_size := 1048576 } } :=
  ⟨by decide,
    (set_segment_file_size_returns_1_iff (some (sample_write_handle 0)) 1048576).2.1
      (sample_write_handle 0) (sample_write 0) rfl rfl (by decide)⟩

/-- C11, as stated, fails: `libewf_set_segment_file_size` has no minimum tied to
the chunk size.  On a fresh write handle whose chunk size is 32768, a segment
file size of 1 byte is accepted (the call returns 1) and stored. -/
theorem set_segment_file_size_accepts_one_byte :
    chunk_geometry (some (sample_write_handle 0)) = some (32768, 512)
    ∧ (libewf_set_segment_file_size (some (sample_write_handle 0)) 1).result = 1
    ∧ ((libewf_set_segment_file_size (some (sample_write_handle 0)) 1).handle.bind
        fun internal_handle => internal_handle.write.map fun write =>
          write.segment_file_size) = some 1 :=
  ⟨rfl, by decide, by decide⟩

/-- C11, amended: the only lower bound of `libewf_set_segment_file_size` is
1 byte.  Every segment file size it accepts (returns 1 for) satisfies
`0 < segment_file_size <= INT64_MAX` and
`segment_file_size <= write->maximum_segment_file_size`; the media values and
their `chunk_size` are not consulted (the result is the same whatever the media
values of the handle are), and on a write handle with `values_initialized == 0`
and no read subhandle a size of 1 byte is accepted whenever
`maximum_segment_file_size >= 1`. -/
theorem set_segment_file_size_lower_bound_is_one_byte
    (internal_handle : libewf_internal_handle_t) (segment_file_size : Nat)
    (media_values : Option libewf_media_values_t) :
    ((libewf_set_segment_file_size (some internal_handle) segment_file_size).result = 1 →
      0 < segment_file_size ∧ segment_file_size ≤ INT64_MAX
      ∧ ∃ write, internal_handle.write = some write
          ∧ segment_file_size ≤ write.maximum_segment_file_size)
    ∧ (libewf_set_segment_file_size
          (some { internal_handle with media_values := media_values })
          segment_file_size).result
        = (libewf_set_segment_file_size (some internal_handle) segment_file_size).result
    ∧ (∀ write, internal_handle.read = none → internal_handle.write = some write →
        write.values_initialized = 0 → 1 ≤ write.maximum_segment_file_size →
        (libewf_set_segment_file_size (some internal_handle) 1).result = 1) := by
  refine ⟨?_, ?_, ?_⟩
  · simp only [libewf_set_segment_file_size]
    (repeat' split) <;> simp_all
    omega
  · simp only [libewf_set_segment_file_size]
    (repeat' split) <;> simp_all
  · intro write hread hwrite hinit hmax
    have h64 : ¬ 1 > INT64_MAX := by decide
    have hrange : ¬ ((1 : Nat) = 0 ∨ 1 > write.maximum_segment_file_size) := by omega
    simp only [libewf_set_segment_file_size, hwrite, hread, hinit, ne_eq, not_true_eq_false,
      if_false, h64, hrange]

/-- C11, amended, on a fresh write handle with chunk size 32768 and maximum
segment file size 2147483647: 1 byte is accepted. -/
theorem set_segment_file_size_lower_bound_is_one_byte_witness :
    (sample_write_handle 0).read = none
    ∧ (sample_write_handle 0).write = some (sample_write 0)
    ∧ (sample_write 0).values_initialized = 0
    ∧ 1 ≤ (sample_write 0).maximum_segment_file_size
    ∧ (libewf_set_segment_file_size (some (sample_write_handle 0)) 1).result = 1 :=
  ⟨rfl, rfl, rfl, by decide,
    (set_segment_file_size_lower_bound_is_one_byte (sample_write_handle 0) 1 none).2.2
      (sample_write 0) rfl rfl rfl (by decide)⟩

/-- C12: `libewf_set_guid` requires `size >= 16`.  For `size < 16` it returns -1
and leaves the handle, the stored GUID included, unchanged.  For every
`size >= 16`, on a handle with media values, a write subhandle with
`values_initialized == 0` and no read subhandle, called with a buffer that
holds `size` bytes, it returns 1 and changes only the GUID: the bytes
`[0, 16)` of the stored GUID are the first 16 bytes of the input, so a stored
GUID of 16 bytes is exactly the first 16 bytes of the input; the input bytes at
positions `>= 16` have no influence on the outcome. -/
theorem set_guid_stores_first_16_bytes
    (internal_handle : libewf_internal_handle_t) (guid : List Nat) (size : Nat) :
    (size < 16 → ∀ handle buffer,
      libewf_set_guid handle buffer size = ⟨-1, handle, ()⟩)
    ∧ (∀ media_values write, internal_handle.media_values = some media_values →
        internal_handle.read = none → internal_handle.write = some write →
        write.values_initialized = 0 → 16 ≤ size → size ≤ guid.length →
        libewf_set_guid (some internal_handle) (some guid) size
            = ⟨1, some { internal_handle with
                media_values := some { media_values with
                  guid := guid.take 16 ++ media_values.guid.drop 16 } }, ()⟩
          ∧ (guid.take 16 ++ media_values.guid.drop 16).take 16 = guid.take 16
          ∧ (media_values.guid.length = 16 →
              guid.take 16 ++ media_values.guid.drop 16 = guid.take 16)
          ∧ ∀ other : List Nat, other.take 16 = guid.take 16 →
              libewf_set_guid (some internal_handle) (some other) size
                = libewf_set_guid (some internal_handle) (some guid) size) := by
  constructor
  · intro hsize handle buffer
    simp only [libewf_set_guid]
    (repeat' split) <;> simp_all
  · intro media_values write hmedia hread hwrite hinit hsize hlength
    have hnot : ¬ size < 16 := by omega
    have hcall : ∀ buffer : List Nat,
        libewf_set_guid (some internal_handle) (some buffer) size
          = ⟨1, some { internal_handle with
              media_values := some { media_values with
                guid := buffer.take 16 ++ media_values.guid.drop 16 } }, ()⟩ := by
      intro buffer
      simp [libewf_set_guid, hmedia, hread, hwrite, hinit, hnot, memory_copy]
    refine ⟨hcall guid, ?_, ?_, ?_⟩
    · rw [List.take_append_of_le_length (by simp; omega)]
      simp
    · intro hstored
      simp [List.drop_eq_nil_of_le (Nat.le_of_eq hstored)]
    · intro other hother
      rw [hcall other, hcall guid, hother]

/-- C12, on a fresh write handle and a buffer of 20 bytes passed with size 20:
the call returns 1 and the stored GUID is the first 16 bytes of the buffer. -/
theorem set_guid_stores_first_16_bytes_witness :
    (libewf_set_guid (some (sample_write_handle 0)) (some sample_guid_buffer) 20).result = 1
    ∧ ((libewf_set_guid (some (sample_write_handle 0)) (some sample_guid_buffer)
        20).handle.bind fun internal_handle =>
          internal_handle.media_values.map fun media_values => media_values.guid)
      = some [1, 2, 3, 4, 5, 6, 7, 8, 9, 10, 11, 12, 13, 14, 15, 16] := by
  have h := ((set_guid_stores_first_16_bytes (sample_write_handle 0) sample_guid_buffer
    20).2 sample_media_values (sample_write 0) rfl rfl rfl rfl (by decide) (by decide)).1
  rw [h]
  exact ⟨rfl, by decide⟩

/-- A successful `libewf_set_guid` ran on a handle with media values, with
`size >= 16`, and replaced the first 16 bytes of the stored GUID. -/
theorem set_guid_success (handle : Option libewf_internal_handle_t) (guid : List Nat)
    (size : Nat) (hset : (libewf_set_guid handle (some guid) size).result = 1) :
    16 ≤ size ∧ ∃ internal_handle media_values,
      handle = some internal_handle
      ∧ internal_handle.media_values = some media_values
      ∧ (libewf_set_guid handle (some guid) size).handle
        = some { internal_handle with
            media_values := some { media_values with
              guid := guid.take 16 ++ media_values.guid.drop 16 } } := by
  revert hset
  simp only [libewf_set_guid, memory_copy]
  (repeat' split) <;> simp_all

/-- C13: GUID round trip.  After `libewf_set_guid(handle, g, n)` returned 1 on a
buffer `g` that holds `n` bytes, `libewf_get_guid(handle, out, m)` with
`m >= 16` returns 1, the bytes `[0, 16)` of `out` are the bytes `[0, 16)` of `g`
and the bytes of `out` at positions `>= 16` are as before the call;
`libewf_get_guid` with `m < 16` returns -1 and writes nothing. -/
theorem get_guid_after_set_guid (handle : Option libewf_internal_handle_t)
    (guid : List Nat) (size : Nat) (buffer : List Nat) (buffer_size : Nat)
    (hset : (libewf_set_guid handle (some guid) size).result = 1)
    (hlength : size ≤ guid.length) :
    (16 ≤ buffer_size →
      (libewf_get_guid (libewf_set_guid handle (some guid) size).handle (some buffer)
        buffer_size).result = 1
      ∧ ∃ written,
          (libewf_get_guid (libewf_set_guid handle (some guid) size).handle (some buffer)
            buffer_size).out = some written
          ∧ written.take 16 = guid.take 16 ∧ written.drop 16 = buffer.drop 16)
    ∧ (buffer_size < 16 → ∀ other_handle other_buffer,
        libewf_get_guid other_handle other_buffer buffer_size
          = ⟨-1, other_handle, other_buffer⟩) := by
  constructor
  · intro hsize
    obtain ⟨hsixteen, internal_handle, media_values, -, -, hafter⟩ :=
      set_guid_success handle guid size hset
    have hnot : ¬ buffer_size < 16 := by omega
    have htake : ((guid.take 16 ++ media_values.guid.drop 16).take 16).length = 16 := by
      simp
      omega
    have hfirst : (guid.take 16 ++ media_values.guid.drop 16).take 16 = guid.take 16 := by
      rw [List.take_append_of_le_length (by simp; omega)]
      simp
    rw [hafter]
    refine ⟨by simp [libewf_get_guid, memory_copy, hnot],
      (guid.take 16 ++ media_values.guid.drop 16).take 16 ++ buffer.drop 16,
      by simp [libewf_get_guid, memory_copy, hnot], ?_, ?_⟩
    · rw [List.take_left' htake, hfirst]
    · rw [List.drop_left' htake]
  · intro hsize other_handle other_buffer
    simp only [libewf_get_guid]
    (repeat' split) <;> simp_all

/-- C13, on a fresh write handle: a GUID set from a 20-byte buffer is read back
into a 20-byte buffer of 9s, of which the last 4 bytes stay 9. -/
theorem get_guid_after_set_guid_witness :
    (libewf_set_guid (some (sample_write_handle 0)) (some sample_guid_buffer) 20).result = 1
    ∧ (libewf_get_guid
        (libewf_set_guid (some (sample_write_handle 0)) (some sample_guid_buffer) 20).handle
        (some (List.replicate 20 9)) 20).result = 1
    ∧ (libewf_get_guid
        (libewf_set_guid (some (sample_write_handle 0)) (some sample_guid_buffer) 20).handle
        (some (List.replicate 20 9)) 20).out
      = some [1, 2, 3, 4, 5, 6, 7, 8, 9, 10, 11, 12, 13, 14, 15, 16, 9, 9, 9, 9] :=
  ⟨by decide,
    ((get_guid_after_set_guid (some (sample_write_handle 0)) sample_guid_buffer 20
      (List.replicate 20 9) 20 (by decide) (by decide)).1 (by decide)).1,
    by decide⟩

/-- Bit 1 of a number is clear exactly when its conjunction with `0x02` is 0. -/
theorem and_two_eq_zero_iff (x : Nat) : x &&& 0x02 = 0 ↔ x.testBit 1 = false := by
  constructor
  · intro h
    have hbit : (x &&& 0x02).testBit 1 = false := by rw [h]; simp
    rw [Nat.testBit_and] at hbit
    have htwo : (0x02 : Nat).testBit 1 = true := by decide
    simpa [htwo] using hbit
  · intro h
    apply Nat.eq_of_testBit_eq
    intro i
    rw [Nat.testBit_and, Nat.zero_testBit]
    by_cases hi : i = 1
    · subst hi
      simp [h]
    · have htwo : (0x02 : Nat).testBit i = false :=
        Nat.testBit_two_pow_of_ne (n := 1) (fun h1 => hi h1.symm)
      simp [htwo]

/-- C14: bit 1 of `media_flags` distinguishes physical from logical.  On a
handle with media values and a non-NULL output, `libewf_get_volume_type`
returns 1 for every value of `media_flags` (values above 127 included), leaves
the handle unchanged, and yields `LIBEWF_VOLUME_TYPE_PHYSICAL` if
`(media_flags & 0x02) != 0` and `LIBEWF_VOLUME_TYPE_LOGICAL` otherwise (the
constants as `uint8_t` values, which they are when they are below 256). -/
theorem get_volume_type_tests_bit_1 (d : Definitions)
    (internal_handle : libewf_internal_handle_t) (media_values : libewf_media_values_t)
    (hmedia : internal_handle.media_values = some media_values) (old : Nat) :
    (libewf_get_volume_type d (some internal_handle) (some old)).result = 1
    ∧ (libewf_get_volume_type d (some internal_handle) (some old)).handle
        = some internal_handle
    ∧ (media_values.media_flags &&& 0x02 ≠ 0 →
        (libewf_get_volume_type d (some internal_handle) (some old)).out
          = some (d.LIBEWF_VOLUME_TYPE_PHYSICAL % 256)
        ∧ (d.LIBEWF_VOLUME_TYPE_PHYSICAL < 256 →
          (libewf_get_volume_type d (some internal_handle) (some old)).out
            = some d.LIBEWF_VOLUME_TYPE_PHYSICAL))
    ∧ (media_values.media_flags &&& 0x02 = 0 →
        (libewf_get_volume_type d (some internal_handle) (some old)).out
          = some (d.LIBEWF_VOLUME_TYPE_LOGICAL % 256)
        ∧ (d.LIBEWF_VOLUME_TYPE_LOGICAL < 256 →
          (libewf_get_volume_type d (some internal_handle) (some old)).out
            = some d.LIBEWF_VOLUME_TYPE_LOGICAL)) := by
  by_cases hbit : media_values.media_flags &&& 0x02 = 0
  · have hcall : libewf_get_volume_type d (some internal_handle) (some old)
        = ⟨1, some internal_handle, some (d.LIBEWF_VOLUME_TYPE_LOGICAL % 256)⟩ := by
      simp [libewf_get_volume_type, hmedia, hbit]
    rw [hcall]
    refine ⟨rfl, rfl, fun h => absurd hbit h, fun _ => ⟨rfl, fun h => ?_⟩⟩
    rw [Nat.mod_eq_of_lt h]
  · have hcall : libewf_get_volume_type d (some internal_handle) (some old)
        = ⟨1, some internal_handle, some (d.LIBEWF_VOLUME_TYPE_PHYSICAL % 256)⟩ := by
      simp [libewf_get_volume_type, hmedia, hbit]
    rw [hcall]
    refine ⟨rfl, rfl, fun _ => ⟨rfl, fun h => ?_⟩, fun h => absurd h hbit⟩
    rw [Nat.mod_eq_of_lt h]

/-- C14, on media flags 0x83 (above 127, bit 1 set): `libewf_get_volume_type`
returns 1 and yields `LIBEWF_VOLUME_TYPE_PHYSICAL`. -/
theorem get_volume_type_tests_bit_1_witness :
    sample_flagged_handle.media_values = some sample_flagged_media_values
    ∧ sample_flagged_media_values.media_flags &&& 0x02 ≠ 0
    ∧ (libewf_get_volume_type sample_definitions (some sample_flagged_handle)
        (some 7)).result = 1
    ∧ (libewf_get_volume_type sample_definitions (some sample_flagged_handle)
        (some 7)).out = some sample_definitions.LIBEWF_VOLUME_TYPE_PHYSICAL :=
  have h := get_volume_type_tests_bit_1 sample_definitions sample_flagged_handle
    sample_flagged_media_values rfl 7
  ⟨rfl, by decide, h.1, (h.2.2.1 (by decide)).2 (by decide)⟩

/-- Clearing bit 1 of an 8-bit value: the other bits stay, bit 1 is clear. -/
theorem clear_bit_1 (x : Nat) (hx : x < 256) :
    (x &&& (255 - 0x02 % 256)) % 256 < 256
    ∧ (∀ i, i ≠ 1 → ((x &&& (255 - 0x02 % 256)) % 256).testBit i = x.testBit i)
    ∧ ((x &&& (255 - 0x02 % 256)) % 256).testBit 1 = false := by
  have hmask : (255 - 0x02 % 256 : Nat) = 253 := by decide
  have hlt : x &&& 253 < 256 := Nat.lt_of_le_of_lt Nat.and_le_left hx
  rw [hmask, Nat.mod_eq_of_lt hlt]
  refine ⟨hlt, ?_, ?_⟩
  · intro i hi
    rw [Nat.testBit_and]
    by_cases h8 : i < 8
    · have hbit : (253 : Nat).testBit i = true := by
        interval_cases i <;> first | exact absurd rfl hi | decide
      rw [hbit, Bool.and_true]
    · have hhigh : x.testBit i = false :=
        Nat.testBit_lt_two_pow (Nat.lt_of_lt_of_le hx
          (Nat.pow_le_pow_right (by decide) (Nat.le_of_not_lt h8) : 2 ^ 8 ≤ 2 ^ i))
      rw [hhigh, Bool.false_and]
  · rw [Nat.testBit_and]
    have hbit : (253 : Nat).testBit 1 = false := by decide
    rw [hbit, Bool.and_false]

/-- Setting bit 1 of an 8-bit value: the other bits stay, bit 1 is set. -/
theorem set_bit_1 (x : Nat) (hx : x < 256) :
    (x ||| 0x02) % 256 < 256
    ∧ (∀ i, i ≠ 1 → ((x ||| 0x02) % 256).testBit i = x.testBit i)
    ∧ ((x ||| 0x02) % 256).testBit 1 = true := by
  have hlt : x ||| 0x02 < 256 :=
    Nat.or_lt_two_pow (n := 8) hx (by decide)
  rw [Nat.mod_eq_of_lt hlt]
  refine ⟨hlt, ?_, ?_⟩
  · intro i hi
    rw [Nat.testBit_or]
    have hbit : (0x02 : Nat).testBit i = false :=
      Nat.testBit_two_pow_of_ne (n := 1) (fun h1 => hi h1.symm)
    rw [hbit, Bool.or_false]
  · rw [Nat.testBit_or]
    have hbit : (0x02 : Nat).testBit 1 = true := by decide
    rw [hbit, Bool.or_true]

/-- C15: on a handle with media values, a write subhandle with
`values_initialized == 0` and no read subhandle, where
`EWF_MEDIA_FLAGS_IS_PHYSICAL` is bit 1 (0x02) and the two volume type constants
are distinct `uint8_t` values: `libewf_set_volume_type(v)` for `v` LOGICAL or
PHYSICAL returns 1 and changes only `media_flags`, of which every bit other
than bit 1 is as before and bit 1 is set exactly for PHYSICAL, and a following
`libewf_get_volume_type` returns 1 and yields `v`; for every other `v` it
returns -1 and leaves the handle, `media_flags` included, unchanged. -/
theorem set_volume_type_changes_bit_1_only (d : Definitions)
    (internal_handle : libewf_internal_handle_t) (media_values : libewf_media_values_t)
    (write : libewf_write_t) (volume_type old : Nat)
    (hmedia : internal_handle.media_values = some media_values)
    (hread : internal_handle.read = none) (hwrite : internal_handle.write = some write)
    (hinit : write.values_initialized = 0)
    (hphysical : d.EWF_MEDIA_FLAGS_IS_PHYSICAL = 0x02)
    (hflags : media_values.media_flags < 256)
    (hlogical8 : d.LIBEWF_VOLUME_TYPE_LOGICAL < 256)
    (hphysical8 : d.LIBEWF_VOLUME_TYPE_PHYSICAL < 256)
    (hdistinct : d.LIBEWF_VOLUME_TYPE_LOGICAL ≠ d.LIBEWF_VOLUME_TYPE_PHYSICAL) :
    ((volume_type = d.LIBEWF_VOLUME_TYPE_LOGICAL
        ∨ volume_type = d.LIBEWF_VOLUME_TYPE_PHYSICAL) →
      ∃ media_flags,
        libewf_set_volume_type d (some internal_handle) volume_type
          = ⟨1, some { internal_handle with
              media_values := some { media_values with media_flags := media_flags } }, ()⟩
        ∧ (∀ i, i ≠ 1 → media_flags.testBit i = media_values.media_flags.testBit i)
        ∧ media_flags.testBit 1 = decide (volume_type = d.LIBEWF_VOLUME_TYPE_PHYSICAL)
        ∧ libewf_get_volume_type d
            (libewf_set_volume_type d (some internal_handle) volume_type).handle (some old)
          = ⟨1, (libewf_set_volume_type d (some internal_handle) volume_type).handle,
              some volume_type⟩)
    ∧ (volume_type ≠ d.LIBEWF_VOLUME_TYPE_LOGICAL →
        volume_type ≠ d.LIBEWF_VOLUME_TYPE_PHYSICAL →
        libewf_set_volume_type d (some internal_handle) volume_type
          = ⟨-1, some internal_handle, ()⟩) := by
  constructor
  · intro hvolume
    by_cases hl : volume_type = d.LIBEWF_VOLUME_TYPE_LOGICAL
    · obtain ⟨-, hothers, hbit⟩ := clear_bit_1 media_values.media_flags hflags
      have hcall : libewf_set_volume_type d (some internal_handle) volume_type
          = ⟨1, some { internal_handle with
              media_values := some { media_values with
                media_flags := (media_values.media_flags &&& (255 - 0x02 % 256)) % 256 } },
              ()⟩ := by
        simp [libewf_set_volume_type, hmedia, hread, hwrite, hinit, hl, hphysical]
      have hp : ¬ volume_type = d.LIBEWF_VOLUME_TYPE_PHYSICAL := fun hp =>
        hdistinct (hl.symm.trans hp)
      refine ⟨_, hcall, hothers, ?_, ?_⟩
      · rw [hbit]
        simp [hp]
      · rw [hcall]
        simp [libewf_get_volume_type, (and_two_eq_zero_iff _).mpr hbit, hl,
          Nat.mod_eq_of_lt hlogical8]
    · have hp : volume_type = d.LIBEWF_VOLUME_TYPE_PHYSICAL := hvolume.resolve_left hl
      obtain ⟨-, hothers, hbit⟩ := set_bit_1 media_values.media_flags hflags
      have hcall : libewf_set_volume_type d (some internal_handle) volume_type
          = ⟨1, some { internal_handle with
              media_values := some { media_values with
                media_flags := (media_values.media_flags ||| 0x02) % 256 } }, ()⟩ := by
        simp [libewf_set_volume_type, hmedia, hread, hwrite, hinit, hp, hphysical,
          Ne.symm hdistinct]
      have hset : ¬ (media_values.media_flags ||| 0x02) % 256 &&& 0x02 = 0 := fun h =>
        Bool.noConfusion (hbit.symm.trans ((and_two_eq_zero_iff _).mp h))
      refine ⟨_, hcall, hothers, ?_, ?_⟩
      · rw [hbit]
        simp [hp]
      · rw [hcall]
        simp only [libewf_get_volume_type, reduceCtorEq, if_false, if_neg hset, hp,
          Nat.mod_eq_of_lt hphysical8]
  · intro hl hp
    simp [libewf_set_volume_type, hmedia, hread, hwrite, hinit, hl, hp]

/-- C15, on a fresh write handle with media flags 0x83: setting the logical
volume type returns 1, clears bit 1 only (the flags become 0x81) and is read
back. -/
theorem set_volume_type_changes_bit_1_only_witness :
    libewf_set_volume_type sample_definitions (some sample_flagged_handle)
        sample_definitions.LIBEWF_VOLUME_TYPE_LOGICAL
      = ⟨1, some { sample_flagged_handle with
          media_values := some { sample_flagged_media_values with media_flags := 0x81 } },
          ()⟩
    ∧ (libewf_get_volume_type sample_definitions
        (libewf_set_volume_type sample_definitions (some sample_flagged_handle)
          sample_definitions.LIBEWF_VOLUME_TYPE_LOGICAL).handle (some 7)).out
      = some sample_definitions.LIBEWF_VOLUME_TYPE_LOGICAL := by
  obtain ⟨media_flags, hcall, -, -, hget⟩ :=
    (set_volume_type_changes_bit_1_only sample_definitions sample_flagged_handle
      sample_flagged_media_values (sample_write 0)
      sample_definitions.LIBEWF_VOLUME_TYPE_LOGICAL 7 rfl rfl rfl rfl rfl (by decide)
      (by decide) (by decide) (by decide)).1 (Or.inl rfl)
  exact ⟨by decide, by rw [hget]⟩

/-- C16: acquiry errors are coalesced.  For every first sector and amount of
sectors, `libewf_add_acquiry_error` on a handle passes the range to
`libewf_sector_table_add_sector` on the `acquiry_errors` table of the handle
with merge flag 1, changes no member of the handle other than that table (the
sessions and the CRC errors of the read subhandle included), and returns 1
exactly when the table function returns 1, and -1 otherwise. -/
theorem add_acquiry_error_merges (c : Collaborators)
    (internal_handle : libewf_internal_handle_t) (first_sector : Int)
    (amount_of_sectors : Nat) :
    (libewf_add_acquiry_error c (some internal_handle) first_sector amount_of_sectors).handle
        = some { internal_handle with
            acquiry_errors := (c.libewf_sector_table_add_sector
              internal_handle.acquiry_errors first_sector amount_of_sectors 1).2 }
    ∧ ((libewf_add_acquiry_error c (some internal_handle) first_sector
          amount_of_sectors).result = 1
        ↔ (c.libewf_sector_table_add_sector internal_handle.acquiry_errors first_sector
            amount_of_sectors 1).1 = 1)
    ∧ ((libewf_add_acquiry_error c (some internal_handle) first_sector
          amount_of_sectors).result = 1
        ∨ (libewf_add_acquiry_error c (some internal_handle) first_sector
          amount_of_sectors).result = -1)
    ∧ ((libewf_add_acquiry_error c (some internal_handle) first_sector
          amount_of_sectors).handle.map fun after => (after.sessions, after.read))
        = some (internal_handle.sessions, internal_handle.read) := by
  simp only [libewf_add_acquiry_error]
  split <;> simp_all

/-- C17: sessions are never coalesced.  For every first sector and amount of
sectors, and whatever the sessions table of the handle holds (ranges that the
new one overlaps or abuts included), `libewf_add_session` passes the range to
`libewf_sector_table_add_sector` on the `sessions` table with merge flag 0,
changes no member of the handle other than that table (the acquiry errors and
the CRC errors of the read subhandle are as before), and returns 1 exactly when
the table function returns 1. -/
theorem add_session_does_not_merge (c : Collaborators)
    (internal_handle : libewf_internal_handle_t) (first_sector : Int)
    (amount_of_sectors : Nat) :
    (libewf_add_session c (some internal_handle) first_sector amount_of_sectors).handle
        = some { internal_handle with
            sessions := (c.libewf_sector_table_add_sector
              internal_handle.sessions first_sector amount_of_sectors 0).2 }
    ∧ ((libewf_add_session c (some internal_handle) first_sector
          amount_of_sectors).result = 1
        ↔ (c.libewf_sector_table_add_sector internal_handle.sessions first_sector
            amount_of_sectors 0).1 = 1)
    ∧ ((libewf_add_session c (some internal_handle) first_sector
          amount_of_sectors).handle.map fun after => (after.acquiry_errors, after.read))
        = some (internal_handle.acquiry_errors, internal_handle.read) := by
  simp only [libewf_add_session]
  split <;> simp_all

/-- A successful `libewf_set_md5_hash` ran on a handle with hash sections, with
`size >= 16`; it replaced the first 16 bytes of `md5_hash` and `md5_digest` and
set both flags. -/
theorem set_md5_hash_success (c : Collaborators) (handle : Option libewf_internal_handle_t)
    (md5_hash : List Nat) (size : Nat)
    (hset : (libewf_set_md5_hash c handle (some md5_hash) size).result = 1) :
    16 ≤ size ∧ ∃ internal_handle hash_sections,
      handle = some internal_handle
      ∧ internal_handle.hash_sections = some hash_sections
      ∧ (libewf_set_md5_hash c handle (some md5_hash) size).handle
        = some { internal_handle with
            hash_sections := some { hash_sections with
              md5_hash := md5_hash.take 16 ++ hash_sections.md5_hash.drop 16,
              md5_digest := md5_hash.take 16 ++ hash_sections.md5_digest.drop 16,
              md5_hash_set := 1, md5_digest_set := 1 },
            hash_values := (c.libewf_hash_values_parse_md5_hash
              internal_handle.hash_values md5_hash 16).2 } := by
  revert hset
  simp only [libewf_set_md5_hash, memory_copy]
  (repeat' split) <;> simp_all

/-- A successful `libewf_set_sha1_hash` ran on a handle with hash sections,
with `size >= 20`; it replaced the first 20 bytes of `sha1_digest` and set the
flag. -/
theorem set_sha1_hash_success (c : Collaborators)
    (handle : Option libewf_internal_handle_t) (sha1_hash : List Nat) (size : Nat)
    (hset : (libewf_set_sha1_hash c handle (some sha1_hash) size).result = 1) :
    20 ≤ size ∧ ∃ internal_handle hash_sections,
      handle = some internal_handle
      ∧ internal_handle.hash_sections = some hash_sections
      ∧ (libewf_set_sha1_hash c handle (some sha1_hash) size).handle
        = some { internal_handle with
            hash_sections := some { hash_sections with
              sha1_digest := sha1_hash.take 20 ++ hash_sections.sha1_digest.drop 20,
              sha1_digest_set := 1 },
            hash_values := (c.libewf_hash_values_parse_sha1_hash
              internal_handle.hash_values sha1_hash 20).2 } := by
  revert hset
  simp only [libewf_set_sha1_hash, memory_copy]
  (repeat' split) <;> simp_all

/-- The first `size` bytes of a buffer in which `size` bytes were copied from
a source that holds them. -/
theorem take_memory_copy (buffer source stored : List Nat) (size : Nat)
    (hsource : size ≤ source.length) :
    ((source.take size ++ stored.drop size).take size ++ buffer.drop size).take size
      = source.take size := by
  have hlength : (source.take size).length = size := by
    simp
    omega
  rw [List.take_left' hlength, List.take_left' hlength]

/-- C18: hash round trip.  If `libewf_set_md5_hash(handle, h, n)` returns 1 (which
it only does on a handle with hash sections, no read subhandle, no MD5 hash set
so far and `n >= 16`) on a buffer that holds `n` bytes, then
`libewf_get_md5_hash(handle, out, m)` with `m >= 16` returns 1 and the bytes
`[0, 16)` of `out` are those of `h`; likewise if `libewf_set_sha1_hash` returns 1
with its `n >= 20`, then `libewf_get_sha1_hash` with `m >= 20` returns 1 and the
bytes `[0, 20)` of `out` are those of the hash that was set. -/
theorem get_hash_after_set_hash (c : Collaborators)
    (handle : Option libewf_internal_handle_t) (hash : List Nat) (size : Nat)
    (buffer : List Nat) (buffer_size : Nat) (hlength : size ≤ hash.length) :
    ((libewf_set_md5_hash c handle (some hash) size).result = 1 → 16 ≤ buffer_size →
      (libewf_get_md5_hash c (libewf_set_md5_hash c handle (some hash) size).handle
        (some buffer) buffer_size).result = 1
      ∧ ∃ written,
          (libewf_get_md5_hash c (libewf_set_md5_hash c handle (some hash) size).handle
            (some buffer) buffer_size).out = some written
          ∧ written.take 16 = hash.take 16)
    ∧ ((libewf_set_sha1_hash c handle (some hash) size).result = 1 → 20 ≤ buffer_size →
      (libewf_get_sha1_hash c (libewf_set_sha1_hash c handle (some hash) size).handle
        (some buffer) buffer_size).result = 1
      ∧ ∃ written,
          (libewf_get_sha1_hash c (libewf_set_sha1_hash c handle (some hash) size).handle
            (some buffer) buffer_size).out = some written
          ∧ written.take 20 = hash.take 20) := by
  constructor
  · intro hset hsize
    obtain ⟨hsixteen, internal_handle, hash_sections, -, -, hafter⟩ :=
      set_md5_hash_success c handle hash size hset
    have hnot : ¬ buffer_size < 16 := by omega
    rw [hafter]
    refine ⟨by simp [libewf_get_md5_hash, libewf_get_md5_hash_copy, memory_copy, hnot],
      (hash.take 16 ++ hash_sections.md5_hash.drop 16).take 16 ++ buffer.drop 16,
      by simp [libewf_get_md5_hash, libewf_get_md5_hash_copy, memory_copy, hnot], ?_⟩
    exact take_memory_copy buffer hash hash_sections.md5_hash 16 (by omega)
  · intro hset hsize
    obtain ⟨htwenty, internal_handle, hash_sections, -, -, hafter⟩ :=
      set_sha1_hash_success c handle hash size hset
    have hnot : ¬ buffer_size < 20 := by omega
    rw [hafter]
    refine ⟨by simp [libewf_get_sha1_hash, libewf_get_sha1_hash_copy, memory_copy, hnot],
      (hash.take 20 ++ hash_sections.sha1_digest.drop 20).take 20 ++ buffer.drop 20,
      by simp [libewf_get_sha1_hash, libewf_get_sha1_hash_copy, memory_copy, hnot], ?_⟩
    exact take_memory_copy buffer hash hash_sections.sha1_digest 20 (by omega)

/-- C18, on a fresh write handle: the MD5 hash 0, 1, ..., 15 is set and read
back into a buffer of 16 bytes. -/
theorem get_hash_after_set_hash_witness :
    (libewf_set_md5_hash sample_collaborators (some (sample_write_handle 0))
        (some (List.range 16)) 16).result = 1
    ∧ (libewf_get_md5_hash sample_collaborators
        (libewf_set_md5_hash sample_collaborators (some (sample_write_handle 0))
          (some (List.range 16)) 16).handle (some (List.replicate 16 255)) 16).result = 1
    ∧ (libewf_get_md5_hash sample_collaborators
        (libewf_set_md5_hash sample_collaborators (some (sample_write_handle 0))
          (some (List.range 16)) 16).handle (some (List.replicate 16 255)) 16).out
      = some (List.range 16) :=
  ⟨by decide,
    ((get_hash_after_set_hash sample_collaborators (some (sample_write_handle 0))
      (List.range 16) 16 (List.replicate 16 255) 16 (by decide)).1 (by decide)
      (by decide)).1,
    by decide⟩

/-- C19: the MD5 and SHA1 hashes are write-once.  On a handle with hash
sections, whenever `md5_hash_set` or `md5_digest_set` is non-zero
`libewf_set_md5_hash` returns -1 and leaves the handle (`md5_hash`, `md5_digest`
and both flags included) unchanged, and whenever `sha1_digest_set` is non-zero
`libewf_set_sha1_hash` returns -1 and leaves the handle (`sha1_digest` included)
unchanged, for every buffer and size.  In particular, after a set that
returned 1 every further set returns -1 and changes nothing. -/
theorem hashes_are_write_once (c : Collaborators)
    (internal_handle : libewf_internal_handle_t) (hash_sections : libewf_hash_sections_t)
    (hsections : internal_handle.hash_sections = some hash_sections)
    (hash : Option (List Nat)) (size : Nat) :
    ((hash_sections.md5_hash_set ≠ 0 ∨ hash_sections.md5_digest_set ≠ 0) →
      libewf_set_md5_hash c (some internal_handle) hash size
        = ⟨-1, some internal_handle, ()⟩)
    ∧ (hash_sections.sha1_digest_set ≠ 0 →
      libewf_set_sha1_hash c (some internal_handle) hash size
        = ⟨-1, some internal_handle, ()⟩)
    ∧ (∀ (handle : Option libewf_internal_handle_t) (first : List Nat) (first_size : Nat),
        (libewf_set_md5_hash c handle (some first) first_size).result = 1 →
        libewf_set_md5_hash c
            (libewf_set_md5_hash c handle (some first) first_size).handle hash size
          = ⟨-1, (libewf_set_md5_hash c handle (some first) first_size).handle, ()⟩)
    ∧ (∀ (handle : Option libewf_internal_handle_t) (first : List Nat) (first_size : Nat),
        (libewf_set_sha1_hash c handle (some first) first_size).result = 1 →
        libewf_set_sha1_hash c
            (libewf_set_sha1_hash c handle (some first) first_size).handle hash size
          = ⟨-1, (libewf_set_sha1_hash c handle (some first) first_size).handle, ()⟩) := by
  refine ⟨?_, ?_, ?_, ?_⟩
  · intro hset
    simp only [libewf_set_md5_hash, hsections]
    rw [if_pos (Or.inr hset)]
  · intro hset
    simp only [libewf_set_sha1_hash, hsections]
    rw [if_pos (Or.inr hset)]
  · intro handle first first_size hfirst
    obtain ⟨-, first_handle, first_sections, -, -, hafter⟩ :=
      set_md5_hash_success c handle first first_size hfirst
    rw [hafter]
    simp [libewf_set_md5_hash]
  · intro handle first first_size hfirst
    obtain ⟨-, first_handle, first_sections, -, -, hafter⟩ :=
      set_sha1_hash_success c handle first first_size hfirst
    rw [hafter]
    simp [libewf_set_sha1_hash]

/-- C19, on a handle whose MD5 hash was set: a second `libewf_set_md5_hash` with
another hash returns -1 and leaves the handle as it is. -/
theorem hashes_are_write_once_witness :
    sample_hashed_handle.hash_sections = some sample_set_hash_sections
    ∧ (sample_set_hash_sections.md5_hash_set ≠ 0
      ∨ sample_set_hash_sections.md5_digest_set ≠ 0)
    ∧ libewf_set_md5_hash sample_collaborators (some sample_hashed_handle)
        (some (List.replicate 16 170)) 16 = ⟨-1, some sample_hashed_handle, ()⟩ :=
  ⟨rfl, Or.inl (by decide),
    (hashes_are_write_once sample_collaborators sample_hashed_handle
      sample_set_hash_sections rfl (some (List.replicate 16 170)) 16).1
      (Or.inl (by decide))⟩

/-- C20: `libewf_get_md5_hash` returns 1 if successful, 0 if the value is not
present, -1 on error.  On a handle with hash sections and no hash values
table: it returns 0 exactly when both `md5_hash_set` and `md5_digest_set` are 0,
whatever the output buffer and the size are (a NULL buffer included), and then
writes nothing; otherwise, with a non-NULL buffer and `size >= 16`, it returns 1
and the first 16 bytes of the output are those of `md5_hash` when
`md5_hash_set != 0` and those of `md5_digest` when only `md5_digest_set != 0`,
the rest of the buffer being as before; otherwise, with a NULL buffer or
`size < 16`, it returns -1 and writes nothing.  The handle is unchanged in
every case. -/
theorem get_md5_hash_without_hash_values (c : Collaborators)
    (internal_handle : libewf_internal_handle_t) (hash_sections : libewf_hash_sections_t)
    (hsections : internal_handle.hash_sections = some hash_sections)
    (hvalues : internal_handle.hash_values = none)
    (md5_hash : Option (List Nat)) (size : Nat) :
    ((libewf_get_md5_hash c (some internal_handle) md5_hash size).result = 0
      ↔ hash_sections.md5_hash_set = 0 ∧ hash_sections.md5_digest_set = 0)
    ∧ (libewf_get_md5_hash c (some internal_handle) md5_hash size).handle
        = some internal_handle
    ∧ ((libewf_get_md5_hash c (some internal_handle) md5_hash size).result = 0 →
        (libewf_get_md5_hash c (some internal_handle) md5_hash size).out = md5_hash)
    ∧ (∀ buffer, md5_hash = some buffer → 16 ≤ size →
        hash_sections.md5_hash_set ≠ 0 →
        libewf_get_md5_hash c (some internal_handle) md5_hash size
          = ⟨1, some internal_handle,
              some (hash_sections.md5_hash.take 16 ++ buffer.drop 16)⟩)
    ∧ (∀ buffer, md5_hash = some buffer → 16 ≤ size →
        hash_sections.md5_hash_set = 0 → hash_sections.md5_digest_set ≠ 0 →
        libewf_get_md5_hash c (some internal_handle) md5_hash size
          = ⟨1, some internal_handle,
              some (hash_sections.md5_digest.take 16 ++ buffer.drop 16)⟩)
    ∧ (¬ (hash_sections.md5_hash_set = 0 ∧ hash_sections.md5_digest_set = 0) →
        (md5_hash = none ∨ size < 16) →
        libewf_get_md5_hash c (some internal_handle) md5_hash size
          = ⟨-1, some internal_handle, md5_hash⟩) := by
  have hcall : libewf_get_md5_hash c (some internal_handle) md5_hash size
      = libewf_get_md5_hash_copy internal_handle hash_sections md5_hash size := by
    simp [libewf_get_md5_hash, hsections, hvalues]
  rw [hcall]
  simp only [libewf_get_md5_hash_copy, memory_copy]
  refine ⟨?_, ?_, ?_, ?_, ?_, ?_⟩
  · (repeat' split) <;> simp_all
  · (repeat' split) <;> simp_all
  · (repeat' split) <;> simp_all
  · intro buffer hbuffer hsize hset
    have hnot : ¬ size < 16 := by omega
    simp [hbuffer, hset, hnot]
  · intro buffer hbuffer hsize hset hdigest
    have hnot : ¬ size < 16 := by omega
    simp [hbuffer, hset, hdigest, hnot]
  · intro hpresent hbad
    rw [if_neg hpresent]
    rcases hbad with hnull | hsmall
    · simp [hnull]
    · cases md5_hash <;> simp [hsmall]

/-- C20, on a handle with hash sections in which no hash is set and no hash
values table: `libewf_get_md5_hash` with a NULL buffer returns 0. -/
theorem get_md5_hash_without_hash_values_witness :
    (sample_write_handle 0).hash_sections = some sample_hash_sections
    ∧ (sample_write_handle 0).hash_values = none
    ∧ sample_hash_sections.md5_hash_set = 0 ∧ sample_hash_sections.md5_digest_set = 0
    ∧ (libewf_get_md5_hash sample_collaborators (some (sample_write_handle 0)) none
        0).result = 0 :=
  ⟨rfl, rfl, rfl, rfl,
    (get_md5_hash_without_hash_values sample_collaborators (sample_write_handle 0)
      sample_hash_sections rfl rfl none 0).1.2 ⟨rfl, rfl⟩⟩

/-- C21: the header codepage check is a chain of `||` over inequalities, which
makes every codepage unsupported.  Whenever two of the codepage constants
differ (here `LIBEWF_CODEPAGE_ASCII` and `LIBEWF_CODEPAGE_WINDOWS_1250`), for
every `header_codepage` and every handle `libewf_set_header_codepage` returns -1
and leaves the handle, the stored `header_codepage` included, unchanged. -/
theorem set_header_codepage_rejects_every_codepage (d : Definitions)
    (hdistinct : d.LIBEWF_CODEPAGE_ASCII ≠ d.LIBEWF_CODEPAGE_WINDOWS_1250)
    (handle : Option libewf_internal_handle_t) (header_codepage : Int) :
    libewf_set_header_codepage d handle header_codepage = ⟨-1, handle, ()⟩ := by
  have hchain : header_codepage ≠ d.LIBEWF_CODEPAGE_ASCII
      ∨ header_codepage ≠ d.LIBEWF_CODEPAGE_WINDOWS_1250
      ∨ header_codepage ≠ d.LIBEWF_CODEPAGE_WINDOWS_1251
      ∨ header_codepage ≠ d.LIBEWF_CODEPAGE_WINDOWS_1252
      ∨ header_codepage ≠ d.LIBEWF_CODEPAGE_WINDOWS_1253
      ∨ header_codepage ≠ d.LIBEWF_CODEPAGE_WINDOWS_1254
      ∨ header_codepage ≠ d.LIBEWF_CODEPAGE_WINDOWS_1256
      ∨ header_codepage ≠ d.LIBEWF_CODEPAGE_WINDOWS_1257 := by
    by_cases hascii : header_codepage = d.LIBEWF_CODEPAGE_ASCII
    · exact Or.inr (Or.inl fun h1250 => hdistinct (hascii.symm.trans h1250))
    · exact Or.inl hascii
  simp only [libewf_set_header_codepage]
  (repeat' split) <;> rfl

/-- C21, on a write handle with header sections: the codepage Windows-1252,
one of the enumerated set, is rejected with -1 and the handle is unchanged. -/
theorem set_header_codepage_rejects_every_codepage_witness :
    sample_definitions.LIBEWF_CODEPAGE_ASCII ≠ sample_definitions.LIBEWF_CODEPAGE_WINDOWS_1250
    ∧ libewf_set_header_codepage sample_definitions (some (sample_write_handle 0))
        sample_definitions.LIBEWF_CODEPAGE_WINDOWS_1252
      = ⟨-1, some (sample_write_handle 0), ()⟩ :=
  ⟨by decide,
    set_header_codepage_rejects_every_codepage sample_definitions (by decide)
      (some (sample_write_handle 0)) sample_definitions.LIBEWF_CODEPAGE_WINDOWS_1252⟩

/-- C22, evaluated on the code: on a fresh write handle with header sections
whose codepage is ASCII, `libewf_set_header_codepage` with
`LIBEWF_CODEPAGE_WINDOWS_1252`, a member of the enumerated set, returns -1, and
`libewf_get_header_codepage` afterwards still yields ASCII. -/
theorem set_header_codepage_rejects_windows_1252 :
    (libewf_set_header_codepage sample_definitions (some (sample_write_handle 0))
        sample_definitions.LIBEWF_CODEPAGE_WINDOWS_1252).result = -1
    ∧ (libewf_get_header_codepage
        (libewf_set_header_codepage sample_definitions (some (sample_write_handle 0))
          sample_definitions.LIBEWF_CODEPAGE_WINDOWS_1252).handle (some 0)).out
      = some sample_definitions.LIBEWF_CODEPAGE_ASCII := by
  decide

/-- C23, as stated, fails: the upgrade also requires more than
`LIBEWF_HEADER_VALUES_DEFAULT_AMOUNT` header values.  On an EnCase2 handle whose
parsed header values are a table of exactly 16 values (the default amount) in
which the acquiry software version exists and is "3.18",
`libewf_parse_header_values` returns 1 and the format stays EnCase2. -/
theorem parse_header_values_keeps_encase2_at_default_amount :
    sample_encase2_handle.format = sample_definitions.LIBEWF_FORMAT_ENCASE2
    ∧ (libewf_parse_header_values (sample_header_collaborators 16) sample_definitions
        (some sample_encase2_handle) 0).result = 1
    ∧ ((libewf_parse_header_values (sample_header_collaborators 16) sample_definitions
        (some sample_encase2_handle) 0).handle.bind fun after =>
          after.header_values.map fun header_values =>
            (value_starts_with header_values
              sample_definitions.LIBEWF_HEADER_VALUES_INDEX_ACQUIRY_SOFTWARE_VERSION 51,
              after.format))
      = some (true, sample_definitions.LIBEWF_FORMAT_ENCASE2)
    ∧ sample_definitions.LIBEWF_FORMAT_ENCASE2 ≠ sample_definitions.LIBEWF_FORMAT_ENCASE3 := by
  decide

/-- C23, amended: after `libewf_parse_header_values` returned 1 on a handle whose
format was `LIBEWF_FORMAT_ENCASE2` (a constant different from
`LIBEWF_FORMAT_ENCASE3`), the format is `LIBEWF_FORMAT_ENCASE3` if and only if
the parsed header values hold more than `LIBEWF_HEADER_VALUES_DEFAULT_AMOUNT`
values, the acquiry software version value exists (the value array and its
entry are not NULL) and its first character is '3'; otherwise the format is
still `LIBEWF_FORMAT_ENCASE2`.  On a handle with any other format the format is
unchanged. -/
theorem parse_header_values_format_upgrade (c : Collaborators) (d : Definitions)
    (internal_handle : libewf_internal_handle_t) (date_format : Nat)
    (hdistinct : d.LIBEWF_FORMAT_ENCASE2 ≠ d.LIBEWF_FORMAT_ENCASE3)
    (hparse : (libewf_parse_header_values c d (some internal_handle) date_format).result
      = 1) :
    ∃ after header_values,
      (libewf_parse_header_values c d (some internal_handle) date_format).handle
        = some after
      ∧ after.header_values = some header_values
      ∧ (internal_handle.format = d.LIBEWF_FORMAT_ENCASE2 →
          (after.format = d.LIBEWF_FORMAT_ENCASE3
            ↔ header_values.amount_of_values > d.LIBEWF_HEADER_VALUES_DEFAULT_AMOUNT
              ∧ value_starts_with header_values
                  d.LIBEWF_HEADER_VALUES_INDEX_ACQUIRY_SOFTWARE_VERSION 51 = true)
          ∧ (after.format ≠ d.LIBEWF_FORMAT_ENCASE3 →
              after.format = d.LIBEWF_FORMAT_ENCASE2))
      ∧ (internal_handle.format ≠ d.LIBEWF_FORMAT_ENCASE2 →
          after.format = internal_handle.format) := by
  revert hparse
  simp only [libewf_parse_header_values, libewf_parse_header_values_header2,
    libewf_parse_header_values_header, libewf_parse_header_values_format]
  (repeat' split) <;> simp_all

/-- C23, amended, on an EnCase2 handle whose parsed header values are a table
of 17 values with acquiry software version "3.18": the format becomes
EnCase3. -/
theorem parse_header_values_format_upgrade_witness :
    sample_definitions.LIBEWF_FORMAT_ENCASE2 ≠ sample_definitions.LIBEWF_FORMAT_ENCASE3
    ∧ (libewf_parse_header_values (sample_header_collaborators 17) sample_definitions
        (some sample_encase2_handle) 0).result = 1
    ∧ ∃ after header_values,
        (libewf_parse_header_values (sample_header_collaborators 17) sample_definitions
          (some sample_encase2_handle) 0).handle = some after
        ∧ after.header_values = some header_values
        ∧ (sample_encase2_handle.format = sample_definitions.LIBEWF_FORMAT_ENCASE2 →
            (after.format = sample_definitions.LIBEWF_FORMAT_ENCASE3
              ↔ header_values.amount_of_values
                  > sample_definitions.LIBEWF_HEADER_VALUES_DEFAULT_AMOUNT
                ∧ value_starts_with header_values
                    sample_definitions.LIBEWF_HEADER_VALUES_INDEX_ACQUIRY_SOFTWARE_VERSION
                    51 = true)
            ∧ (after.format ≠ sample_definitions.LIBEWF_FORMAT_ENCASE3 →
                after.format = sample_definitions.LIBEWF_FORMAT_ENCASE2))
        ∧ (sample_encase2_handle.format ≠ sample_definitions.LIBEWF_FORMAT_ENCASE2 →
            after.format = sample_encase2_handle.format) :=
  ⟨by decide, by decide,
    parse_header_values_format_upgrade (sample_header_collaborators 17) sample_definitions
      sample_encase2_handle 0 (by decide) (by decide)⟩

/-- After `libewf_parse_header_values` returned 1 the handle has header
sections and header values. -/
theorem parse_header_values_success (c : Collaborators) (d : Definitions)
    (handle : Option libewf_internal_handle_t) (date_format : Nat)
    (hparse : (libewf_parse_header_values c d handle date_format).result = 1) :
    ∃ after header_sections header_values,
      (libewf_parse_header_values c d handle date_format).handle = some after
      ∧ after.header_sections = some header_sections
      ∧ after.header_values = some header_values := by
  revert hparse
  simp only [libewf_parse_header_values, libewf_parse_header_values_header2,
    libewf_parse_header_values_header, libewf_parse_header_values_format]
  (repeat' split) <;> simp_all

/-- C24: `libewf_parse_header_values` is idempotent once values exist.  On every
handle with header sections whose header values are present it returns 0
(already parsed) and changes nothing, the format included; hence after a call
that returned 1 every further call, with any date format, returns 0 and leaves
the handle as it is. -/
theorem parse_header_values_already_parsed (c : Collaborators) (d : Definitions)
    (internal_handle : libewf_internal_handle_t) (date_format : Nat) :
    (internal_handle.header_sections ≠ none → internal_handle.header_values ≠ none →
      libewf_parse_header_values c d (some internal_handle) date_format
        = ⟨0, some internal_handle, ()⟩)
    ∧ (∀ (handle : Option libewf_internal_handle_t) (first_date_format : Nat),
        (libewf_parse_header_values c d handle first_date_format).result = 1 →
        libewf_parse_header_values c d
            (libewf_parse_header_values c d handle first_date_format).handle date_format
          = ⟨0, (libewf_parse_header_values c d handle first_date_format).handle, ()⟩) := by
  have hagain : ∀ after : libewf_internal_handle_t,
      after.header_sections ≠ none → after.header_values ≠ none →
      libewf_parse_header_values c d (some after) date_format = ⟨0, some after, ()⟩ := by
    intro after hsections hvalues
    cases hs : after.header_sections with
    | none => exact absurd hs hsections
    | some header_sections => simp [libewf_parse_header_values, hs, hvalues]
  refine ⟨hagain internal_handle, ?_⟩
  intro handle first_date_format hfirst
  obtain ⟨after, header_sections, header_values, hafter, hsections, hvalues⟩ :=
    parse_header_values_success c d handle first_date_format hfirst
  rw [hafter]
  exact hagain after (by simp [hsections]) (by simp [hvalues])

/-- C24, on an EnCase2 handle: the first `libewf_parse_header_values` returns 1,
the second returns 0 and leaves the handle as the first call left it. -/
theorem parse_header_values_already_parsed_witness :
    (libewf_parse_header_values (sample_header_collaborators 17) sample_definitions
        (some sample_encase2_handle) 0).result = 1
    ∧ libewf_parse_header_values (sample_header_collaborators 17) sample_definitions
        (libewf_parse_header_values (sample_header_collaborators 17) sample_definitions
          (some sample_encase2_handle) 0).handle 1
      = ⟨0, (libewf_parse_header_values (sample_header_collaborators 17) sample_definitions
          (some sample_encase2_handle) 0).handle, ()⟩ :=
  ⟨by decide,
    (parse_header_values_already_parsed (sample_header_collaborators 17) sample_definitions
      sample_encase2_handle 1).2 (some sample_encase2_handle) 0 (by decide)⟩

set_option maxHeartbeats 3200000 in
/-- C25: `libewf_parse_header_values` parses the first available header in the
order xheader, header2, header.  On a handle with header sections and no header
values yet:
* when the xheader is present and its parser returns 1 and leaves a table, the
  call returns 1 with that table as header values (and the format of the
  EnCase2 check), whatever the header2 and header sections and parsers are;
* when the header2 parser is invoked (the xheader is absent, or its parser
  returned 1 and left the header values absent) and returns 1 with a table, the
  call returns 1 with that table; likewise for the header parser when in
  addition header2 is absent or its parser left the header values absent;
* when no section produced header values (each section is absent or its parser
  returned 1 and left the header values absent) the call returns -1 and changes
  nothing;
* when the xheader is present and its parser leaves header values present,
  neither the header2 nor the header parser is invoked (the outcome is the same
  whatever these two parsers are); when the header2 parser is invoked and leaves
  header values present, the header parser is not invoked;
* when an invoked parser does not return 1 the call returns -1;
* when the call does not return -1, header values are present afterwards; in
  particular with all three sections absent the call returns -1 and changes
  nothing. -/
theorem parse_header_values_order (c : Collaborators) (d : Definitions)
    (internal_handle : libewf_internal_handle_t)
    (header_sections : libewf_header_sections_t) (date_format : Nat)
    (hsections : internal_handle.header_sections = some header_sections)
    (hvalues : internal_handle.header_values = none) :
    (∀ xheader table, header_sections.xheader = some xheader →
      c.libewf_header_values_parse_xheader none xheader header_sections.xheader_size
        date_format = (1, some table) →
      libewf_parse_header_values c d (some internal_handle) date_format
        = ⟨1, some { internal_handle with
            header_values := some table,
            format :=
              if internal_handle.format = d.LIBEWF_FORMAT_ENCASE2
                  ∧ table.amount_of_values > d.LIBEWF_HEADER_VALUES_DEFAULT_AMOUNT
                  ∧ value_starts_with table
                      d.LIBEWF_HEADER_VALUES_INDEX_ACQUIRY_SOFTWARE_VERSION 51 = true
              then d.LIBEWF_FORMAT_ENCASE3 else internal_handle.format }, ()⟩)
    ∧ (∀ header2 table, header_sections.header2 = some header2 →
      (header_sections.xheader = none
        ∨ ∃ xheader, header_sections.xheader = some xheader
            ∧ c.libewf_header_values_parse_xheader none xheader
                header_sections.xheader_size date_format = (1, none)) →
      c.libewf_header_values_parse_header2 none header2 header_sections.header2_size
        date_format = (1, some table) →
      libewf_parse_header_values c d (some internal_handle) date_format
        = ⟨1, some { internal_handle with
            header_values := some table,
            format :=
              if internal_handle.format = d.LIBEWF_FORMAT_ENCASE2
                  ∧ table.amount_of_values > d.LIBEWF_HEADER_VALUES_DEFAULT_AMOUNT
                  ∧ value_starts_with table
                      d.LIBEWF_HEADER_VALUES_INDEX_ACQUIRY_SOFTWARE_VERSION 51 = true
              then d.LIBEWF_FORMAT_ENCASE3 else internal_handle.format }, ()⟩)
    ∧ (∀ header table, header_sections.header = some header →
      (header_sections.xheader = none
        ∨ ∃ xheader, header_sections.xheader = some xheader
            ∧ c.libewf_header_values_parse_xheader none xheader
                header_sections.xheader_size date_format = (1, none)) →
      (header_sections.header2 = none
        ∨ ∃ header2, header_sections.header2 = some header2
            ∧ c.libewf_header_values_parse_header2 none header2
                header_sections.header2_size date_format = (1, none)) →
      c.libewf_header_values_parse_header none header header_sections.header_size
        header_sections.header_codepage date_format = (1, some table) →
      libewf_parse_header_values c d (some internal_handle) date_format
        = ⟨1, some { internal_handle with
            header_values := some table,
            format :=
              if internal_handle.format = d.LIBEWF_FORMAT_ENCASE2
                  ∧ table.amount_of_values > d.LIBEWF_HEADER_VALUES_DEFAULT_AMOUNT
                  ∧ value_starts_with table
                      d.LIBEWF_HEADER_VALUES_INDEX_ACQUIRY_SOFTWARE_VERSION 51 = true
              then d.LIBEWF_FORMAT_ENCASE3 else internal_handle.format }, ()⟩)
    ∧ ((header_sections.xheader = none
        ∨ ∃ xheader, header_sections.xheader = some xheader
            ∧ c.libewf_header_values_parse_xheader none xheader
                header_sections.xheader_size date_format = (1, none)) →
      (header_sections.header2 = none
        ∨ ∃ header2, header_sections.header2 = some header2
            ∧ c.libewf_header_values_parse_header2 none header2
                header_sections.header2_size date_format = (1, none)) →
      (header_sections.header = none
        ∨ ∃ header, header_sections.header = some header
            ∧ c.libewf_header_values_parse_header none header
                header_sections.header_size header_sections.header_codepage
                date_format = (1, none)) →
      libewf_parse_header_values c d (some internal_handle) date_format
        = ⟨-1, some internal_handle, ()⟩)
    ∧ (∀ xheader, header_sections.xheader = some xheader →
      (c.libewf_header_values_parse_xheader none xheader header_sections.xheader_size
        date_format).2 ≠ none →
      ∀ parse_header2 parse_header,
        libewf_parse_header_values
            { c with
              libewf_header_values_parse_header2 := parse_header2,
              libewf_header_values_parse_header := parse_header }
            d (some internal_handle) date_format
          = libewf_parse_header_values c d (some internal_handle) date_format)
    ∧ (∀ header2, header_sections.header2 = some header2 →
      (header_sections.xheader = none
        ∨ ∃ xheader, header_sections.xheader = some xheader
            ∧ c.libewf_header_values_parse_xheader none xheader
                header_sections.xheader_size date_format = (1, none)) →
      (c.libewf_header_values_parse_header2 none header2 header_sections.header2_size
        date_format).2 ≠ none →
      ∀ parse_header,
        libewf_parse_header_values
            { c with libewf_header_values_parse_header := parse_header }
            d (some internal_handle) date_format
          = libewf_parse_header_values c d (some internal_handle) date_format)
    ∧ (∀ xheader, header_sections.xheader = some xheader →
      (c.libewf_header_values_parse_xheader none xheader header_sections.xheader_size
        date_format).1 ≠ 1 →
      (libewf_parse_header_values c d (some internal_handle) date_format).result = -1)
    ∧ (∀ header2, header_sections.header2 = some header2 →
      (header_sections.xheader = none
        ∨ ∃ xheader, header_sections.xheader = some xheader
            ∧ c.libewf_header_values_parse_xheader none xheader
                header_sections.xheader_size date_format = (1, none)) →
      (c.libewf_header_values_parse_header2 none header2 header_sections.header2_size
        date_format).1 ≠ 1 →
      (libewf_parse_header_values c d (some internal_handle) date_format).result = -1)
    ∧ (∀ header, header_sections.header = some header →
      (header_sections.xheader = none
        ∨ ∃ xheader, header_sections.xheader = some xheader
            ∧ c.libewf_header_values_parse_xheader none xheader
                header_sections.xheader_size date_format = (1, none)) →
      (header_sections.header2 = none
        ∨ ∃ header2, header_sections.header2 = some header2
            ∧ c.libewf_header_values_parse_header2 none header2
                header_sections.header2_size date_format = (1, none)) →
      (c.libewf_header_values_parse_header none header header_sections.header_size
        header_sections.header_codepage date_format).1 ≠ 1 →
      (libewf_parse_header_values c d (some internal_handle) date_format).result = -1)
    ∧ ((libewf_parse_header_values c d (some internal_handle) date_format).result ≠ -1 →
      ∃ after header_values,
        (libewf_parse_header_values c d (some internal_handle) date_format).handle
          = some after
        ∧ after.header_values = some header_values)
    ∧ (header_sections.xheader = none → header_sections.header2 = none →
      header_sections.header = none →
      libewf_parse_header_values c d (some internal_handle) date_format
        = ⟨-1, some internal_handle, ()⟩) := by
  have hsame : { internal_handle with header_values := none } = internal_handle := by
    cases internal_handle; simp_all
  refine ⟨?_, ?_, ?_, ?_, ?_, ?_, ?_, ?_, ?_, ?_, ?_⟩
  · intro xheader table hx hparsed
    simp only [libewf_parse_header_values, libewf_parse_header_values_header2,
      libewf_parse_header_values_header, libewf_parse_header_values_format, hsections,
      hvalues, hx, hparsed]
    (repeat' split) <;> simp_all
  · intro header2 table h2 hinvoked hparsed2
    simp only [libewf_parse_header_values, libewf_parse_header_values_header2,
      libewf_parse_header_values_header, libewf_parse_header_values_format, hsections,
      hvalues, h2]
    rcases hinvoked with hx | ⟨xheader, hx, hparsed⟩
    · simp only [hx, hvalues, hparsed2]
      (repeat' split) <;> simp_all
    · simp only [hx, hparsed, hparsed2]
      (repeat' split) <;> simp_all
  · intro header table h1 hinvoked2 hinvoked1 hparsed1
    simp only [libewf_parse_header_values, libewf_parse_header_values_header2,
      libewf_parse_header_values_header, libewf_parse_header_values_format, hsections,
      hvalues, h1]
    rcases hinvoked2 with hx | ⟨xheader, hx, hparsed⟩ <;>
      rcases hinvoked1 with h2 | ⟨header2, h2, hparsed2⟩
    · simp only [hx, h2, hvalues, hparsed1]
      (repeat' split) <;> simp_all
    · simp only [hx, h2, hvalues, hparsed2, hparsed1]
      (repeat' split) <;> simp_all
    · simp only [hx, h2, hparsed, hparsed1]
      (repeat' split) <;> simp_all
    · simp only [hx, h2, hparsed, hparsed2, hparsed1]
      (repeat' split) <;> simp_all
  · intro hinvoked2 hinvoked1 hinvoked0
    simp only [libewf_parse_header_values, libewf_parse_header_values_header2,
      libewf_parse_header_values_header, libewf_parse_header_values_format, hsections,
      hvalues]
    rcases hinvoked2 with hx | ⟨xheader, hx, hparsed⟩ <;>
      rcases hinvoked1 with h2 | ⟨header2, h2, hparsed2⟩ <;>
      rcases hinvoked0 with h1 | ⟨header, h1, hparsed1⟩ <;>
      simp_all
  · intro xheader hx hleft parse_header2 parse_header
    simp only [libewf_parse_header_values, libewf_parse_header_values_header2,
      libewf_parse_header_values_header, libewf_parse_header_values_format, hsections,
      hvalues, hx]
    (repeat' split) <;> simp_all
  · intro header2 h2 hinvoked hleft parse_header
    simp only [libewf_parse_header_values, libewf_parse_header_values_header2,
      libewf_parse_header_values_header, libewf_parse_header_values_format, hsections,
      hvalues, h2]
    rcases hinvoked with hx | ⟨xheader, hx, hparsed⟩
    · simp only [hx]
      (repeat' split) <;> simp_all
    · simp only [hx, hparsed]
      (repeat' split) <;> simp_all
  · intro xheader hx hfail
    simp only [libewf_parse_header_values, hsections, hvalues, hx]
    simp [hfail]
  · intro header2 h2 hinvoked hfail
    simp only [libewf_parse_header_values, libewf_parse_header_values_header2, hsections,
      hvalues, h2]
    rcases hinvoked with hx | ⟨xheader, hx, hparsed⟩
    · simp [hx, hvalues, hfail]
    · simp [hx, hparsed, hfail]
  · intro header h1 hinvoked2 hinvoked1 hfail
    simp only [libewf_parse_header_values, libewf_parse_header_values_header2,
      libewf_parse_header_values_header, hsections, hvalues, h1]
    rcases hinvoked2 with hx | ⟨xheader, hx, hparsed⟩ <;>
      rcases hinvoked1 with h2 | ⟨header2, h2, hparsed2⟩
    · simp [hx, h2, hvalues, hfail]
    · simp [hx, h2, hvalues, hparsed2, hfail]
    · simp [hx, h2, hparsed, hfail]
    · simp [hx, h2, hparsed, hparsed2, hfail]
  · intro hresult
    have hone : (libewf_parse_header_values c d (some internal_handle) date_format).result
        = 1 := by
      revert hresult
      simp only [libewf_parse_header_values, libewf_parse_header_values_header2,
        libewf_parse_header_values_header, libewf_parse_header_values_format, hsections]
      (repeat' split) <;> simp_all
    obtain ⟨after, -, header_values, hafter, -, hpresent⟩ :=
      parse_header_values_success c d (some internal_handle) date_format hone
    exact ⟨after, header_values, hafter, hpresent⟩
  · intro hx h2 h1
    simp only [libewf_parse_header_values, libewf_parse_header_values_header2,
      libewf_parse_header_values_header, libewf_parse_header_values_format, hsections,
      hx, h2, h1]
    simp [hvalues]

/-- C25, on a handle whose header, header2 and xheader sections are all
present, with parsers that each yield a table of their own section:
`libewf_parse_header_values` returns 1 and the header values are those of the
xheader. -/
theorem parse_header_values_order_witness :
    sample_three_headers_handle.header_sections
      = some ⟨some [49], 1, some [50], 1, some [120], 1, 20127⟩
    ∧ sample_three_headers_handle.header_values = none
    ∧ sample_collaborators.libewf_header_values_parse_xheader none [120] 1 0
      = (1, some (sample_values_table [120] [120]))
    ∧ libewf_parse_header_values sample_collaborators sample_definitions
        (some sample_three_headers_handle) 0
      = ⟨1, some { sample_three_headers_handle with
          header_values := some (sample_values_table [120] [120]) }, ()⟩ :=
  have h := parse_header_values_order sample_collaborators sample_definitions
    sample_three_headers_handle ⟨some [49], 1, some [50], 1, some [120], 1, 20127⟩ 0
    (by decide) (by decide)
  ⟨by decide, by decide, by decide,
    (h.1 [120] (sample_values_table [120] [120]) (by decide) (by decide)).trans
      (by decide)⟩

/-- C26, as stated, fails: a call that returns 1 need not leave hash values.  On
a handle with hash sections that hold no xhash and no hash,
`libewf_parse_hash_values` returns 1 without creating hash values, and a further
call on the same handle returns 1 again, not 0. -/
theorem parse_hash_values_returns_1_twice :
    (libewf_parse_hash_values sample_collaborators (some sample_read_handle)).result = 1
    ∧ (libewf_parse_hash_values sample_collaborators (some sample_read_handle)).handle
      = some sample_read_handle
    ∧ (libewf_parse_hash_values sample_collaborators
        (libewf_parse_hash_values sample_collaborators
          (some sample_read_handle)).handle).result = 1 := by
  decide

set_option maxHeartbeats 1600000 in
/-- After `libewf_parse_hash_values` returned 1 the handle has hash sections. -/
theorem parse_hash_values_success (c : Collaborators)
    (handle : Option libewf_internal_handle_t)
    (hparse : (libewf_parse_hash_values c handle).result = 1) :
    ∃ after hash_sections,
      (libewf_parse_hash_values c handle).handle = some after
      ∧ after.hash_sections = some hash_sections := by
  revert hparse
  simp only [libewf_parse_hash_values, libewf_parse_hash_values_digests]
  (repeat' split) <;> simp_all

/-- C26, amended: `libewf_parse_hash_values` returns 1 if successful and 0 if
already parsed.  On every handle with hash sections whose hash values are
present it returns 0 and changes nothing; after a call that returned 1 and left
hash values present a further call on the same handle returns 0 and changes
nothing.  When the hash sections hold no xhash and no hash (`md5_hash_set`,
`md5_digest_set` and `sha1_digest_set` are 0) and there are no hash values, the
call returns 1 and changes nothing, so that every further call returns 1
again. -/
theorem parse_hash_values_already_parsed (c : Collaborators)
    (internal_handle : libewf_internal_handle_t) :
    (internal_handle.hash_sections ≠ none → internal_handle.hash_values ≠ none →
      libewf_parse_hash_values c (some internal_handle) = ⟨0, some internal_handle, ()⟩)
    ∧ (∀ (handle : Option libewf_internal_handle_t) (after : libewf_internal_handle_t),
        (libewf_parse_hash_values c handle).result = 1 →
        (libewf_parse_hash_values c handle).handle = some after →
        after.hash_values ≠ none →
        libewf_parse_hash_values c (some after) = ⟨0, some after, ()⟩)
    ∧ (∀ hash_sections, internal_handle.hash_sections = some hash_sections →
        internal_handle.hash_values = none → hash_sections.xhash = none →
        hash_sections.md5_hash_set = 0 → hash_sections.md5_digest_set = 0 →
        hash_sections.sha1_digest_set = 0 →
        libewf_parse_hash_values c (some internal_handle)
          = ⟨1, some internal_handle, ()⟩) := by
  have hagain : ∀ after : libewf_internal_handle_t,
      after.hash_sections ≠ none → after.hash_values ≠ none →
      libewf_parse_hash_values c (some after) = ⟨0, some after, ()⟩ := by
    intro after hsections hvalues
    cases hs : after.hash_sections with
    | none => exact absurd hs hsections
    | some hash_sections => simp [libewf_parse_hash_values, hs, hvalues]
  refine ⟨hagain internal_handle, ?_, ?_⟩
  · intro handle after hfirst hafter hvalues
    obtain ⟨parsed, hash_sections, hparsed, hsections⟩ :=
      parse_hash_values_success c handle hfirst
    rw [hafter] at hparsed
    cases hparsed
    exact hagain after (by simp [hsections]) hvalues
  · intro hash_sections hsections hvalues hxhash hhash hdigest hsha1
    have hhandle : { internal_handle with hash_values := none } = internal_handle := by
      cases internal_handle; simp_all
    simp [libewf_parse_hash_values, libewf_parse_hash_values_digests, hsections, hvalues,
      hxhash, hhash, hdigest, hsha1, hhandle]

/-- C26, amended, on a handle whose MD5 hash is set and whose hash values are
present: `libewf_parse_hash_values` returns 0 and changes nothing. -/
theorem parse_hash_values_already_parsed_witness :
    sample_hashed_handle.hash_sections ≠ none
    ∧ sample_hashed_handle.hash_values ≠ none
    ∧ libewf_parse_hash_values sample_collaborators (some sample_hashed_handle)
      = ⟨0, some sample_hashed_handle, ()⟩ :=
  ⟨by decide, by decide,
    (parse_hash_values_already_parsed sample_collaborators sample_hashed_handle).1
      (by decide) (by decide)⟩

/-- The comparison with "MD5" over 3 characters succeeds on an identifier of
length 3 only for the identifier "MD5" itself. -/
theorem identifier_is_MD5 (identifier : List Nat)
    (hlength : narrow_string_length identifier = 3)
    (hcompare : narrow_string_compare identifier MD5_identifier
      (narrow_string_length identifier) = 0) :
    identifier = MD5_identifier := by
  simp only [narrow_string_length] at hlength
  simp only [narrow_string_compare, narrow_string_length, hlength] at hcompare
  split at hcompare
  · rename_i htake
    rw [List.take_left' hlength] at htake
    rw [htake]
    decide
  · exact absurd hcompare (by decide)

set_option maxHeartbeats 1600000 in
/-- C27: identifier comparison is case-sensitive.  For every identifier other
than the three bytes "MD5" (such as "md5", "Md5" or "MD5x"),
`libewf_set_hash_value` leaves the hash sections of the handle, `md5_hash` and
`md5_hash_set` included, as they are, and `libewf_get_hash_value` leaves the
whole handle as it is (no hash values table is created).  For the identifier
"MD5" on a handle with hash sections and no read subhandle, once
`libewf_set_hash_value` has stored the value (the table function returned 1),
`md5_hash` and `md5_hash_set` are what `libewf_hash_values_generate_md5_hash`
makes of them from the stored table, and the call returns 1 when the generator
does and -1 otherwise: both when the hash values were present and when the
handle had none and they were created and initialised by the call.  For any
other identifier, or without hash sections, the outcome is the same whatever the
generator is (it is not invoked).  `libewf_get_hash_value` for "MD5" on a handle
without hash values whose `md5_hash_set` is not 0 creates the hash values from
`md5_hash` with `libewf_hash_values_parse_md5_hash`. -/
theorem hash_value_identifier_is_case_sensitive (c : Collaborators) (d : Definitions)
    (internal_handle : libewf_internal_handle_t) (identifier : Option (List Nat))
    (value : Option (List Nat)) (value_length : Nat) :
    (identifier ≠ some MD5_identifier →
      ((libewf_set_hash_value c d (some internal_handle) identifier value
          value_length).handle.map fun after => after.hash_sections)
        = some internal_handle.hash_sections
      ∧ (libewf_get_hash_value c (some internal_handle) identifier value
          value_length).handle = some internal_handle)
    ∧ (∀ hash_sections hash_values stored,
        internal_handle.hash_sections = some hash_sections →
        internal_handle.read = none →
        internal_handle.hash_values = some hash_values →
        c.libewf_values_table_set_value (some hash_values) MD5_identifier 3 value
          value_length = (1, stored) →
        libewf_set_hash_value c d (some internal_handle) (some MD5_identifier) value
            value_length
          = ⟨if (c.libewf_hash_values_generate_md5_hash stored hash_sections.md5_hash 16
                hash_sections.md5_hash_set).1 = 1 then 1 else -1,
            some { internal_handle with
              hash_values := (c.libewf_hash_values_generate_md5_hash stored
                hash_sections.md5_hash 16 hash_sections.md5_hash_set).2.1,
              hash_sections := some { hash_sections with
                md5_hash := (c.libewf_hash_values_generate_md5_hash stored
                  hash_sections.md5_hash 16 hash_sections.md5_hash_set).2.2.1,
                md5_hash_set := (c.libewf_hash_values_generate_md5_hash stored
                  hash_sections.md5_hash 16 hash_sections.md5_hash_set).2.2.2 } }, ()⟩)
    ∧ (∀ hash_sections created initialized stored,
        internal_handle.hash_sections = some hash_sections →
        internal_handle.read = none →
        internal_handle.hash_values = none →
        c.libewf_values_table_initialize none d.LIBEWF_HASH_VALUES_DEFAULT_AMOUNT
          = (1, created) →
        c.libewf_hash_values_initialize created = (1, initialized) →
        c.libewf_values_table_set_value initialized MD5_identifier 3 value
          value_length = (1, stored) →
        libewf_set_hash_value c d (some internal_handle) (some MD5_identifier) value
            value_length
          = ⟨if (c.libewf_hash_values_generate_md5_hash stored hash_sections.md5_hash 16
                hash_sections.md5_hash_set).1 = 1 then 1 else -1,
            some { internal_handle with
              hash_values := (c.libewf_hash_values_generate_md5_hash stored
                hash_sections.md5_hash 16 hash_sections.md5_hash_set).2.1,
              hash_sections := some { hash_sections with
                md5_hash := (c.libewf_hash_values_generate_md5_hash stored
                  hash_sections.md5_hash 16 hash_sections.md5_hash_set).2.2.1,
                md5_hash_set := (c.libewf_hash_values_generate_md5_hash stored
                  hash_sections.md5_hash 16 hash_sections.md5_hash_set).2.2.2 } }, ()⟩)
    ∧ ((identifier ≠ some MD5_identifier ∨ internal_handle.hash_sections = none) →
        ∀ generate_md5_hash,
          libewf_set_hash_value
              { c with libewf_hash_values_generate_md5_hash := generate_md5_hash }
              d (some internal_handle) identifier value value_length
            = libewf_set_hash_value c d (some internal_handle) identifier value
                value_length)
    ∧ (∀ hash_sections buffer,
        internal_handle.hash_sections = some hash_sections →
        internal_handle.hash_values = none → hash_sections.md5_hash_set ≠ 0 →
        ((libewf_get_hash_value c (some internal_handle) (some MD5_identifier)
            (some buffer) value_length).handle.map fun after => after.hash_values)
          = some (c.libewf_hash_values_parse_md5_hash none hash_sections.md5_hash 16).2)
    := by
  have hlength : narrow_string_length MD5_identifier = 3 := by decide
  have hcompare : narrow_string_compare MD5_identifier MD5_identifier 3 = 0 := by decide
  have hnot : ∀ name : List Nat, identifier ≠ some MD5_identifier → identifier = some name →
      ¬ (narrow_string_length name = 3
        ∧ narrow_string_compare name MD5_identifier (narrow_string_length name) = 0) :=
    fun name hidentifier hname h =>
      hidentifier (hname ▸ congrArg some (identifier_is_MD5 name h.1 h.2))
  refine ⟨?_, ?_, ?_, ?_, ?_⟩
  · intro hidentifier
    constructor
    · cases identifier with
      | none => simp [libewf_set_hash_value]
      | some name =>
        have hname := hnot name hidentifier rfl
        simp only [libewf_set_hash_value, libewf_set_hash_value_store]
        (repeat' split) <;> rfl
    · cases identifier with
      | none => simp [libewf_get_hash_value]
      | some name =>
        have hname := hnot name hidentifier rfl
        have hlookup : ∀ (after : libewf_internal_handle_t) (length : Nat),
            (libewf_get_hash_value_lookup c after name length value value_length).handle
              = some after := by
          intro after length
          simp only [libewf_get_hash_value_lookup]
          split <;> rfl
        simp only [libewf_get_hash_value]
        (repeat' split) <;>
          first
          | rfl
          | exact hlookup _ _
          | exact absurd (And.right (And.right ‹_ ∧ _ ∧ _ ∧ _›)) hname
  · intro hash_sections hash_values stored hsections hread hvalues hstored
    simp only [libewf_set_hash_value, libewf_set_hash_value_store, hread, hvalues, hlength,
      hstored, hsections, hcompare]
    (repeat' split) <;> simp_all
  · intro hash_sections created initialized stored hsections hread hvalues hcreated
      hinitialized hstored
    simp only [libewf_set_hash_value, libewf_set_hash_value_store, hread, hvalues, hlength,
      hcreated, hinitialized, hstored, hsections, hcompare]
    (repeat' split) <;> simp_all
  · intro hno generate_md5_hash
    cases identifier with
    | none => simp [libewf_set_hash_value]
    | some name =>
      rcases hno with hidentifier | hsections
      · have hname := hnot name hidentifier rfl
        simp only [libewf_set_hash_value, libewf_set_hash_value_store]
        (repeat' split) <;> simp_all
      · simp only [libewf_set_hash_value, libewf_set_hash_value_store, hsections]
  · intro hash_sections buffer hsections hvalues hset
    simp only [libewf_get_hash_value, libewf_get_hash_value_lookup, hvalues, hlength,
      hsections, hcompare]
    (repeat' split) <;> simp_all

/-- C27, on a fresh write handle (hash sections without a hash, no hash values)
with a generator that yields the hash 0, 1, .., 15: setting the hash value
"MD5" creates the hash values, stores the value and puts the generated hash
into `md5_hash` with `md5_hash_set` 1. -/
theorem hash_value_identifier_is_case_sensitive_witness :
    (sample_write_handle 0).hash_sections = some sample_hash_sections
    ∧ (sample_write_handle 0).read = none
    ∧ (sample_write_handle 0).hash_values = none
    ∧ libewf_set_hash_value sample_generating_collaborators sample_definitions
        (some (sample_write_handle 0)) (some MD5_identifier) (some [48]) 1
      = ⟨1, some { sample_write_handle 0 with
          hash_values := some ⟨0, some [], some []⟩,
          hash_sections := some { sample_hash_sections with
            md5_hash := List.range 16, md5_hash_set := 1 } }, ()⟩ :=
  ⟨by decide, by decide, by decide,
    ((hash_value_identifier_is_case_sensitive sample_generating_collaborators
      sample_definitions (sample_write_handle 0) (some MD5_identifier) (some [48])
      1).2.2.1 sample_hash_sections (some ⟨0, some [], some []⟩)
      (some ⟨0, some [], some []⟩) (some ⟨0, some [], some []⟩)
      (by decide) (by decide) (by decide) (by decide) (by decide) (by decide)).trans
      (by decide)⟩

/-- C28: `libewf_copy_media_values` copies the media values from the source to
the destination handle.  It returns 1 if and only if both handles are not NULL
and both have media values.  On success the media values of the destination
are those of the source, field by field (`guid`, `media_flags` and `media_size`
included), no other member of the destination changes and the source handle is
unchanged; in every other case it returns -1 and neither handle changes. -/
theorem copy_media_values_copies (destination_handle source_handle :
    Option libewf_internal_handle_t) :
    ((libewf_copy_media_values destination_handle source_handle).result = 1
      ↔ ∃ destination source destination_media_values source_media_values,
          destination_handle = some destination ∧ source_handle = some source
          ∧ destination.media_values = some destination_media_values
          ∧ source.media_values = some source_media_values)
    ∧ (∀ destination source,
        destination_handle = some destination → source_handle = some source →
        (libewf_copy_media_values destination_handle source_handle).result = 1 →
        libewf_copy_media_values destination_handle source_handle
          = ⟨1, some { destination with media_values := source.media_values },
              some source⟩)
    ∧ ((libewf_copy_media_values destination_handle source_handle).result ≠ 1 →
        libewf_copy_media_values destination_handle source_handle
          = ⟨-1, destination_handle, source_handle⟩) := by
  simp only [libewf_copy_media_values]
  refine ⟨?_, ?_, ?_⟩
  · (repeat' split) <;> simp_all
  · intro destination source hdestination hsource
    subst hdestination hsource
    (repeat' split) <;> simp_all
  · (repeat' split) <;> simp_all

/-- C28, on a destination with chunk size 32768 and a source with chunk size
524288: the call returns 1, the destination has the media values of the source
and the source is unchanged. -/
theorem copy_media_values_copies_witness :
    (libewf_copy_media_values (some (sample_write_handle 0))
        (some sample_source_handle)).result = 1
    ∧ libewf_copy_media_values (some (sample_write_handle 0)) (some sample_source_handle)
      = ⟨1, some { sample_write_handle 0 with
          media_values := sample_source_handle.media_values }, some sample_source_handle⟩ :=
  ⟨by decide,
    (copy_media_values_copies (some (sample_write_handle 0))
      (some sample_source_handle)).2.1 (sample_write_handle 0) sample_source_handle rfl rfl
      (by decide)⟩

/-- C30: on a freshly opened write-only handle (media values present, no read
subhandle, a write subhandle with `values_initialized == 0`) the state guards of
`libewf_set_sectors_per_chunk` and `libewf_set_media_size` do not reject.
`libewf_set_sectors_per_chunk(n)` calls `libewf_internal_handle_set_media_values`
on `(n, current bytes_per_sector, current media_size)`, returns 1 exactly when
that call returns 1 (and -1 otherwise), and leaves the handle as that call left
it; `libewf_set_media_size(m)` does the same on
`(current sectors_per_chunk, current bytes_per_sector, m)`. -/
theorem media_setters_forward_to_set_media_values (c : Collaborators)
    (internal_handle : libewf_internal_handle_t) (media_values : libewf_media_values_t)
    (write : libewf_write_t) (sectors_per_chunk media_size : Nat)
    (hmedia : internal_handle.media_values = some media_values)
    (hread : internal_handle.read = none) (hwrite : internal_handle.write = some write)
    (hinit : write.values_initialized = 0) :
    libewf_set_sectors_per_chunk c (some internal_handle) sectors_per_chunk
        = ⟨if (c.libewf_internal_handle_set_media_values internal_handle sectors_per_chunk
              media_values.bytes_per_sector media_values.media_size).1 = 1 then 1 else -1,
            some (c.libewf_internal_handle_set_media_values internal_handle
              sectors_per_chunk media_values.bytes_per_sector media_values.media_size).2,
            ()⟩
    ∧ ((libewf_set_sectors_per_chunk c (some internal_handle) sectors_per_chunk).result = 1
        ↔ (c.libewf_internal_handle_set_media_values internal_handle sectors_per_chunk
            media_values.bytes_per_sector media_values.media_size).1 = 1)
    ∧ libewf_set_media_size c (some internal_handle) media_size
        = ⟨if (c.libewf_internal_handle_set_media_values internal_handle
              media_values.sectors_per_chunk media_values.bytes_per_sector media_size).1 = 1
            then 1 else -1,
            some (c.libewf_internal_handle_set_media_values internal_handle
              media_values.sectors_per_chunk media_values.bytes_per_sector media_size).2,
            ()⟩
    ∧ ((libewf_set_media_size c (some internal_handle) media_size).result = 1
        ↔ (c.libewf_internal_handle_set_media_values internal_handle
            media_values.sectors_per_chunk media_values.bytes_per_sector media_size).1
          = 1) := by
  have hsectors : libewf_set_sectors_per_chunk c (some internal_handle) sectors_per_chunk
      = ⟨if (c.libewf_internal_handle_set_media_values internal_handle sectors_per_chunk
            media_values.bytes_per_sector media_values.media_size).1 = 1 then 1 else -1,
          some (c.libewf_internal_handle_set_media_values internal_handle
            sectors_per_chunk media_values.bytes_per_sector media_values.media_size).2,
          ()⟩ := by
    simp only [libewf_set_sectors_per_chunk, hmedia, hwrite, hinit]
    (repeat' split) <;> simp_all
  have hsize : libewf_set_media_size c (some internal_handle) media_size
      = ⟨if (c.libewf_internal_handle_set_media_values internal_handle
            media_values.sectors_per_chunk media_values.bytes_per_sector media_size).1 = 1
          then 1 else -1,
          some (c.libewf_internal_handle_set_media_values internal_handle
            media_values.sectors_per_chunk media_values.bytes_per_sector media_size).2,
          ()⟩ := by
    simp only [libewf_set_media_size, hmedia, hread, hwrite, hinit]
    (repeat' split) <;> simp_all
  refine ⟨hsectors, ?_, hsize, ?_⟩
  · rw [hsectors]
    constructor
    · intro h
      by_contra hne
      simp [hne] at h
    · intro h
      simp [h]
  · rw [hsize]
    constructor
    · intro h
      by_contra hne
      simp [hne] at h
    · intro h
      simp [h]

/-- C30, on a fresh write handle, as in the write-chunk test:
`libewf_set_media_size(1048576)` and `libewf_set_sectors_per_chunk(64)` return 1
when `libewf_internal_handle_set_media_values` succeeds. -/
theorem media_setters_forward_to_set_media_values_witness :
    (libewf_set_sectors_per_chunk sample_collaborators (some (sample_write_handle 0))
        64).result = 1
    ∧ (libewf_set_media_size sample_collaborators (some (sample_write_handle 0))
        1048576).result = 1 :=
  have h := media_setters_forward_to_set_media_values sample_collaborators
    (sample_write_handle 0) sample_media_values (sample_write 0) 64 1048576 rfl rfl rfl rfl
  ⟨h.2.1.2 (by decide), h.2.2.2.2 (by decide)⟩

/-- On a handle with a write subhandle whose `values_initialized` is 0,
`libewf_set_compression_values` with one of the three levels returns 1, stores
the level, and stores the flag for the level NONE and 0 otherwise. -/
theorem set_compression_values_success (d : Definitions)
    (internal_handle : libewf_internal_handle_t) (write : libewf_write_t)
    (compression_level : Int) (compress_empty_block : Nat)
    (hwrite : internal_handle.write = some write) (hinit : write.values_initialized = 0)
    (hlevel : compression_level = d.EWF_COMPRESSION_NONE
      ∨ compression_level = d.EWF_COMPRESSION_FAST
      ∨ compression_level = d.EWF_COMPRESSION_BEST) :
    libewf_set_compression_values d (some internal_handle) compression_level
        compress_empty_block
      = ⟨1, some { internal_handle with
          compression_level := compression_level,
          compress_empty_block :=
            if compression_level = d.EWF_COMPRESSION_NONE then compress_empty_block
            else 0 }, ()⟩ := by
  simp only [libewf_set_compression_values, hwrite, hinit]
  (repeat' split) <;> simp_all

/-- C29: every pair of compression level and compression flags that the
write-chunk test derives from its `-c` option ('b': (BEST, 0), 'e': (NONE,
USE_EMPTY_BLOCK_COMPRESSION), 'f': (FAST, 0), 'n': (NONE, 0), no option:
(NONE, 0)), the levels of the test being those of the library, is accepted by
`libewf_set_compression_values` on a freshly opened write handle (a write
subhandle with `values_initialized == 0`): the call returns 1, and
`libewf_get_compression_values` then returns 1 and reads back the same pair. -/
theorem test_compression_values_are_accepted (t : TestDefinitions) (d : Definitions)
    (internal_handle : libewf_internal_handle_t) (write : libewf_write_t)
    (option_compression_level : Option (List Nat)) (compression_level : Int)
    (compression_flags : Nat) (old_level : Int) (old_flags : Nat)
    (hnone : t.LIBEWF_COMPRESSION_NONE = d.EWF_COMPRESSION_NONE)
    (hfast : t.LIBEWF_COMPRESSION_FAST = d.EWF_COMPRESSION_FAST)
    (hbest : t.LIBEWF_COMPRESSION_BEST = d.EWF_COMPRESSION_BEST)
    (hoption : main_compression_values t option_compression_level
      = some (compression_level, compression_flags))
    (hwrite : internal_handle.write = some write)
    (hinit : write.values_initialized = 0) :
    (libewf_set_compression_values d (some internal_handle) compression_level
        compression_flags).result = 1
    ∧ libewf_get_compression_values
        (libewf_set_compression_values d (some internal_handle) compression_level
          compression_flags).handle (some old_level) (some old_flags)
      = ⟨1, (libewf_set_compression_values d (some internal_handle) compression_level
            compression_flags).handle,
          (some compression_level, some compression_flags)⟩ := by
  have hpairs : (compression_level = d.EWF_COMPRESSION_NONE)
      ∨ ((compression_level = d.EWF_COMPRESSION_FAST
          ∨ compression_level = d.EWF_COMPRESSION_BEST) ∧ compression_flags = 0) := by
    revert hoption
    simp only [main_compression_values]
    (repeat' split) <;> simp_all
  have haccepted : compression_level = d.EWF_COMPRESSION_NONE
      ∨ compression_level = d.EWF_COMPRESSION_FAST
      ∨ compression_level = d.EWF_COMPRESSION_BEST := by
    rcases hpairs with hlevel | ⟨hlevel | hlevel, -⟩
    · exact Or.inl hlevel
    · exact Or.inr (Or.inl hlevel)
    · exact Or.inr (Or.inr hlevel)
  have hstored : (if compression_level = d.EWF_COMPRESSION_NONE then compression_flags
      else 0) = compression_flags := by
    rcases hpairs with hlevel | ⟨-, hflags⟩
    · rw [if_pos hlevel]
    · rw [hflags, ite_self]
  rw [set_compression_values_success d internal_handle write compression_level
    compression_flags hwrite hinit haccepted, hstored]
  exact ⟨rfl, by simp [libewf_get_compression_values]⟩

/-- C29, for the option `-c e`: the test passes `(NONE,
USE_EMPTY_BLOCK_COMPRESSION)`, which a fresh write handle accepts and reads
back. -/
theorem test_compression_values_are_accepted_witness :
    main_compression_values sample_test_definitions (some [101]) = some (0, 1)
    ∧ (libewf_set_compression_values sample_definitions (some (sample_write_handle 0))
        0 1).result = 1
    ∧ (libewf_get_compression_values
        (libewf_set_compression_values sample_definitions (some (sample_write_handle 0))
          0 1).handle (some 9) (some 9)).out = (some 0, some 1) := by
  have h := test_compression_values_are_accepted sample_test_definitions
    sample_definitions (sample_write_handle 0) (sample_write 0) (some [101]) 0 1 9 9
    rfl rfl rfl (by decide) rfl rfl
  exact ⟨by decide, h.1, by rw [h.2]⟩

/-- C31, evaluated on the code: `libewf_get_amount_of_acquiry_errors` never
returns 0.  For every handle and output the result is 1 or -1, and on a handle
whose acquiry errors table exists and holds no entries (`amount == 0`) the call
returns 1 and writes the amount 0. -/
theorem get_amount_of_acquiry_errors_returns_1_for_empty_table :
    (∀ (handle : Option libewf_internal_handle_t) (amount_of_errors : Option Nat),
      (libewf_get_amount_of_acquiry_errors handle amount_of_errors).result = 1
      ∨ (libewf_get_amount_of_acquiry_errors handle amount_of_errors).result = -1)
    ∧ (sample_write_handle 0).acquiry_errors = some ⟨0, []⟩
    ∧ libewf_get_amount_of_acquiry_errors (some (sample_write_handle 0)) (some 7)
      = ⟨1, some (sample_write_handle 0), some 0⟩ := by
  refine ⟨?_, rfl, by decide⟩
  intro handle amount_of_errors
  simp only [libewf_get_amount_of_acquiry_errors]
  (repeat' split) <;> simp

/-- C32, evaluated on the code: `libewf_get_amount_of_hash_values` has a third
result.  On a handle without hash values, called with a non-NULL output, it
returns 0 and leaves the output as it was. -/
theorem get_amount_of_hash_values_returns_0_without_hash_values :
    (sample_write_handle 0).hash_values = none
    ∧ libewf_get_amount_of_hash_values (some (sample_write_handle 0)) (some 7)
      = ⟨0, some (sample_write_handle 0), some 7⟩ := by
  decide

/-- C33: getters are read-only on the handle.  Every `libewf_get_*` function
other than `libewf_get_media_size`, `libewf_get_md5_hash`, `libewf_get_sha1_hash`
and `libewf_get_hash_value` leaves the handle, every member of it, unchanged,
whatever its arguments are and whatever it returns.  `libewf_get_media_size`
either leaves the handle unchanged or, when the stored `media_size` was 0,
changes `media_values.media_size` only, to the 64-bit product of
`amount_of_sectors` and `bytes_per_sector`, which is the exact product when
both are 32-bit values. -/
theorem getters_leave_handle_unchanged (c : Collaborators) (d : Definitions)
    (handle : Option libewf_internal_handle_t) (op : Operation)
    (media_size : Option Nat) :
    (op.is_plain_getter = true → op.run c d handle = handle)
    ∧ ((libewf_get_media_size handle media_size).handle = handle
      ∨ ∃ internal_handle media_values,
          handle = some internal_handle
          ∧ internal_handle.media_values = some media_values
          ∧ media_values.media_size = 0
          ∧ (libewf_get_media_size handle media_size).handle
            = some { internal_handle with
                media_values := some { media_values with
                  media_size := (media_values.amount_of_sectors % UINT64_MOD)
                    * (media_values.bytes_per_sector % UINT64_MOD) % UINT64_MOD } }
          ∧ (media_values.amount_of_sectors < 2 ^ 32 →
              media_values.bytes_per_sector < 2 ^ 32 →
              (media_values.amount_of_sectors % UINT64_MOD)
                  * (media_values.bytes_per_sector % UINT64_MOD) % UINT64_MOD
                = media_values.amount_of_sectors * media_values.bytes_per_sector)) := by
  constructor
  · intro hop
    cases op <;> simp [Operation.is_plain_getter] at hop <;>
      simp only [Operation.run, libewf_get_sectors_per_chunk, libewf_get_bytes_per_sector,
        libewf_get_amount_of_sectors, libewf_get_chunk_size, libewf_get_error_granularity,
        libewf_get_compression_values, libewf_get_media_type, libewf_get_media_flags,
        libewf_get_volume_type, libewf_get_format, libewf_get_guid, memory_copy,
        libewf_get_segment_filename, libewf_get_segment_filename_wide,
        libewf_get_delta_segment_filename, libewf_get_delta_segment_filename_wide,
        libewf_get_amount_of_acquiry_errors, libewf_get_acquiry_error,
        libewf_get_amount_of_crc_errors, libewf_get_crc_error,
        libewf_get_amount_of_sessions, libewf_get_session,
        libewf_get_write_amount_of_chunks, libewf_get_header_codepage,
        libewf_get_amount_of_header_values, libewf_get_header_value_identifier,
        libewf_get_header_value, libewf_get_amount_of_hash_values,
        libewf_get_hash_value_identifier] <;>
      (repeat' split) <;> rfl
  · cases handle with
    | none => exact Or.inl rfl
    | some internal_handle =>
      cases hmedia : internal_handle.media_values with
      | none => exact Or.inl (by simp [libewf_get_media_size, hmedia])
      | some media_values =>
        have hhandle : { internal_handle with media_values := some media_values }
            = internal_handle := by
          cases internal_handle; simp_all
        cases media_size with
        | none => exact Or.inl (by simp [libewf_get_media_size, hmedia])
        | some old =>
          by_cases hzero : media_values.media_size = 0
          · refine Or.inr ⟨internal_handle, media_values, rfl, hmedia, hzero, ?_, ?_⟩
            · simp only [libewf_get_media_size, hmedia, hzero, reduceCtorEq, if_false,
                if_true]
              split <;> rfl
            · intro hsectors hbytes
              have hproduct : media_values.amount_of_sectors * media_values.bytes_per_sector
                  < 2 ^ 32 * 2 ^ 32 :=
                Nat.mul_lt_mul'' hsectors hbytes
              have hmod : (2 : Nat) ^ 32 * 2 ^ 32 = UINT64_MOD := by decide
              have hlt : (2 : Nat) ^ 32 < UINT64_MOD := by decide
              rw [Nat.mod_eq_of_lt (Nat.lt_trans hsectors hlt),
                Nat.mod_eq_of_lt (Nat.lt_trans hbytes hlt),
                Nat.mod_eq_of_lt (hmod ▸ hproduct)]
          · refine Or.inl ?_
            simp only [libewf_get_media_size, hmedia, hzero, reduceCtorEq, if_false, hhandle]
            split <;> rfl

/-- C33, on a handle with media values: `libewf_get_media_flags` leaves the
handle as it is. -/
theorem getters_leave_handle_unchanged_witness :
    (Operation.get_media_flags (some 0)).is_plain_getter = true
    ∧ (libewf_get_media_flags (some (sample_write_handle 0)) (some 0)).handle
      = some (sample_write_handle 0) :=
  ⟨rfl,
    (getters_leave_handle_unchanged sample_collaborators sample_definitions
      (some (sample_write_handle 0)) (Operation.get_media_flags (some 0)) none).1 rfl⟩

/-- C34: setters are atomic on error.  For each of `libewf_set_error_granularity`,
`libewf_set_compression_values`, `libewf_set_segment_file_size`,
`libewf_set_delta_segment_file_size`, `libewf_set_media_type`,
`libewf_set_volume_type`, `libewf_set_guid` and
`libewf_set_read_wipe_chunk_on_error`: the result is 1 or -1; a result of -1
leaves the handle unchanged; a result of 1 changes the member named by the
setter only (`compression_level` and `compress_empty_block` for
`libewf_set_compression_values`, `media_flags` for `libewf_set_volume_type`). -/
theorem setters_are_atomic (d : Definitions) (handle : Option libewf_internal_handle_t)
    (value size : Nat) (level : Int) (guid : Option (List Nat)) :
    ((libewf_set_error_granularity handle value = ⟨-1, handle, ()⟩)
      ∨ ∃ internal_handle media_values,
          handle = some internal_handle
          ∧ internal_handle.media_values = some media_values
          ∧ libewf_set_error_granularity handle value
            = ⟨1, some { internal_handle with
                media_values := some { media_values with error_granularity := value } },
                ()⟩)
    ∧ ((libewf_set_compression_values d handle level value = ⟨-1, handle, ()⟩)
      ∨ ∃ internal_handle compress_empty_block,
          handle = some internal_handle
          ∧ libewf_set_compression_values d handle level value
            = ⟨1, some { internal_handle with
                compression_level := level,
                compress_empty_block := compress_empty_block }, ()⟩)
    ∧ ((libewf_set_segment_file_size handle value = ⟨-1, handle, ()⟩)
      ∨ ∃ internal_handle write,
          handle = some internal_handle ∧ internal_handle.write = some write
          ∧ libewf_set_segment_file_size handle value
            = ⟨1, some { internal_handle with
                write := some { write with segment_file_size := value } }, ()⟩)
    ∧ ((libewf_set_delta_segment_file_size handle value = ⟨-1, handle, ()⟩)
      ∨ ∃ internal_handle write,
          handle = some internal_handle ∧ internal_handle.write = some write
          ∧ libewf_set_delta_segment_file_size handle value
            = ⟨1, some { internal_handle with
                write := some { write with delta_segment_file_size := value } }, ()⟩)
    ∧ ((libewf_set_media_type handle value = ⟨-1, handle, ()⟩)
      ∨ ∃ internal_handle media_values,
          handle = some internal_handle
          ∧ internal_handle.media_values = some media_values
          ∧ libewf_set_media_type handle value
            = ⟨1, some { internal_handle with
                media_values := some { media_values with media_type := value } }, ()⟩)
    ∧ ((libewf_set_volume_type d handle value = ⟨-1, handle, ()⟩)
      ∨ ∃ internal_handle media_values media_flags,
          handle = some internal_handle
          ∧ internal_handle.media_values = some media_values
          ∧ libewf_set_volume_type d handle value
            = ⟨1, some { internal_handle with
                media_values := some { media_values with media_flags := media_flags } },
                ()⟩)
    ∧ ((libewf_set_guid handle guid size = ⟨-1, handle, ()⟩)
      ∨ ∃ internal_handle media_values stored,
          handle = some internal_handle
          ∧ internal_handle.media_values = some media_values
          ∧ libewf_set_guid handle guid size
            = ⟨1, some { internal_handle with
                media_values := some { media_values with guid := stored } }, ()⟩)
    ∧ ((libewf_set_read_wipe_chunk_on_error handle value = ⟨-1, handle, ()⟩)
      ∨ ∃ internal_handle read,
          handle = some internal_handle ∧ internal_handle.read = some read
          ∧ libewf_set_read_wipe_chunk_on_error handle value
            = ⟨1, some { internal_handle with
                read := some { read with wipe_on_error := value } }, ()⟩) := by
  refine ⟨?_, ?_, ?_, ?_, ?_, ?_, ?_, ?_⟩
  · simp only [libewf_set_error_granularity]
    (repeat' split) <;> simp_all
  · simp only [libewf_set_compression_values]
    (repeat' split) <;> simp_all
  · simp only [libewf_set_segment_file_size]
    (repeat' split) <;> simp_all
  · simp only [libewf_set_delta_segment_file_size]
    (repeat' split) <;> simp_all
  · simp only [libewf_set_media_type]
    (repeat' split) <;> simp_all
  · simp only [libewf_set_volume_type]
    (repeat' split) <;> simp_all
  · simp only [libewf_set_guid, memory_copy]
    (repeat' split) <;> simp_all
  · simp only [libewf_set_read_wipe_chunk_on_error]
    (repeat' split) <;> simp_all

/-- C35: the state guards differ between setters.  On a handle that has both
a read and a write subhandle with `values_initialized == 0` (read-write mode),
`libewf_set_bytes_per_sector`, `libewf_set_media_size`, `libewf_set_media_type`,
`libewf_set_volume_type`, `libewf_set_format`, `libewf_set_guid`,
`libewf_set_segment_file_size` and `libewf_set_header_value` all return -1 and
change nothing, whereas the state guard of `libewf_set_sectors_per_chunk`,
`libewf_set_error_granularity`, `libewf_set_compression_values` and
`libewf_set_delta_segment_file_size` does not reject: with media values present
`libewf_set_sectors_per_chunk` reaches `libewf_internal_handle_set_media_values`
and returns what it decides, `libewf_set_error_granularity` returns 1 and stores
the value, and `libewf_set_compression_values` and
`libewf_set_delta_segment_file_size` return 1 for every value in their range. -/
theorem state_guards_in_read_write_mode (c : Collaborators) (d : Definitions)
    (internal_handle : libewf_internal_handle_t) (read : libewf_read_t)
    (write : libewf_write_t) (hread : internal_handle.read = some read)
    (hwrite : internal_handle.write = some write) (hinit : write.values_initialized = 0)
    (value size value_length : Nat) (level : Int)
    (guid identifier header_value : Option (List Nat)) :
    (libewf_set_bytes_per_sector c (some internal_handle) value
        = ⟨-1, some internal_handle, ()⟩
      ∧ libewf_set_media_size c (some internal_handle) value
        = ⟨-1, some internal_handle, ()⟩
      ∧ libewf_set_media_type (some internal_handle) value
        = ⟨-1, some internal_handle, ()⟩
      ∧ libewf_set_volume_type d (some internal_handle) value
        = ⟨-1, some internal_handle, ()⟩
      ∧ libewf_set_format c (some internal_handle) value
        = ⟨-1, some internal_handle, ()⟩
      ∧ libewf_set_guid (some internal_handle) guid size
        = ⟨-1, some internal_handle, ()⟩
      ∧ libewf_set_segment_file_size (some internal_handle) value
        = ⟨-1, some internal_handle, ()⟩
      ∧ libewf_set_header_value c d (some internal_handle) identifier header_value
          value_length = ⟨-1, some internal_handle, ()⟩)
    ∧ (∀ media_values, internal_handle.media_values = some media_values →
        libewf_set_sectors_per_chunk c (some internal_handle) value
          = ⟨if (c.libewf_internal_handle_set_media_values internal_handle value
                media_values.bytes_per_sector media_values.media_size).1 = 1 then 1
              else -1,
              some (c.libewf_internal_handle_set_media_values internal_handle value
                media_values.bytes_per_sector media_values.media_size).2, ()⟩
        ∧ libewf_set_error_granularity (some internal_handle) value
          = ⟨1, some { internal_handle with
              media_values := some { media_values with error_granularity := value } },
              ()⟩)
    ∧ ((level = d.EWF_COMPRESSION_NONE ∨ level = d.EWF_COMPRESSION_FAST
          ∨ level = d.EWF_COMPRESSION_BEST) →
        (libewf_set_compression_values d (some internal_handle) level value).result = 1)
    ∧ (0 < value → value ≤ INT64_MAX →
        libewf_set_delta_segment_file_size (some internal_handle) value
          = ⟨1, some { internal_handle with
              write := some { write with delta_segment_file_size := value } }, ()⟩) := by
  refine ⟨⟨?_, ?_, ?_, ?_, ?_, ?_, ?_, ?_⟩, ?_, ?_, ?_⟩
  · cases hm : internal_handle.media_values <;>
      simp [libewf_set_bytes_per_sector, hm, hread]
  · cases hm : internal_handle.media_values <;>
      simp [libewf_set_media_size, hm, hread]
  · cases hm : internal_handle.media_values <;>
      simp [libewf_set_media_type, hm, hread]
  · cases hm : internal_handle.media_values <;>
      simp [libewf_set_volume_type, hm, hread]
  · simp [libewf_set_format, hread]
  · cases hm : internal_handle.media_values <;> cases guid <;>
      simp [libewf_set_guid, hm, hread]
  · simp [libewf_set_segment_file_size, hread]
  · simp [libewf_set_header_value, hread]
  · intro media_values hmedia
    constructor
    · simp only [libewf_set_sectors_per_chunk, hmedia, hwrite, hinit]
      (repeat' split) <;> simp_all
    · simp [libewf_set_error_granularity, hmedia, hwrite, hinit]
  · intro hlevel
    rw [set_compression_values_success d internal_handle write level value hwrite hinit
      hlevel]
  · intro hpositive hmax
    have hnot : ¬ value > INT64_MAX := by omega
    have hzero : ¬ value = 0 := by omega
    simp [libewf_set_delta_segment_file_size, hwrite, hinit, hnot, hzero]

/-- C35, on a handle opened for reading and writing: `libewf_set_media_type` is
rejected, `libewf_set_error_granularity` is accepted. -/
theorem state_guards_in_read_write_mode_witness :
    sample_read_write_handle.read = some ⟨some ⟨0, []⟩, 0⟩
    ∧ sample_read_write_handle.write = some (sample_write 0)
    ∧ (sample_write 0).values_initialized = 0
    ∧ libewf_set_media_type (some sample_read_write_handle) 1
      = ⟨-1, some sample_read_write_handle, ()⟩
    ∧ (libewf_set_error_granularity (some sample_read_write_handle) 32).result = 1 := by
  have h := state_guards_in_read_write_mode sample_collaborators sample_definitions
    sample_read_write_handle ⟨some ⟨0, []⟩, 0⟩ (sample_write 0) rfl rfl rfl 1 16 0 0 none
    none none
  have hgranularity := ((state_guards_in_read_write_mode sample_collaborators
    sample_definitions sample_read_write_handle ⟨some ⟨0, []⟩, 0⟩ (sample_write 0) rfl rfl
    rfl 32 16 0 0 none none none).2.1 sample_media_values rfl).2
  exact ⟨rfl, rfl, rfl, h.1.2.2.1, by rw [hgranularity]⟩

/-- C36: for all 32-bit `amount_of_sectors` and `bytes_per_sector`, on a handle
whose stored `media_size` is 0 and with a non-NULL output, the media size that
`libewf_get_media_size` computes is the exact product (the 64-bit
multiplication does not wrap modulo 2^64); the call returns -1 exactly when the
product exceeds 2^63 - 1, and 1 with the product as output otherwise; in the
failing case too the stored `media_size` has been overwritten with the
product, while the output is not written. -/
theorem get_media_size_product_is_exact
    (internal_handle : libewf_internal_handle_t) (media_values : libewf_media_values_t)
    (old : Nat) (hmedia : internal_handle.media_values = some media_values)
    (hzero : media_values.media_size = 0)
    (hsectors : media_values.amount_of_sectors < 2 ^ 32)
    (hbytes : media_values.bytes_per_sector < 2 ^ 32) :
    (libewf_get_media_size (some internal_handle) (some old)).handle
        = some { internal_handle with
            media_values := some { media_values with
              media_size := media_values.amount_of_sectors
                * media_values.bytes_per_sector } }
    ∧ ((libewf_get_media_size (some internal_handle) (some old)).result = -1
        ↔ media_values.amount_of_sectors * media_values.bytes_per_sector > 2 ^ 63 - 1)
    ∧ (media_values.amount_of_sectors * media_values.bytes_per_sector ≤ 2 ^ 63 - 1 →
        libewf_get_media_size (some internal_handle) (some old)
          = ⟨1, some { internal_handle with
              media_values := some { media_values with
                media_size := media_values.amount_of_sectors
                  * media_values.bytes_per_sector } },
              some (media_values.amount_of_sectors * media_values.bytes_per_sector)⟩)
    ∧ (media_values.amount_of_sectors * media_values.bytes_per_sector > 2 ^ 63 - 1 →
        libewf_get_media_size (some internal_handle) (some old)
          = ⟨-1, some { internal_handle with
              media_values := some { media_values with
                media_size := media_values.amount_of_sectors
                  * media_values.bytes_per_sector } }, some old⟩) := by
  have hproduct : media_values.amount_of_sectors * media_values.bytes_per_sector
      < 2 ^ 32 * 2 ^ 32 :=
    Nat.mul_lt_mul'' hsectors hbytes
  have hmod : (2 : Nat) ^ 32 * 2 ^ 32 = UINT64_MOD := by decide
  have hlt : (2 : Nat) ^ 32 < UINT64_MOD := by decide
  have hexact : (media_values.amount_of_sectors % UINT64_MOD)
      * (media_values.bytes_per_sector % UINT64_MOD) % UINT64_MOD
      = media_values.amount_of_sectors * media_values.bytes_per_sector := by
    rw [Nat.mod_eq_of_lt (Nat.lt_trans hsectors hlt),
      Nat.mod_eq_of_lt (Nat.lt_trans hbytes hlt), Nat.mod_eq_of_lt (hmod ▸ hproduct)]
  have hmax : (2 : Nat) ^ 63 - 1 = INT64_MAX := by decide
  simp only [hmax, libewf_get_media_size, hmedia, hzero, reduceCtorEq, if_false, if_true,
    hexact]
  generalize media_values.amount_of_sectors * media_values.bytes_per_sector = product
  by_cases h : INT64_MAX < product <;> simp [h]

/-- C36, for 2^32 - 1 sectors of 2^32 - 1 bytes: the product
18446744065119617025 exceeds 2^63 - 1, so `libewf_get_media_size` returns -1,
leaves the output as it was and has stored the product as media size. -/
theorem get_media_size_product_is_exact_witness :
    sample_huge_handle.media_values = some sample_huge_media_values
    ∧ sample_huge_media_values.media_size = 0
    ∧ sample_huge_media_values.amount_of_sectors * sample_huge_media_values.bytes_per_sector
      > 2 ^ 63 - 1
    ∧ libewf_get_media_size (some sample_huge_handle) (some 7)
      = ⟨-1, some { sample_huge_handle with
          media_values := some { sample_huge_media_values with
            media_size := sample_huge_media_values.amount_of_sectors
              * sample_huge_media_values.bytes_per_sector } }, some 7⟩ :=
  ⟨rfl, rfl, by decide,
    (get_media_size_product_is_exact sample_huge_handle sample_huge_media_values 7 rfl rfl
      (by decide) (by decide)).2.2.2 (by decide)⟩

end Libewf
